import Mathlib

/-!
Verification development for the tracee-ebpf schema layer: the event registry
(`EventsIDToEvent`, `EventsIDToParams`), the scalar-config and tail-dispatch
enumerations, and the user-mode namespace bootstrap synthesizer
(`CreateInitNamespacesEvent` and its helpers). Go maps are embedded as
association lists in source order; Go map indexing is embedded as `find?` with
the Go zero value as default. Machine integers are embedded as `Int`/`Nat`
with explicit clamping where the source can overflow.
-/

set_option maxRecDepth 40000

namespace Tracee

/-- Attachment mechanism of a probe (Go enum `probeType`). -/
inductive probeType where
  | sysCall
  | kprobe
  | kretprobe
  | tracepoint
  | rawTracepoint
deriving DecidableEq

/-- One kernel attachment point (Go struct `probe`). -/
structure probe where
  event : String
  attach : probeType
  fn : String
deriving DecidableEq

/-- One event configuration (Go struct `EventConfig`). The Go field `ID32Bit`
is an `int32` whose `sys32*` constant values are declared outside this slice
of the repository; it is embedded as the name of the constant the map literal
supplies (`none` would model a literal that omits the field, leaving the Go
zero value). The sentinel constant is named `"sys32undefined"`. -/
structure EventConfig where
  ID : Int
  ID32Bit : Option String
  Name : String
  Probes : List probe
  EssentialEvent : Bool
  Sets : List String
deriving DecidableEq

/-- One argument schema slot (Go struct `external.ArgMeta`). Modelled from the
spec: the `external` package is outside this slice; the spec fixes an ordered
list of (argument name, argument type tag) pairs per event. The Go field
`Type` is rendered `ArgType`, `Type` being reserved in Lean. -/
structure ArgMeta where
  ArgType : String
  Name : String
deriving DecidableEq

/-- One decoded argument (Go struct `external.Argument`, an embedded `ArgMeta`
plus a `Value interface{}`). Modelled from the spec: the `external` package is
outside this slice. Every value the synthesizer stores is a `uint32`, so
`Value` is embedded as `Nat` (with 0 for the Go zero value). -/
structure Argument where
  argMeta : ArgMeta
  Value : Nat
deriving DecidableEq

/-- Go promotes the embedded `ArgMeta` field, so `arg.Name` in the source
reads the schema slot name. -/
def Argument.Name (a : Argument) : String := a.argMeta.Name

/-- One produced event (Go struct `external.Event`). Modelled from the spec:
the `external` package is outside this slice; the fields kept are exactly the
ones `CreateInitNamespacesEvent` sets (all others stay at their Go zero values
and no claim mentions them). -/
structure Event where
  Timestamp : Int
  ProcessName : String
  EventID : Int
  EventName : String
  ArgsNum : Nat
  Args : List Argument
deriving DecidableEq

/-- Identifiers of syscall-band events. Modelled from the spec: the `*EventID`
constants for syscall events are declared outside this slice of the repository;
the spec fixes only that the syscall band is a low numeric range disjoint from
the 1000 band and the 2000 band, one distinct id per supported system call, so
each constant is assigned a distinct small value in order of appearance. -/
def ReadEventID : Int := 0

def WriteEventID : Int := 1
def OpenEventID : Int := 2
def CloseEventID : Int := 3
def StatEventID : Int := 4
def FstatEventID : Int := 5
def LstatEventID : Int := 6
def PollEventID : Int := 7
def LseekEventID : Int := 8
def MmapEventID : Int := 9
def MprotectEventID : Int := 10
def MunmapEventID : Int := 11
def BrkEventID : Int := 12
def RtSigactionEventID : Int := 13
def RtSigprocmaskEventID : Int := 14
def RtSigreturnEventID : Int := 15
def IoctlEventID : Int := 16
def Pread64EventID : Int := 17
def Pwrite64EventID : Int := 18
def ReadvEventID : Int := 19
def WritevEventID : Int := 20
def AccessEventID : Int := 21
def PipeEventID : Int := 22
def SelectEventID : Int := 23
def SchedYieldEventID : Int := 24
def MremapEventID : Int := 25
def MsyncEventID : Int := 26
def MincoreEventID : Int := 27
def MadviseEventID : Int := 28
def ShmgetEventID : Int := 29
def ShmatEventID : Int := 30
def ShmctlEventID : Int := 31
def DupEventID : Int := 32
def Dup2EventID : Int := 33
def PauseEventID : Int := 34
def NanosleepEventID : Int := 35
def GetitimerEventID : Int := 36
def AlarmEventID : Int := 37
def SetitimerEventID : Int := 38
def GetpidEventID : Int := 39
def SendfileEventID : Int := 40
def SocketEventID : Int := 41
def ConnectEventID : Int := 42
def AcceptEventID : Int := 43
def SendtoEventID : Int := 44
def RecvfromEventID : Int := 45
def SendmsgEventID : Int := 46
def RecvmsgEventID : Int := 47
def ShutdownEventID : Int := 48
def BindEventID : Int := 49
def ListenEventID : Int := 50
def GetsocknameEventID : Int := 51
def GetpeernameEventID : Int := 52
def SocketpairEventID : Int := 53
def SetsockoptEventID : Int := 54
def GetsockoptEventID : Int := 55
def CloneEventID : Int := 56
def ForkEventID : Int := 57
def VforkEventID : Int := 58
def ExecveEventID : Int := 59
def ExitEventID : Int := 60
def Wait4EventID : Int := 61
def KillEventID : Int := 62
def UnameEventID : Int := 63
def SemgetEventID : Int := 64
def SemopEventID : Int := 65
def SemctlEventID : Int := 66
def ShmdtEventID : Int := 67
def MsggetEventID : Int := 68
def MsgsndEventID : Int := 69
def MsgrcvEventID : Int := 70
def MsgctlEventID : Int := 71
def FcntlEventID : Int := 72
def FlockEventID : Int := 73
def FsyncEventID : Int := 74
def FdatasyncEventID : Int := 75
def TruncateEventID : Int := 76
def FtruncateEventID : Int := 77
def GetdentsEventID : Int := 78
def GetcwdEventID : Int := 79
def ChdirEventID : Int := 80
def FchdirEventID : Int := 81
def RenameEventID : Int := 82
def MkdirEventID : Int := 83
def RmdirEventID : Int := 84
def CreatEventID : Int := 85
def LinkEventID : Int := 86
def UnlinkEventID : Int := 87
def SymlinkEventID : Int := 88
def ReadlinkEventID : Int := 89
def ChmodEventID : Int := 90
def FchmodEventID : Int := 91
def ChownEventID : Int := 92
def FchownEventID : Int := 93
def LchownEventID : Int := 94
def UmaskEventID : Int := 95
def GettimeofdayEventID : Int := 96
def GetrlimitEventID : Int := 97
def GetrusageEventID : Int := 98
def SysinfoEventID : Int := 99
def TimesEventID : Int := 100
def PtraceEventID : Int := 101
def GetuidEventID : Int := 102
def SyslogEventID : Int := 103
def GetgidEventID : Int := 104
def SetuidEventID : Int := 105
def SetgidEventID : Int := 106
def GeteuidEventID : Int := 107
def GetegidEventID : Int := 108
def SetpgidEventID : Int := 109
def GetppidEventID : Int := 110
def GetpgrpEventID : Int := 111
def SetsidEventID : Int := 112
def SetreuidEventID : Int := 113
def SetregidEventID : Int := 114
def GetgroupsEventID : Int := 115
def SetgroupsEventID : Int := 116
def SetresuidEventID : Int := 117
def GetresuidEventID : Int := 118
def SetresgidEventID : Int := 119
def GetresgidEventID : Int := 120
def GetpgidEventID : Int := 121
def SetfsuidEventID : Int := 122
def SetfsgidEventID : Int := 123
def GetsidEventID : Int := 124
def CapgetEventID : Int := 125
def CapsetEventID : Int := 126
def RtSigpendingEventID : Int := 127
def RtSigtimedwaitEventID : Int := 128
def RtSigqueueinfoEventID : Int := 129
def RtSigsuspendEventID : Int := 130
def SigaltstackEventID : Int := 131
def UtimeEventID : Int := 132
def MknodEventID : Int := 133
def UselibEventID : Int := 134
def PersonalityEventID : Int := 135
def UstatEventID : Int := 136
def StatfsEventID : Int := 137
def FstatfsEventID : Int := 138
def SysfsEventID : Int := 139
def GetpriorityEventID : Int := 140
def SetpriorityEventID : Int := 141
def SchedSetparamEventID : Int := 142
def SchedGetparamEventID : Int := 143
def SchedSetschedulerEventID : Int := 144
def SchedGetschedulerEventID : Int := 145
def SchedGetPriorityMaxEventID : Int := 146
def SchedGetPriorityMinEventID : Int := 147
def SchedRrGetIntervalEventID : Int := 148
def MlockEventID : Int := 149
def MunlockEventID : Int := 150
def MlockallEventID : Int := 151
def MunlockallEventID : Int := 152
def VhangupEventID : Int := 153
def ModifyLdtEventID : Int := 154
def PivotRootEventID : Int := 155
def SysctlEventID : Int := 156
def PrctlEventID : Int := 157
def ArchPrctlEventID : Int := 158
def AdjtimexEventID : Int := 159
def SetrlimitEventID : Int := 160
def ChrootEventID : Int := 161
def SyncEventID : Int := 162
def AcctEventID : Int := 163
def SettimeofdayEventID : Int := 164
def MountEventID : Int := 165
def UmountEventID : Int := 166
def SwaponEventID : Int := 167
def SwapoffEventID : Int := 168
def RebootEventID : Int := 169
def SethostnameEventID : Int := 170
def SetdomainnameEventID : Int := 171
def IoplEventID : Int := 172
def IopermEventID : Int := 173
def CreateModuleEventID : Int := 174
def InitModuleEventID : Int := 175
def DeleteModuleEventID : Int := 176
def GetKernelSymsEventID : Int := 177
def QueryModuleEventID : Int := 178
def QuotactlEventID : Int := 179
def NfsservctlEventID : Int := 180
def GetpmsgEventID : Int := 181
def PutpmsgEventID : Int := 182
def AfsEventID : Int := 183
def TuxcallEventID : Int := 184
def SecurityEventID : Int := 185
def GettidEventID : Int := 186
def ReadaheadEventID : Int := 187
def SetxattrEventID : Int := 188
def LsetxattrEventID : Int := 189
def FsetxattrEventID : Int := 190
def GetxattrEventID : Int := 191
def LgetxattrEventID : Int := 192
def FgetxattrEventID : Int := 193
def ListxattrEventID : Int := 194
def LlistxattrEventID : Int := 195
def FlistxattrEventID : Int := 196
def RemovexattrEventID : Int := 197
def LremovexattrEventID : Int := 198
def FremovexattrEventID : Int := 199
def TkillEventID : Int := 200
def TimeEventID : Int := 201
def FutexEventID : Int := 202
def SchedSetaffinityEventID : Int := 203
def SchedGetaffinityEventID : Int := 204
def SetThreadAreaEventID : Int := 205
def IoSetupEventID : Int := 206
def IoDestroyEventID : Int := 207
def IoGeteventsEventID : Int := 208
def IoSubmitEventID : Int := 209
def IoCancelEventID : Int := 210
def GetThreadAreaEventID : Int := 211
def LookupDcookieEventID : Int := 212
def EpollCreateEventID : Int := 213
def EpollCtlOldEventID : Int := 214
def EpollWaitOldEventID : Int := 215
def RemapFilePagesEventID : Int := 216
def Getdents64EventID : Int := 217
def SetTidAddressEventID : Int := 218
def RestartSyscallEventID : Int := 219
def SemtimedopEventID : Int := 220
def Fadvise64EventID : Int := 221
def TimerCreateEventID : Int := 222
def TimerSettimeEventID : Int := 223
def TimerGettimeEventID : Int := 224
def TimerGetoverrunEventID : Int := 225
def TimerDeleteEventID : Int := 226
def ClockSettimeEventID : Int := 227
def ClockGettimeEventID : Int := 228
def ClockGetresEventID : Int := 229
def ClockNanosleepEventID : Int := 230
def ExitGroupEventID : Int := 231
def EpollWaitEventID : Int := 232
def EpollCtlEventID : Int := 233
def TgkillEventID : Int := 234
def UtimesEventID : Int := 235
def VserverEventID : Int := 236
def MbindEventID : Int := 237
def SetMempolicyEventID : Int := 238
def GetMempolicyEventID : Int := 239
def MqOpenEventID : Int := 240
def MqUnlinkEventID : Int := 241
def MqTimedsendEventID : Int := 242
def MqTimedreceiveEventID : Int := 243
def MqNotifyEventID : Int := 244
def MqGetsetattrEventID : Int := 245
def KexecLoadEventID : Int := 246
def WaitidEventID : Int := 247
def AddKeyEventID : Int := 248
def RequestKeyEventID : Int := 249
def KeyctlEventID : Int := 250
def IoprioSetEventID : Int := 251
def IoprioGetEventID : Int := 252
def InotifyInitEventID : Int := 253
def InotifyAddWatchEventID : Int := 254
def InotifyRmWatchEventID : Int := 255
def MigratePagesEventID : Int := 256
def OpenatEventID : Int := 257
def MkdiratEventID : Int := 258
def MknodatEventID : Int := 259
def FchownatEventID : Int := 260
def FutimesatEventID : Int := 261
def NewfstatatEventID : Int := 262
def UnlinkatEventID : Int := 263
def RenameatEventID : Int := 264
def LinkatEventID : Int := 265
def SymlinkatEventID : Int := 266
def ReadlinkatEventID : Int := 267
def FchmodatEventID : Int := 268
def FaccessatEventID : Int := 269
def Pselect6EventID : Int := 270
def PpollEventID : Int := 271
def UnshareEventID : Int := 272
def SetRobustListEventID : Int := 273
def GetRobustListEventID : Int := 274
def SpliceEventID : Int := 275
def TeeEventID : Int := 276
def SyncFileRangeEventID : Int := 277
def VmspliceEventID : Int := 278
def MovePagesEventID : Int := 279
def UtimensatEventID : Int := 280
def EpollPwaitEventID : Int := 281
def SignalfdEventID : Int := 282
def TimerfdCreateEventID : Int := 283
def EventfdEventID : Int := 284
def FallocateEventID : Int := 285
def TimerfdSettimeEventID : Int := 286
def TimerfdGettimeEventID : Int := 287
def Accept4EventID : Int := 288
def Signalfd4EventID : Int := 289
def Eventfd2EventID : Int := 290
def EpollCreate1EventID : Int := 291
def Dup3EventID : Int := 292
def Pipe2EventID : Int := 293
def InotifyInit1EventID : Int := 294
def PreadvEventID : Int := 295
def PwritevEventID : Int := 296
def RtTgsigqueueinfoEventID : Int := 297
def PerfEventOpenEventID : Int := 298
def RecvmmsgEventID : Int := 299
def FanotifyInitEventID : Int := 300
def FanotifyMarkEventID : Int := 301
def Prlimit64EventID : Int := 302
def NameToHandleAtEventID : Int := 303
def OpenByHandleAtEventID : Int := 304
def ClockAdjtimeEventID : Int := 305
def SyncfsEventID : Int := 306
def SendmmsgEventID : Int := 307
def SetnsEventID : Int := 308
def GetcpuEventID : Int := 309
def ProcessVmReadvEventID : Int := 310
def ProcessVmWritevEventID : Int := 311
def KcmpEventID : Int := 312
def FinitModuleEventID : Int := 313
def SchedSetattrEventID : Int := 314
def SchedGetattrEventID : Int := 315
def Renameat2EventID : Int := 316
def SeccompEventID : Int := 317
def GetrandomEventID : Int := 318
def MemfdCreateEventID : Int := 319
def KexecFileLoadEventID : Int := 320
def BpfEventID : Int := 321
def ExecveatEventID : Int := 322
def UserfaultfdEventID : Int := 323
def MembarrierEventID : Int := 324
def Mlock2EventID : Int := 325
def CopyFileRangeEventID : Int := 326
def Preadv2EventID : Int := 327
def Pwritev2EventID : Int := 328
def PkeyMprotectEventID : Int := 329
def PkeyAllocEventID : Int := 330
def PkeyFreeEventID : Int := 331
def StatxEventID : Int := 332
def IoPgeteventsEventID : Int := 333
def RseqEventID : Int := 334
def PidfdSendSignalEventID : Int := 335
def IoUringSetupEventID : Int := 336
def IoUringEnterEventID : Int := 337
def IoUringRegisterEventID : Int := 338
def OpenTreeEventID : Int := 339
def MoveMountEventID : Int := 340
def FsopenEventID : Int := 341
def FsconfigEventID : Int := 342
def FsmountEventID : Int := 343
def FspickEventID : Int := 344
def PidfdOpenEventID : Int := 345
def Clone3EventID : Int := 346
def CloseRangeEventID : Int := 347
def Openat2EventID : Int := 348
def PidfdGetfdEventID : Int := 349
def Faccessat2EventID : Int := 350
def ProcessMadviseEventID : Int := 351
def EpollPwait2EventID : Int := 352

/-- Non-syscall kernel events, `iota + 1000` in the source. -/
def SysEnterEventID : Int := 1000

def SysExitEventID : Int := 1001
def SchedProcessForkEventID : Int := 1002
def SchedProcessExecEventID : Int := 1003
def SchedProcessExitEventID : Int := 1004
def SchedSwitchEventID : Int := 1005
def DoExitEventID : Int := 1006
def CapCapableEventID : Int := 1007
def VfsWriteEventID : Int := 1008
def VfsWritevEventID : Int := 1009
def MemProtAlertEventID : Int := 1010
def CommitCredsEventID : Int := 1011
def SwitchTaskNSEventID : Int := 1012
def MagicWriteEventID : Int := 1013
def CgroupAttachTaskEventID : Int := 1014
def CgroupMkdirEventID : Int := 1015
def CgroupRmdirEventID : Int := 1016
def SecurityBprmCheckEventID : Int := 1017
def SecurityFileOpenEventID : Int := 1018
def SecurityInodeUnlinkEventID : Int := 1019
def SecuritySocketCreateEventID : Int := 1020
def SecuritySocketListenEventID : Int := 1021
def SecuritySocketConnectEventID : Int := 1022
def SecuritySocketAcceptEventID : Int := 1023
def SecuritySocketBindEventID : Int := 1024
def SecuritySbMountEventID : Int := 1025
def SecurityBPFEventID : Int := 1026
def SecurityBPFMapEventID : Int := 1027
def SecurityKernelReadFileEventID : Int := 1028
def SecurityInodeMknodEventID : Int := 1029
def SecurityPostReadFileEventID : Int := 1030
def SocketDupEventID : Int := 1031
def MaxEventID : Int := 1032

/-- The one user-space-originated event, `iota + 2000` in the source. -/
def InitNamespacesEventID : Int := 2000

/-- Slices of the `EventsIDToEvent` literal (split only to keep elaboration
of the long list literal tractable; `EventsIDToEvent` below is their
concatenation in source order). -/
def eventsChunk0 : List (Int × EventConfig) := [
  (ReadEventID, { ID := ReadEventID, ID32Bit := some "sys32read", Name := "read", Probes := [{ event := "read", attach := .sysCall, fn := "read" }], EssentialEvent := false, Sets := ["syscalls", "fs", "fs_read_write"] }),
  (WriteEventID, { ID := WriteEventID, ID32Bit := some "sys32write", Name := "write", Probes := [{ event := "write", attach := .sysCall, fn := "write" }], EssentialEvent := false, Sets := ["syscalls", "fs", "fs_read_write"] }),
  (OpenEventID, { ID := OpenEventID, ID32Bit := some "sys32open", Name := "open", Probes := [{ event := "open", attach := .sysCall, fn := "open" }], EssentialEvent := false, Sets := ["default", "syscalls", "fs", "fs_file_ops"] }),
  (CloseEventID, { ID := CloseEventID, ID32Bit := some "sys32close", Name := "close", Probes := [{ event := "close", attach := .sysCall, fn := "close" }], EssentialEvent := false, Sets := ["default", "syscalls", "fs", "fs_file_ops"] }),
  (StatEventID, { ID := StatEventID, ID32Bit := some "sys32stat", Name := "stat", Probes := [{ event := "newstat", attach := .sysCall, fn := "newstat" }], EssentialEvent := false, Sets := ["default", "syscalls", "fs", "fs_file_attr"] }),
  (FstatEventID, { ID := FstatEventID, ID32Bit := some "sys32fstat", Name := "fstat", Probes := [{ event := "newfstat", attach := .sysCall, fn := "newfstat" }], EssentialEvent := false, Sets := ["default", "syscalls", "fs", "fs_file_attr"] }),
  (LstatEventID, { ID := LstatEventID, ID32Bit := some "sys32lstat", Name := "lstat", Probes := [{ event := "newlstat", attach := .sysCall, fn := "newlstat" }], EssentialEvent := false, Sets := ["default", "syscalls", "fs", "fs_file_attr"] }),
  (PollEventID, { ID := PollEventID, ID32Bit := some "sys32poll", Name := "poll", Probes := [{ event := "poll", attach := .sysCall, fn := "poll" }], EssentialEvent := false, Sets := ["syscalls", "fs", "fs_mux_io"] }),
  (LseekEventID, { ID := LseekEventID, ID32Bit := some "sys32lseek", Name := "lseek", Probes := [{ event := "lseek", attach := .sysCall, fn := "lseek" }], EssentialEvent := false, Sets := ["syscalls", "fs", "fs_read_write"] }),
  (MmapEventID, { ID := MmapEventID, ID32Bit := some "sys32mmap", Name := "mmap", Probes := [{ event := "mmap", attach := .sysCall, fn := "mmap" }], EssentialEvent := false, Sets := ["syscalls", "proc", "proc_mem"] }),
  (MprotectEventID, { ID := MprotectEventID, ID32Bit := some "sys32mprotect", Name := "mprotect", Probes := [{ event := "mprotect", attach := .sysCall, fn := "mprotect" }], EssentialEvent := false, Sets := ["syscalls", "proc", "proc_mem"] }),
  (MunmapEventID, { ID := MunmapEventID, ID32Bit := some "sys32munmap", Name := "munmap", Probes := [{ event := "munmap", attach := .sysCall, fn := "munmap" }], EssentialEvent := false, Sets := ["syscalls", "proc", "proc_mem"] }),
  (BrkEventID, { ID := BrkEventID, ID32Bit := some "sys32brk", Name := "brk", Probes := [{ event := "brk", attach := .sysCall, fn := "brk" }], EssentialEvent := false, Sets := ["syscalls", "proc", "proc_mem"] }),
  (RtSigactionEventID, { ID := RtSigactionEventID, ID32Bit := some "sys32rt_sigaction", Name := "rt_sigaction", Probes := [{ event := "rt_sigaction", attach := .sysCall, fn := "rt_sigaction" }], EssentialEvent := false, Sets := ["syscalls", "signals"] }),
  (RtSigprocmaskEventID, { ID := RtSigprocmaskEventID, ID32Bit := some "sys32rt_sigprocmask", Name := "rt_sigprocmask", Probes := [{ event := "rt_sigprocmask", attach := .sysCall, fn := "rt_sigprocmask" }], EssentialEvent := false, Sets := ["syscalls", "signals"] }),
  (RtSigreturnEventID, { ID := RtSigreturnEventID, ID32Bit := some "sys32rt_sigreturn", Name := "rt_sigreturn", Probes := [{ event := "rt_sigreturn", attach := .sysCall, fn := "rt_sigreturn" }], EssentialEvent := false, Sets := ["syscalls", "signals"] }),
  (IoctlEventID, { ID := IoctlEventID, ID32Bit := some "sys32ioctl", Name := "ioctl", Probes := [{ event := "ioctl", attach := .sysCall, fn := "ioctl" }], EssentialEvent := false, Sets := ["syscalls", "fs", "fs_fd_ops"] }),
  (Pread64EventID, { ID := Pread64EventID, ID32Bit := some "sys32pread64", Name := "pread64", Probes := [{ event := "pread64", attach := .sysCall, fn := "pread64" }], EssentialEvent := false, Sets := ["syscalls", "fs", "fs_read_write"] }),
  (Pwrite64EventID, { ID := Pwrite64EventID, ID32Bit := some "sys32pwrite64", Name := "pwrite64", Probes := [{ event := "pwrite64", attach := .sysCall, fn := "pwrite64" }], EssentialEvent := false, Sets := ["syscalls", "fs", "fs_read_write"] }),
  (ReadvEventID, { ID := ReadvEventID, ID32Bit := some "sys32readv", Name := "readv", Probes := [{ event := "readv", attach := .sysCall, fn := "readv" }], EssentialEvent := false, Sets := ["syscalls", "fs", "fs_read_write"] }),
  (WritevEventID, { ID := WritevEventID, ID32Bit := some "sys32writev", Name := "writev", Probes := [{ event := "writev", attach := .sysCall, fn := "writev" }], EssentialEvent := false, Sets := ["syscalls", "fs", "fs_read_write"] }),
  (AccessEventID, { ID := AccessEventID, ID32Bit := some "sys32access", Name := "access", Probes := [{ event := "access", attach := .sysCall, fn := "access" }], EssentialEvent := false, Sets := ["default", "syscalls", "fs", "fs_file_attr"] }),
  (PipeEventID, { ID := PipeEventID, ID32Bit := some "sys32pipe", Name := "pipe", Probes := [{ event := "pipe", attach := .sysCall, fn := "pipe" }], EssentialEvent := false, Sets := ["syscalls", "ipc", "ipc_pipe"] }),
  (SelectEventID, { ID := SelectEventID, ID32Bit := some "sys32select", Name := "select", Probes := [{ event := "select", attach := .sysCall, fn := "select" }], EssentialEvent := false, Sets := ["syscalls", "fs", "fs_mux_io"] }),
  (SchedYieldEventID, { ID := SchedYieldEventID, ID32Bit := some "sys32sched_yield", Name := "sched_yield", Probes := [{ event := "sched_yield", attach := .sysCall, fn := "sched_yield" }], EssentialEvent := false, Sets := ["syscalls", "proc", "proc_sched"] }),
  (MremapEventID, { ID := MremapEventID, ID32Bit := some "sys32mremap", Name := "mremap", Probes := [{ event := "mremap", attach := .sysCall, fn := "mremap" }], EssentialEvent := false, Sets := ["syscalls", "proc", "proc_mem"] }),
  (MsyncEventID, { ID := MsyncEventID, ID32Bit := some "sys32msync", Name := "msync", Probes := [{ event := "msync", attach := .sysCall, fn := "msync" }], EssentialEvent := false, Sets := ["syscalls", "fs", "fs_sync"] }),
  (MincoreEventID, { ID := MincoreEventID, ID32Bit := some "sys32mincore", Name := "mincore", Probes := [{ event := "mincore", attach := .sysCall, fn := "mincore" }], EssentialEvent := false, Sets := ["syscalls", "proc", "proc_mem"] }),
  (MadviseEventID, { ID := MadviseEventID, ID32Bit := some "sys32madvise", Name := "madvise", Probes := [{ event := "madvise", attach := .sysCall, fn := "madvise" }], EssentialEvent := false, Sets := ["syscalls", "proc", "proc_mem"] }),
  (ShmgetEventID, { ID := ShmgetEventID, ID32Bit := some "sys32shmget", Name := "shmget", Probes := [{ event := "shmget", attach := .sysCall, fn := "shmget" }], EssentialEvent := false, Sets := ["syscalls", "ipc", "ipc_shm"] }),
  (ShmatEventID, { ID := ShmatEventID, ID32Bit := some "sys32shmat", Name := "shmat", Probes := [{ event := "shmat", attach := .sysCall, fn := "shmat" }], EssentialEvent := false, Sets := ["syscalls", "ipc", "ipc_shm"] }),
  (ShmctlEventID, { ID := ShmctlEventID, ID32Bit := some "sys32shmctl", Name := "shmctl", Probes := [{ event := "shmctl", attach := .sysCall, fn := "shmctl" }], EssentialEvent := false, Sets := ["syscalls", "ipc", "ipc_shm"] }),
  (DupEventID, { ID := DupEventID, ID32Bit := some "sys32dup", Name := "dup", Probes := [{ event := "dup", attach := .sysCall, fn := "dup" }], EssentialEvent := false, Sets := ["default", "syscalls", "fs", "fs_fd_ops"] }),
  (Dup2EventID, { ID := Dup2EventID, ID32Bit := some "sys32dup2", Name := "dup2", Probes := [{ event := "dup2", attach := .sysCall, fn := "dup2" }], EssentialEvent := false, Sets := ["default", "syscalls", "fs", "fs_fd_ops"] }),
  (PauseEventID, { ID := PauseEventID, ID32Bit := some "sys32pause", Name := "pause", Probes := [{ event := "pause", attach := .sysCall, fn := "pause" }], EssentialEvent := false, Sets := ["syscalls", "signals"] }),
  (NanosleepEventID, { ID := NanosleepEventID, ID32Bit := some "sys32nanosleep", Name := "nanosleep", Probes := [{ event := "nanosleep", attach := .sysCall, fn := "nanosleep" }], EssentialEvent := false, Sets := ["syscalls", "time", "time_timer"] }),
  (GetitimerEventID, { ID := GetitimerEventID, ID32Bit := some "sys32getitimer", Name := "getitimer", Probes := [{ event := "getitimer", attach := .sysCall, fn := "getitimer" }], EssentialEvent := false, Sets := ["syscalls", "time", "time_timer"] }),
  (AlarmEventID, { ID := AlarmEventID, ID32Bit := some "sys32alarm", Name := "alarm", Probes := [{ event := "alarm", attach := .sysCall, fn := "alarm" }], EssentialEvent := false, Sets := ["syscalls", "time", "time_timer"] }),
  (SetitimerEventID, { ID := SetitimerEventID, ID32Bit := some "sys32setitimer", Name := "setitimer", Probes := [{ event := "setitimer", attach := .sysCall, fn := "setitimer" }], EssentialEvent := false, Sets := ["syscalls", "time", "time_timer"] }),
  (GetpidEventID, { ID := GetpidEventID, ID32Bit := some "sys32getpid", Name := "getpid", Probes := [{ event := "getpid", attach := .sysCall, fn := "getpid" }], EssentialEvent := false, Sets := ["syscalls", "proc", "proc_ids"] })
]

def eventsChunk1 : List (Int × EventConfig) := [
  (SendfileEventID, { ID := SendfileEventID, ID32Bit := some "sys32sendfile", Name := "sendfile", Probes := [{ event := "sendfile", attach := .sysCall, fn := "sendfile" }], EssentialEvent := false, Sets := ["syscalls", "fs", "fs_read_write"] }),
  (SocketEventID, { ID := SocketEventID, ID32Bit := some "sys32socket", Name := "socket", Probes := [{ event := "socket", attach := .sysCall, fn := "socket" }], EssentialEvent := false, Sets := ["default", "syscalls", "net", "net_sock"] }),
  (ConnectEventID, { ID := ConnectEventID, ID32Bit := some "sys32connect", Name := "connect", Probes := [{ event := "connect", attach := .sysCall, fn := "connect" }], EssentialEvent := false, Sets := ["default", "syscalls", "net", "net_sock"] }),
  (AcceptEventID, { ID := AcceptEventID, ID32Bit := some "sys32undefined", Name := "accept", Probes := [{ event := "accept", attach := .sysCall, fn := "accept" }], EssentialEvent := false, Sets := ["default", "syscalls", "net", "net_sock"] }),
  (SendtoEventID, { ID := SendtoEventID, ID32Bit := some "sys32sendto", Name := "sendto", Probes := [{ event := "sendto", attach := .sysCall, fn := "sendto" }], EssentialEvent := false, Sets := ["syscalls", "net", "net_snd_rcv"] }),
  (RecvfromEventID, { ID := RecvfromEventID, ID32Bit := some "sys32recvfrom", Name := "recvfrom", Probes := [{ event := "recvfrom", attach := .sysCall, fn := "recvfrom" }], EssentialEvent := false, Sets := ["syscalls", "net", "net_snd_rcv"] }),
  (SendmsgEventID, { ID := SendmsgEventID, ID32Bit := some "sys32sendmsg", Name := "sendmsg", Probes := [{ event := "sendmsg", attach := .sysCall, fn := "sendmsg" }], EssentialEvent := false, Sets := ["syscalls", "net", "net_snd_rcv"] }),
  (RecvmsgEventID, { ID := RecvmsgEventID, ID32Bit := some "sys32recvmsg", Name := "recvmsg", Probes := [{ event := "recvmsg", attach := .sysCall, fn := "recvmsg" }], EssentialEvent := false, Sets := ["syscalls", "net", "net_snd_rcv"] }),
  (ShutdownEventID, { ID := ShutdownEventID, ID32Bit := some "sys32shutdown", Name := "shutdown", Probes := [{ event := "shutdown", attach := .sysCall, fn := "shutdown" }], EssentialEvent := false, Sets := ["syscalls", "net", "net_sock"] }),
  (BindEventID, { ID := BindEventID, ID32Bit := some "sys32bind", Name := "bind", Probes := [{ event := "bind", attach := .sysCall, fn := "bind" }], EssentialEvent := false, Sets := ["default", "syscalls", "net", "net_sock"] }),
  (ListenEventID, { ID := ListenEventID, ID32Bit := some "sys32listen", Name := "listen", Probes := [{ event := "listen", attach := .sysCall, fn := "listen" }], EssentialEvent := false, Sets := ["default", "syscalls", "net", "net_sock"] }),
  (GetsocknameEventID, { ID := GetsocknameEventID, ID32Bit := some "sys32getsockname", Name := "getsockname", Probes := [{ event := "getsockname", attach := .sysCall, fn := "getsockname" }], EssentialEvent := false, Sets := ["default", "syscalls", "net", "net_sock"] }),
  (GetpeernameEventID, { ID := GetpeernameEventID, ID32Bit := some "sys32getpeername", Name := "getpeername", Probes := [{ event := "getpeername", attach := .sysCall, fn := "getpeername" }], EssentialEvent := false, Sets := ["syscalls", "net", "net_sock"] }),
  (SocketpairEventID, { ID := SocketpairEventID, ID32Bit := some "sys32socketpair", Name := "socketpair", Probes := [{ event := "socketpair", attach := .sysCall, fn := "socketpair" }], EssentialEvent := false, Sets := ["syscalls", "net", "net_sock"] }),
  (SetsockoptEventID, { ID := SetsockoptEventID, ID32Bit := some "sys32setsockopt", Name := "setsockopt", Probes := [{ event := "setsockopt", attach := .sysCall, fn := "setsockopt" }], EssentialEvent := false, Sets := ["syscalls", "net", "net_sock"] }),
  (GetsockoptEventID, { ID := GetsockoptEventID, ID32Bit := some "sys32getsockopt", Name := "getsockopt", Probes := [{ event := "getsockopt", attach := .sysCall, fn := "getsockopt" }], EssentialEvent := false, Sets := ["syscalls", "net", "net_sock"] }),
  (CloneEventID, { ID := CloneEventID, ID32Bit := some "sys32clone", Name := "clone", Probes := [{ event := "clone", attach := .sysCall, fn := "clone" }], EssentialEvent := false, Sets := ["default", "syscalls", "proc", "proc_life"] }),
  (ForkEventID, { ID := ForkEventID, ID32Bit := some "sys32fork", Name := "fork", Probes := [{ event := "fork", attach := .sysCall, fn := "fork" }], EssentialEvent := false, Sets := ["default", "syscalls", "proc", "proc_life"] }),
  (VforkEventID, { ID := VforkEventID, ID32Bit := some "sys32vfork", Name := "vfork", Probes := [{ event := "vfork", attach := .sysCall, fn := "vfork" }], EssentialEvent := false, Sets := ["default", "syscalls", "proc", "proc_life"] }),
  (ExecveEventID, { ID := ExecveEventID, ID32Bit := some "sys32execve", Name := "execve", Probes := [{ event := "execve", attach := .sysCall, fn := "execve" }], EssentialEvent := false, Sets := ["default", "syscalls", "proc", "proc_life"] }),
  (ExitEventID, { ID := ExitEventID, ID32Bit := some "sys32exit", Name := "exit", Probes := [{ event := "exit", attach := .sysCall, fn := "exit" }], EssentialEvent := false, Sets := ["syscalls", "proc", "proc_life"] }),
  (Wait4EventID, { ID := Wait4EventID, ID32Bit := some "sys32wait4", Name := "wait4", Probes := [{ event := "wait4", attach := .sysCall, fn := "wait4" }], EssentialEvent := false, Sets := ["syscalls", "proc", "proc_life"] }),
  (KillEventID, { ID := KillEventID, ID32Bit := some "sys32kill", Name := "kill", Probes := [{ event := "kill", attach := .sysCall, fn := "kill" }], EssentialEvent := false, Sets := ["default", "syscalls", "signals"] }),
  (UnameEventID, { ID := UnameEventID, ID32Bit := some "sys32uname", Name := "uname", Probes := [{ event := "uname", attach := .sysCall, fn := "uname" }], EssentialEvent := false, Sets := ["syscalls", "system"] }),
  (SemgetEventID, { ID := SemgetEventID, ID32Bit := some "sys32semget", Name := "semget", Probes := [{ event := "semget", attach := .sysCall, fn := "semget" }], EssentialEvent := false, Sets := ["syscalls", "ipc", "ipc_sem"] }),
  (SemopEventID, { ID := SemopEventID, ID32Bit := some "sys32undefined", Name := "semop", Probes := [{ event := "semop", attach := .sysCall, fn := "semop" }], EssentialEvent := false, Sets := ["syscalls", "ipc", "ipc_sem"] }),
  (SemctlEventID, { ID := SemctlEventID, ID32Bit := some "sys32semctl", Name := "semctl", Probes := [{ event := "semctl", attach := .sysCall, fn := "semctl" }], EssentialEvent := false, Sets := ["syscalls", "ipc", "ipc_sem"] }),
  (ShmdtEventID, { ID := ShmdtEventID, ID32Bit := some "sys32shmdt", Name := "shmdt", Probes := [{ event := "shmdt", attach := .sysCall, fn := "shmdt" }], EssentialEvent := false, Sets := ["syscalls", "ipc", "ipc_shm"] }),
  (MsggetEventID, { ID := MsggetEventID, ID32Bit := some "sys32msgget", Name := "msgget", Probes := [{ event := "msgget", attach := .sysCall, fn := "msgget" }], EssentialEvent := false, Sets := ["syscalls", "ipc", "ipc_msgq"] }),
  (MsgsndEventID, { ID := MsgsndEventID, ID32Bit := some "sys32msgsnd", Name := "msgsnd", Probes := [{ event := "msgsnd", attach := .sysCall, fn := "msgsnd" }], EssentialEvent := false, Sets := ["syscalls", "ipc", "ipc_msgq"] }),
  (MsgrcvEventID, { ID := MsgrcvEventID, ID32Bit := some "sys32msgrcv", Name := "msgrcv", Probes := [{ event := "msgrcv", attach := .sysCall, fn := "msgrcv" }], EssentialEvent := false, Sets := ["syscalls", "ipc", "ipc_msgq"] }),
  (MsgctlEventID, { ID := MsgctlEventID, ID32Bit := some "sys32msgctl", Name := "msgctl", Probes := [{ event := "msgctl", attach := .sysCall, fn := "msgctl" }], EssentialEvent := false, Sets := ["syscalls", "ipc", "ipc_msgq"] }),
  (FcntlEventID, { ID := FcntlEventID, ID32Bit := some "sys32fcntl", Name := "fcntl", Probes := [{ event := "fcntl", attach := .sysCall, fn := "fcntl" }], EssentialEvent := false, Sets := ["syscalls", "fs", "fs_fd_ops"] }),
  (FlockEventID, { ID := FlockEventID, ID32Bit := some "sys32flock", Name := "flock", Probes := [{ event := "flock", attach := .sysCall, fn := "flock" }], EssentialEvent := false, Sets := ["syscalls", "fs", "fs_fd_ops"] }),
  (FsyncEventID, { ID := FsyncEventID, ID32Bit := some "sys32fsync", Name := "fsync", Probes := [{ event := "fsync", attach := .sysCall, fn := "fsync" }], EssentialEvent := false, Sets := ["syscalls", "fs", "fs_sync"] }),
  (FdatasyncEventID, { ID := FdatasyncEventID, ID32Bit := some "sys32fdatasync", Name := "fdatasync", Probes := [{ event := "fdatasync", attach := .sysCall, fn := "fdatasync" }], EssentialEvent := false, Sets := ["syscalls", "fs", "fs_sync"] }),
  (TruncateEventID, { ID := TruncateEventID, ID32Bit := some "sys32truncate", Name := "truncate", Probes := [{ event := "truncate", attach := .sysCall, fn := "truncate" }], EssentialEvent := false, Sets := ["syscalls", "fs", "fs_file_ops"] }),
  (FtruncateEventID, { ID := FtruncateEventID, ID32Bit := some "sys32ftruncate", Name := "ftruncate", Probes := [{ event := "ftruncate", attach := .sysCall, fn := "ftruncate" }], EssentialEvent := false, Sets := ["syscalls", "fs", "fs_file_ops"] }),
  (GetdentsEventID, { ID := GetdentsEventID, ID32Bit := some "sys32getdents", Name := "getdents", Probes := [{ event := "getdents", attach := .sysCall, fn := "getdents" }], EssentialEvent := false, Sets := ["default", "syscalls", "fs", "fs_dir_ops"] }),
  (GetcwdEventID, { ID := GetcwdEventID, ID32Bit := some "sys32getcwd", Name := "getcwd", Probes := [{ event := "getcwd", attach := .sysCall, fn := "getcwd" }], EssentialEvent := false, Sets := ["syscalls", "fs", "fs_dir_ops"] })
]

def eventsChunk2 : List (Int × EventConfig) := [
  (ChdirEventID, { ID := ChdirEventID, ID32Bit := some "sys32chdir", Name := "chdir", Probes := [{ event := "chdir", attach := .sysCall, fn := "chdir" }], EssentialEvent := false, Sets := ["syscalls", "fs", "fs_dir_ops"] }),
  (FchdirEventID, { ID := FchdirEventID, ID32Bit := some "sys32fchdir", Name := "fchdir", Probes := [{ event := "fchdir", attach := .sysCall, fn := "fchdir" }], EssentialEvent := false, Sets := ["syscalls", "fs", "fs_dir_ops"] }),
  (RenameEventID, { ID := RenameEventID, ID32Bit := some "sys32rename", Name := "rename", Probes := [{ event := "rename", attach := .sysCall, fn := "rename" }], EssentialEvent := false, Sets := ["syscalls", "fs", "fs_file_ops"] }),
  (MkdirEventID, { ID := MkdirEventID, ID32Bit := some "sys32mkdir", Name := "mkdir", Probes := [{ event := "mkdir", attach := .sysCall, fn := "mkdir" }], EssentialEvent := false, Sets := ["syscalls", "fs", "fs_dir_ops"] }),
  (RmdirEventID, { ID := RmdirEventID, ID32Bit := some "sys32rmdir", Name := "rmdir", Probes := [{ event := "rmdir", attach := .sysCall, fn := "rmdir" }], EssentialEvent := false, Sets := ["syscalls", "fs", "fs_dir_ops"] }),
  (CreatEventID, { ID := CreatEventID, ID32Bit := some "sys32creat", Name := "creat", Probes := [{ event := "creat", attach := .sysCall, fn := "creat" }], EssentialEvent := false, Sets := ["default", "syscalls", "fs", "fs_file_ops"] }),
  (LinkEventID, { ID := LinkEventID, ID32Bit := some "sys32link", Name := "link", Probes := [{ event := "link", attach := .sysCall, fn := "link" }], EssentialEvent := false, Sets := ["syscalls", "fs", "fs_link_ops"] }),
  (UnlinkEventID, { ID := UnlinkEventID, ID32Bit := some "sys32unlink", Name := "unlink", Probes := [{ event := "unlink", attach := .sysCall, fn := "unlink" }], EssentialEvent := false, Sets := ["default", "syscalls", "fs", "fs_link_ops"] }),
  (SymlinkEventID, { ID := SymlinkEventID, ID32Bit := some "sys32symlink", Name := "symlink", Probes := [{ event := "symlink", attach := .sysCall, fn := "symlink" }], EssentialEvent := false, Sets := ["default", "syscalls", "fs", "fs_link_ops"] }),
  (ReadlinkEventID, { ID := ReadlinkEventID, ID32Bit := some "sys32readlink", Name := "readlink", Probes := [{ event := "readlink", attach := .sysCall, fn := "readlink" }], EssentialEvent := false, Sets := ["syscalls", "fs", "fs_link_ops"] }),
  (ChmodEventID, { ID := ChmodEventID, ID32Bit := some "sys32chmod", Name := "chmod", Probes := [{ event := "chmod", attach := .sysCall, fn := "chmod" }], EssentialEvent := false, Sets := ["default", "syscalls", "fs", "fs_file_attr"] }),
  (FchmodEventID, { ID := FchmodEventID, ID32Bit := some "sys32fchmod", Name := "fchmod", Probes := [{ event := "fchmod", attach := .sysCall, fn := "fchmod" }], EssentialEvent := false, Sets := ["default", "syscalls", "fs", "fs_file_attr"] }),
  (ChownEventID, { ID := ChownEventID, ID32Bit := some "sys32chown", Name := "chown", Probes := [{ event := "chown", attach := .sysCall, fn := "chown" }], EssentialEvent := false, Sets := ["default", "syscalls", "fs", "fs_file_attr"] }),
  (FchownEventID, { ID := FchownEventID, ID32Bit := some "sys32fchown", Name := "fchown", Probes := [{ event := "fchown", attach := .sysCall, fn := "fchown" }], EssentialEvent := false, Sets := ["default", "syscalls", "fs", "fs_file_attr"] }),
  (LchownEventID, { ID := LchownEventID, ID32Bit := some "sys32lchown", Name := "lchown", Probes := [{ event := "lchown", attach := .sysCall, fn := "lchown" }], EssentialEvent := false, Sets := ["default", "syscalls", "fs", "fs_file_attr"] }),
  (UmaskEventID, { ID := UmaskEventID, ID32Bit := some "sys32umask", Name := "umask", Probes := [{ event := "umask", attach := .sysCall, fn := "umask" }], EssentialEvent := false, Sets := ["syscalls", "fs", "fs_file_attr"] }),
  (GettimeofdayEventID, { ID := GettimeofdayEventID, ID32Bit := some "sys32gettimeofday", Name := "gettimeofday", Probes := [{ event := "gettimeofday", attach := .sysCall, fn := "gettimeofday" }], EssentialEvent := false, Sets := ["syscalls", "time", "time_tod"] }),
  (GetrlimitEventID, { ID := GetrlimitEventID, ID32Bit := some "sys32getrlimit", Name := "getrlimit", Probes := [{ event := "getrlimit", attach := .sysCall, fn := "getrlimit" }], EssentialEvent := false, Sets := ["syscalls", "proc"] }),
  (GetrusageEventID, { ID := GetrusageEventID, ID32Bit := some "sys32getrusage", Name := "getrusage", Probes := [{ event := "getrusage", attach := .sysCall, fn := "getrusage" }], EssentialEvent := false, Sets := ["syscalls", "proc"] }),
  (SysinfoEventID, { ID := SysinfoEventID, ID32Bit := some "sys32sysinfo", Name := "sysinfo", Probes := [{ event := "sysinfo", attach := .sysCall, fn := "sysinfo" }], EssentialEvent := false, Sets := ["syscalls", "system"] }),
  (TimesEventID, { ID := TimesEventID, ID32Bit := some "sys32times", Name := "times", Probes := [{ event := "times", attach := .sysCall, fn := "times" }], EssentialEvent := false, Sets := ["syscalls", "proc"] }),
  (PtraceEventID, { ID := PtraceEventID, ID32Bit := some "sys32ptrace", Name := "ptrace", Probes := [{ event := "ptrace", attach := .sysCall, fn := "ptrace" }], EssentialEvent := false, Sets := ["default", "syscalls", "proc"] }),
  (GetuidEventID, { ID := GetuidEventID, ID32Bit := some "sys32getuid", Name := "getuid", Probes := [{ event := "getuid", attach := .sysCall, fn := "getuid" }], EssentialEvent := false, Sets := ["syscalls", "proc", "proc_ids"] }),
  (SyslogEventID, { ID := SyslogEventID, ID32Bit := some "sys32syslog", Name := "syslog", Probes := [{ event := "syslog", attach := .sysCall, fn := "syslog" }], EssentialEvent := false, Sets := ["syscalls", "system"] }),
  (GetgidEventID, { ID := GetgidEventID, ID32Bit := some "sys32getgid", Name := "getgid", Probes := [{ event := "getgid", attach := .sysCall, fn := "getgid" }], EssentialEvent := false, Sets := ["syscalls", "proc", "proc_ids"] }),
  (SetuidEventID, { ID := SetuidEventID, ID32Bit := some "sys32setuid", Name := "setuid", Probes := [{ event := "setuid", attach := .sysCall, fn := "setuid" }], EssentialEvent := false, Sets := ["default", "syscalls", "proc", "proc_ids"] }),
  (SetgidEventID, { ID := SetgidEventID, ID32Bit := some "sys32setgid", Name := "setgid", Probes := [{ event := "setgid", attach := .sysCall, fn := "setgid" }], EssentialEvent := false, Sets := ["default", "syscalls", "proc", "proc_ids"] }),
  (GeteuidEventID, { ID := GeteuidEventID, ID32Bit := some "sys32geteuid", Name := "geteuid", Probes := [{ event := "geteuid", attach := .sysCall, fn := "geteuid" }], EssentialEvent := false, Sets := ["syscalls", "proc", "proc_ids"] }),
  (GetegidEventID, { ID := GetegidEventID, ID32Bit := some "sys32getegid", Name := "getegid", Probes := [{ event := "getegid", attach := .sysCall, fn := "getegid" }], EssentialEvent := false, Sets := ["syscalls", "proc", "proc_ids"] }),
  (SetpgidEventID, { ID := SetpgidEventID, ID32Bit := some "sys32setpgid", Name := "setpgid", Probes := [{ event := "setpgid", attach := .sysCall, fn := "setpgid" }], EssentialEvent := false, Sets := ["syscalls", "proc", "proc_ids"] }),
  (GetppidEventID, { ID := GetppidEventID, ID32Bit := some "sys32getppid", Name := "getppid", Probes := [{ event := "getppid", attach := .sysCall, fn := "getppid" }], EssentialEvent := false, Sets := ["syscalls", "proc", "proc_ids"] }),
  (GetpgrpEventID, { ID := GetpgrpEventID, ID32Bit := some "sys32getpgrp", Name := "getpgrp", Probes := [{ event := "getpgrp", attach := .sysCall, fn := "getpgrp" }], EssentialEvent := false, Sets := ["syscalls", "proc", "proc_ids"] }),
  (SetsidEventID, { ID := SetsidEventID, ID32Bit := some "sys32setsid", Name := "setsid", Probes := [{ event := "setsid", attach := .sysCall, fn := "setsid" }], EssentialEvent := false, Sets := ["syscalls", "proc", "proc_ids"] }),
  (SetreuidEventID, { ID := SetreuidEventID, ID32Bit := some "sys32setreuid", Name := "setreuid", Probes := [{ event := "setreuid", attach := .sysCall, fn := "setreuid" }], EssentialEvent := false, Sets := ["default", "syscalls", "proc", "proc_ids"] }),
  (SetregidEventID, { ID := SetregidEventID, ID32Bit := some "sys32setregid", Name := "setregid", Probes := [{ event := "setregid", attach := .sysCall, fn := "setregid" }], EssentialEvent := false, Sets := ["default", "syscalls", "proc", "proc_ids"] }),
  (GetgroupsEventID, { ID := GetgroupsEventID, ID32Bit := some "sys32getgroups", Name := "getgroups", Probes := [{ event := "getgroups", attach := .sysCall, fn := "getgroups" }], EssentialEvent := false, Sets := ["syscalls", "proc", "proc_ids"] }),
  (SetgroupsEventID, { ID := SetgroupsEventID, ID32Bit := some "sys32setgroups", Name := "setgroups", Probes := [{ event := "setgroups", attach := .sysCall, fn := "setgroups" }], EssentialEvent := false, Sets := ["syscalls", "proc", "proc_ids"] }),
  (SetresuidEventID, { ID := SetresuidEventID, ID32Bit := some "sys32setresuid", Name := "setresuid", Probes := [{ event := "setresuid", attach := .sysCall, fn := "setresuid" }], EssentialEvent := false, Sets := ["syscalls", "proc", "proc_ids"] }),
  (GetresuidEventID, { ID := GetresuidEventID, ID32Bit := some "sys32getresuid", Name := "getresuid", Probes := [{ event := "getresuid", attach := .sysCall, fn := "getresuid" }], EssentialEvent := false, Sets := ["syscalls", "proc", "proc_ids"] }),
  (SetresgidEventID, { ID := SetresgidEventID, ID32Bit := some "sys32setresgid", Name := "setresgid", Probes := [{ event := "setresgid", attach := .sysCall, fn := "setresgid" }], EssentialEvent := false, Sets := ["syscalls", "proc", "proc_ids"] })
]

def eventsChunk3 : List (Int × EventConfig) := [
  (GetresgidEventID, { ID := GetresgidEventID, ID32Bit := some "sys32getresgid", Name := "getresgid", Probes := [{ event := "getresgid", attach := .sysCall, fn := "getresgid" }], EssentialEvent := false, Sets := ["syscalls", "proc", "proc_ids"] }),
  (GetpgidEventID, { ID := GetpgidEventID, ID32Bit := some "sys32getpgid", Name := "getpgid", Probes := [{ event := "getpgid", attach := .sysCall, fn := "getpgid" }], EssentialEvent := false, Sets := ["syscalls", "proc", "proc_ids"] }),
  (SetfsuidEventID, { ID := SetfsuidEventID, ID32Bit := some "sys32setfsuid", Name := "setfsuid", Probes := [{ event := "setfsuid", attach := .sysCall, fn := "setfsuid" }], EssentialEvent := false, Sets := ["default", "syscalls", "proc", "proc_ids"] }),
  (SetfsgidEventID, { ID := SetfsgidEventID, ID32Bit := some "sys32setfsgid", Name := "setfsgid", Probes := [{ event := "setfsgid", attach := .sysCall, fn := "setfsgid" }], EssentialEvent := false, Sets := ["default", "syscalls", "proc", "proc_ids"] }),
  (GetsidEventID, { ID := GetsidEventID, ID32Bit := some "sys32getsid", Name := "getsid", Probes := [{ event := "getsid", attach := .sysCall, fn := "getsid" }], EssentialEvent := false, Sets := ["syscalls", "proc", "proc_ids"] }),
  (CapgetEventID, { ID := CapgetEventID, ID32Bit := some "sys32capget", Name := "capget", Probes := [{ event := "capget", attach := .sysCall, fn := "capget" }], EssentialEvent := false, Sets := ["syscalls", "proc"] }),
  (CapsetEventID, { ID := CapsetEventID, ID32Bit := some "sys32capset", Name := "capset", Probes := [{ event := "capset", attach := .sysCall, fn := "capset" }], EssentialEvent := false, Sets := ["syscalls", "proc"] }),
  (RtSigpendingEventID, { ID := RtSigpendingEventID, ID32Bit := some "sys32rt_sigpending", Name := "rt_sigpending", Probes := [{ event := "rt_sigpending", attach := .sysCall, fn := "rt_sigpending" }], EssentialEvent := false, Sets := ["syscalls", "signals"] }),
  (RtSigtimedwaitEventID, { ID := RtSigtimedwaitEventID, ID32Bit := some "sys32rt_sigtimedwait", Name := "rt_sigtimedwait", Probes := [{ event := "rt_sigtimedwait", attach := .sysCall, fn := "rt_sigtimedwait" }], EssentialEvent := false, Sets := ["syscalls", "signals"] }),
  (RtSigqueueinfoEventID, { ID := RtSigqueueinfoEventID, ID32Bit := some "sys32rt_sigqueueinfo", Name := "rt_sigqueueinfo", Probes := [{ event := "rt_sigqueueinfo", attach := .sysCall, fn := "rt_sigqueueinfo" }], EssentialEvent := false, Sets := ["syscalls", "signals"] }),
  (RtSigsuspendEventID, { ID := RtSigsuspendEventID, ID32Bit := some "sys32rt_sigsuspend", Name := "rt_sigsuspend", Probes := [{ event := "rt_sigsuspend", attach := .sysCall, fn := "rt_sigsuspend" }], EssentialEvent := false, Sets := ["syscalls", "signals"] }),
  (SigaltstackEventID, { ID := SigaltstackEventID, ID32Bit := some "sys32sigaltstack", Name := "sigaltstack", Probes := [{ event := "sigaltstack", attach := .sysCall, fn := "sigaltstack" }], EssentialEvent := false, Sets := ["syscalls", "signals"] }),
  (UtimeEventID, { ID := UtimeEventID, ID32Bit := some "sys32utime", Name := "utime", Probes := [{ event := "utime", attach := .sysCall, fn := "utime" }], EssentialEvent := false, Sets := ["syscalls", "fs", "fs_file_attr"] }),
  (MknodEventID, { ID := MknodEventID, ID32Bit := some "sys32mknod", Name := "mknod", Probes := [{ event := "mknod", attach := .sysCall, fn := "mknod" }], EssentialEvent := false, Sets := ["default", "syscalls", "fs", "fs_file_ops"] }),
  (UselibEventID, { ID := UselibEventID, ID32Bit := some "sys32uselib", Name := "uselib", Probes := [{ event := "uselib", attach := .sysCall, fn := "uselib" }], EssentialEvent := false, Sets := ["syscalls", "proc"] }),
  (PersonalityEventID, { ID := PersonalityEventID, ID32Bit := some "sys32personality", Name := "personality", Probes := [{ event := "personality", attach := .sysCall, fn := "personality" }], EssentialEvent := false, Sets := ["syscalls", "system"] }),
  (UstatEventID, { ID := UstatEventID, ID32Bit := some "sys32ustat", Name := "ustat", Probes := [{ event := "ustat", attach := .sysCall, fn := "ustat" }], EssentialEvent := false, Sets := ["syscalls", "fs", "fs_info"] }),
  (StatfsEventID, { ID := StatfsEventID, ID32Bit := some "sys32statfs", Name := "statfs", Probes := [{ event := "statfs", attach := .sysCall, fn := "statfs" }], EssentialEvent := false, Sets := ["syscalls", "fs", "fs_info"] }),
  (FstatfsEventID, { ID := FstatfsEventID, ID32Bit := some "sys32fstatfs", Name := "fstatfs", Probes := [{ event := "fstatfs", attach := .sysCall, fn := "fstatfs" }], EssentialEvent := false, Sets := ["syscalls", "fs", "fs_info"] }),
  (SysfsEventID, { ID := SysfsEventID, ID32Bit := some "sys32sysfs", Name := "sysfs", Probes := [{ event := "sysfs", attach := .sysCall, fn := "sysfs" }], EssentialEvent := false, Sets := ["syscalls", "fs", "fs_info"] }),
  (GetpriorityEventID, { ID := GetpriorityEventID, ID32Bit := some "sys32getpriority", Name := "getpriority", Probes := [{ event := "getpriority", attach := .sysCall, fn := "getpriority" }], EssentialEvent := false, Sets := ["syscalls", "proc", "proc_sched"] }),
  (SetpriorityEventID, { ID := SetpriorityEventID, ID32Bit := some "sys32setpriority", Name := "setpriority", Probes := [{ event := "setpriority", attach := .sysCall, fn := "setpriority" }], EssentialEvent := false, Sets := ["syscalls", "proc", "proc_sched"] }),
  (SchedSetparamEventID, { ID := SchedSetparamEventID, ID32Bit := some "sys32sched_setparam", Name := "sched_setparam", Probes := [{ event := "sched_setparam", attach := .sysCall, fn := "sched_setparam" }], EssentialEvent := false, Sets := ["syscalls", "proc", "proc_sched"] }),
  (SchedGetparamEventID, { ID := SchedGetparamEventID, ID32Bit := some "sys32sched_getparam", Name := "sched_getparam", Probes := [{ event := "sched_getparam", attach := .sysCall, fn := "sched_getparam" }], EssentialEvent := false, Sets := ["syscalls", "proc", "proc_sched"] }),
  (SchedSetschedulerEventID, { ID := SchedSetschedulerEventID, ID32Bit := some "sys32sched_setscheduler", Name := "sched_setscheduler", Probes := [{ event := "sched_setscheduler", attach := .sysCall, fn := "sched_setscheduler" }], EssentialEvent := false, Sets := ["syscalls", "proc", "proc_sched"] }),
  (SchedGetschedulerEventID, { ID := SchedGetschedulerEventID, ID32Bit := some "sys32sched_getscheduler", Name := "sched_getscheduler", Probes := [{ event := "sched_getscheduler", attach := .sysCall, fn := "sched_getscheduler" }], EssentialEvent := false, Sets := ["syscalls", "proc", "proc_sched"] }),
  (SchedGetPriorityMaxEventID, { ID := SchedGetPriorityMaxEventID, ID32Bit := some "sys32sched_get_priority_max", Name := "sched_get_priority_max", Probes := [{ event := "sched_get_priority_max", attach := .sysCall, fn := "sched_get_priority_max" }], EssentialEvent := false, Sets := ["syscalls", "proc", "proc_sched"] }),
  (SchedGetPriorityMinEventID, { ID := SchedGetPriorityMinEventID, ID32Bit := some "sys32sched_get_priority_min", Name := "sched_get_priority_min", Probes := [{ event := "sched_get_priority_min", attach := .sysCall, fn := "sched_get_priority_min" }], EssentialEvent := false, Sets := ["syscalls", "proc", "proc_sched"] }),
  (SchedRrGetIntervalEventID, { ID := SchedRrGetIntervalEventID, ID32Bit := some "sys32sched_rr_get_interval", Name := "sched_rr_get_interval", Probes := [{ event := "sched_rr_get_interval", attach := .sysCall, fn := "sched_rr_get_interval" }], EssentialEvent := false, Sets := ["syscalls", "proc", "proc_sched"] }),
  (MlockEventID, { ID := MlockEventID, ID32Bit := some "sys32mlock", Name := "mlock", Probes := [{ event := "mlock", attach := .sysCall, fn := "mlock" }], EssentialEvent := false, Sets := ["syscalls", "proc", "proc_mem"] }),
  (MunlockEventID, { ID := MunlockEventID, ID32Bit := some "sys32munlock", Name := "munlock", Probes := [{ event := "munlock", attach := .sysCall, fn := "munlock" }], EssentialEvent := false, Sets := ["syscalls", "proc", "proc_mem"] }),
  (MlockallEventID, { ID := MlockallEventID, ID32Bit := some "sys32mlockall", Name := "mlockall", Probes := [{ event := "mlockall", attach := .sysCall, fn := "mlockall" }], EssentialEvent := false, Sets := ["syscalls", "proc", "proc_mem"] }),
  (MunlockallEventID, { ID := MunlockallEventID, ID32Bit := some "sys32munlockall", Name := "munlockall", Probes := [{ event := "munlockall", attach := .sysCall, fn := "munlockall" }], EssentialEvent := false, Sets := ["syscalls", "proc", "proc_mem"] }),
  (VhangupEventID, { ID := VhangupEventID, ID32Bit := some "sys32vhangup", Name := "vhangup", Probes := [{ event := "vhangup", attach := .sysCall, fn := "vhangup" }], EssentialEvent := false, Sets := ["syscalls", "system"] }),
  (ModifyLdtEventID, { ID := ModifyLdtEventID, ID32Bit := some "sys32modify_ldt", Name := "modify_ldt", Probes := [{ event := "modify_ldt", attach := .sysCall, fn := "modify_ldt" }], EssentialEvent := false, Sets := ["syscalls", "proc", "proc_mem"] }),
  (PivotRootEventID, { ID := PivotRootEventID, ID32Bit := some "sys32pivot_root", Name := "pivot_root", Probes := [{ event := "pivot_root", attach := .sysCall, fn := "pivot_root" }], EssentialEvent := false, Sets := ["syscalls", "fs"] }),
  (SysctlEventID, { ID := SysctlEventID, ID32Bit := some "sys32undefined", Name := "sysctl", Probes := [{ event := "sysctl", attach := .sysCall, fn := "sysctl" }], EssentialEvent := false, Sets := ["syscalls", "system"] }),
  (PrctlEventID, { ID := PrctlEventID, ID32Bit := some "sys32prctl", Name := "prctl", Probes := [{ event := "prctl", attach := .sysCall, fn := "prctl" }], EssentialEvent := false, Sets := ["default", "syscalls", "proc"] }),
  (ArchPrctlEventID, { ID := ArchPrctlEventID, ID32Bit := some "sys32arch_prctl", Name := "arch_prctl", Probes := [{ event := "arch_prctl", attach := .sysCall, fn := "arch_prctl" }], EssentialEvent := false, Sets := ["syscalls", "proc"] }),
  (AdjtimexEventID, { ID := AdjtimexEventID, ID32Bit := some "sys32adjtimex", Name := "adjtimex", Probes := [{ event := "adjtimex", attach := .sysCall, fn := "adjtimex" }], EssentialEvent := false, Sets := ["syscalls", "time", "time_clock"] })
]

def eventsChunk4 : List (Int × EventConfig) := [
  (SetrlimitEventID, { ID := SetrlimitEventID, ID32Bit := some "sys32setrlimit", Name := "setrlimit", Probes := [{ event := "setrlimit", attach := .sysCall, fn := "setrlimit" }], EssentialEvent := false, Sets := ["syscalls", "proc"] }),
  (ChrootEventID, { ID := ChrootEventID, ID32Bit := some "sys32chroot", Name := "chroot", Probes := [{ event := "chroot", attach := .sysCall, fn := "chroot" }], EssentialEvent := false, Sets := ["syscalls", "fs", "fs_dir_ops"] }),
  (SyncEventID, { ID := SyncEventID, ID32Bit := some "sys32sync", Name := "sync", Probes := [{ event := "sync", attach := .sysCall, fn := "sync" }], EssentialEvent := false, Sets := ["syscalls", "fs", "fs_sync"] }),
  (AcctEventID, { ID := AcctEventID, ID32Bit := some "sys32acct", Name := "acct", Probes := [{ event := "acct", attach := .sysCall, fn := "acct" }], EssentialEvent := false, Sets := ["syscalls", "system"] }),
  (SettimeofdayEventID, { ID := SettimeofdayEventID, ID32Bit := some "sys32settimeofday", Name := "settimeofday", Probes := [{ event := "settimeofday", attach := .sysCall, fn := "settimeofday" }], EssentialEvent := false, Sets := ["syscalls", "time", "time_tod"] }),
  (MountEventID, { ID := MountEventID, ID32Bit := some "sys32mount", Name := "mount", Probes := [{ event := "mount", attach := .sysCall, fn := "mount" }], EssentialEvent := false, Sets := ["default", "syscalls", "fs"] }),
  (UmountEventID, { ID := UmountEventID, ID32Bit := some "sys32umount", Name := "umount", Probes := [{ event := "umount", attach := .sysCall, fn := "umount" }], EssentialEvent := false, Sets := ["default", "syscalls", "fs"] }),
  (SwaponEventID, { ID := SwaponEventID, ID32Bit := some "sys32swapon", Name := "swapon", Probes := [{ event := "swapon", attach := .sysCall, fn := "swapon" }], EssentialEvent := false, Sets := ["syscalls", "fs"] }),
  (SwapoffEventID, { ID := SwapoffEventID, ID32Bit := some "sys32swapoff", Name := "swapoff", Probes := [{ event := "swapoff", attach := .sysCall, fn := "swapoff" }], EssentialEvent := false, Sets := ["syscalls", "fs"] }),
  (RebootEventID, { ID := RebootEventID, ID32Bit := some "sys32reboot", Name := "reboot", Probes := [{ event := "reboot", attach := .sysCall, fn := "reboot" }], EssentialEvent := false, Sets := ["syscalls", "system"] }),
  (SethostnameEventID, { ID := SethostnameEventID, ID32Bit := some "sys32sethostname", Name := "sethostname", Probes := [{ event := "sethostname", attach := .sysCall, fn := "sethostname" }], EssentialEvent := false, Sets := ["syscalls", "net"] }),
  (SetdomainnameEventID, { ID := SetdomainnameEventID, ID32Bit := some "sys32setdomainname", Name := "setdomainname", Probes := [{ event := "setdomainname", attach := .sysCall, fn := "setdomainname" }], EssentialEvent := false, Sets := ["syscalls", "net"] }),
  (IoplEventID, { ID := IoplEventID, ID32Bit := some "sys32iopl", Name := "iopl", Probes := [{ event := "iopl", attach := .sysCall, fn := "iopl" }], EssentialEvent := false, Sets := ["syscalls", "system"] }),
  (IopermEventID, { ID := IopermEventID, ID32Bit := some "sys32ioperm", Name := "ioperm", Probes := [{ event := "ioperm", attach := .sysCall, fn := "ioperm" }], EssentialEvent := false, Sets := ["syscalls", "system"] }),
  (CreateModuleEventID, { ID := CreateModuleEventID, ID32Bit := some "sys32create_module", Name := "create_module", Probes := [{ event := "create_module", attach := .sysCall, fn := "create_module" }], EssentialEvent := false, Sets := ["syscalls", "system", "system_module"] }),
  (InitModuleEventID, { ID := InitModuleEventID, ID32Bit := some "sys32init_module", Name := "init_module", Probes := [{ event := "init_module", attach := .sysCall, fn := "init_module" }], EssentialEvent := false, Sets := ["default", "syscalls", "system", "system_module"] }),
  (DeleteModuleEventID, { ID := DeleteModuleEventID, ID32Bit := some "sys32delete_module", Name := "delete_module", Probes := [{ event := "delete_module", attach := .sysCall, fn := "delete_module" }], EssentialEvent := false, Sets := ["default", "syscalls", "system", "system_module"] }),
  (GetKernelSymsEventID, { ID := GetKernelSymsEventID, ID32Bit := some "sys32get_kernel_syms", Name := "get_kernel_syms", Probes := [{ event := "get_kernel_syms", attach := .sysCall, fn := "get_kernel_syms" }], EssentialEvent := false, Sets := ["syscalls", "system", "system_module"] }),
  (QueryModuleEventID, { ID := QueryModuleEventID, ID32Bit := some "sys32query_module", Name := "query_module", Probes := [{ event := "query_module", attach := .sysCall, fn := "query_module" }], EssentialEvent := false, Sets := ["syscalls", "system", "system_module"] }),
  (QuotactlEventID, { ID := QuotactlEventID, ID32Bit := some "sys32quotactl", Name := "quotactl", Probes := [{ event := "quotactl", attach := .sysCall, fn := "quotactl" }], EssentialEvent := false, Sets := ["syscalls", "system"] }),
  (NfsservctlEventID, { ID := NfsservctlEventID, ID32Bit := some "sys32nfsservctl", Name := "nfsservctl", Probes := [{ event := "nfsservctl", attach := .sysCall, fn := "nfsservctl" }], EssentialEvent := false, Sets := ["syscalls", "fs"] }),
  (GetpmsgEventID, { ID := GetpmsgEventID, ID32Bit := some "sys32getpmsg", Name := "getpmsg", Probes := [{ event := "getpmsg", attach := .sysCall, fn := "getpmsg" }], EssentialEvent := false, Sets := ["syscalls"] }),
  (PutpmsgEventID, { ID := PutpmsgEventID, ID32Bit := some "sys32putpmsg", Name := "putpmsg", Probes := [{ event := "putpmsg", attach := .sysCall, fn := "putpmsg" }], EssentialEvent := false, Sets := ["syscalls"] }),
  (AfsEventID, { ID := AfsEventID, ID32Bit := some "sys32undefined", Name := "afs", Probes := [{ event := "afs", attach := .sysCall, fn := "afs" }], EssentialEvent := false, Sets := ["syscalls"] }),
  (TuxcallEventID, { ID := TuxcallEventID, ID32Bit := some "sys32undefined", Name := "tuxcall", Probes := [{ event := "tuxcall", attach := .sysCall, fn := "tuxcall" }], EssentialEvent := false, Sets := ["syscalls"] }),
  (SecurityEventID, { ID := SecurityEventID, ID32Bit := some "sys32undefined", Name := "security", Probes := [{ event := "security", attach := .sysCall, fn := "security" }], EssentialEvent := false, Sets := ["syscalls"] }),
  (GettidEventID, { ID := GettidEventID, ID32Bit := some "sys32gettid", Name := "gettid", Probes := [{ event := "gettid", attach := .sysCall, fn := "gettid" }], EssentialEvent := false, Sets := ["syscalls", "proc", "proc_ids"] }),
  (ReadaheadEventID, { ID := ReadaheadEventID, ID32Bit := some "sys32readahead", Name := "readahead", Probes := [{ event := "readahead", attach := .sysCall, fn := "readahead" }], EssentialEvent := false, Sets := ["syscalls", "fs"] }),
  (SetxattrEventID, { ID := SetxattrEventID, ID32Bit := some "sys32setxattr", Name := "setxattr", Probes := [{ event := "setxattr", attach := .sysCall, fn := "setxattr" }], EssentialEvent := false, Sets := ["syscalls", "fs", "fs_file_attr"] }),
  (LsetxattrEventID, { ID := LsetxattrEventID, ID32Bit := some "sys32lsetxattr", Name := "lsetxattr", Probes := [{ event := "lsetxattr", attach := .sysCall, fn := "lsetxattr" }], EssentialEvent := false, Sets := ["syscalls", "fs", "fs_file_attr"] }),
  (FsetxattrEventID, { ID := FsetxattrEventID, ID32Bit := some "sys32fsetxattr", Name := "fsetxattr", Probes := [{ event := "fsetxattr", attach := .sysCall, fn := "fsetxattr" }], EssentialEvent := false, Sets := ["syscalls", "fs", "fs_file_attr"] }),
  (GetxattrEventID, { ID := GetxattrEventID, ID32Bit := some "sys32getxattr", Name := "getxattr", Probes := [{ event := "getxattr", attach := .sysCall, fn := "getxattr" }], EssentialEvent := false, Sets := ["syscalls", "fs", "fs_file_attr"] }),
  (LgetxattrEventID, { ID := LgetxattrEventID, ID32Bit := some "sys32lgetxattr", Name := "lgetxattr", Probes := [{ event := "lgetxattr", attach := .sysCall, fn := "lgetxattr" }], EssentialEvent := false, Sets := ["syscalls", "fs", "fs_file_attr"] }),
  (FgetxattrEventID, { ID := FgetxattrEventID, ID32Bit := some "sys32fgetxattr", Name := "fgetxattr", Probes := [{ event := "fgetxattr", attach := .sysCall, fn := "fgetxattr" }], EssentialEvent := false, Sets := ["syscalls", "fs", "fs_file_attr"] }),
  (ListxattrEventID, { ID := ListxattrEventID, ID32Bit := some "sys32listxattr", Name := "listxattr", Probes := [{ event := "listxattr", attach := .sysCall, fn := "listxattr" }], EssentialEvent := false, Sets := ["syscalls", "fs", "fs_file_attr"] }),
  (LlistxattrEventID, { ID := LlistxattrEventID, ID32Bit := some "sys32llistxattr", Name := "llistxattr", Probes := [{ event := "llistxattr", attach := .sysCall, fn := "llistxattr" }], EssentialEvent := false, Sets := ["syscalls", "fs", "fs_file_attr"] }),
  (FlistxattrEventID, { ID := FlistxattrEventID, ID32Bit := some "sys32flistxattr", Name := "flistxattr", Probes := [{ event := "flistxattr", attach := .sysCall, fn := "flistxattr" }], EssentialEvent := false, Sets := ["syscalls", "fs", "fs_file_attr"] }),
  (RemovexattrEventID, { ID := RemovexattrEventID, ID32Bit := some "sys32removexattr", Name := "removexattr", Probes := [{ event := "removexattr", attach := .sysCall, fn := "removexattr" }], EssentialEvent := false, Sets := ["syscalls", "fs", "fs_file_attr"] }),
  (LremovexattrEventID, { ID := LremovexattrEventID, ID32Bit := some "sys32lremovexattr", Name := "lremovexattr", Probes := [{ event := "lremovexattr", attach := .sysCall, fn := "lremovexattr" }], EssentialEvent := false, Sets := ["syscalls", "fs", "fs_file_attr"] }),
  (FremovexattrEventID, { ID := FremovexattrEventID, ID32Bit := some "sys32fremovexattr", Name := "fremovexattr", Probes := [{ event := "fremovexattr", attach := .sysCall, fn := "fremovexattr" }], EssentialEvent := false, Sets := ["syscalls", "fs", "fs_file_attr"] })
]

def eventsChunk5 : List (Int × EventConfig) := [
  (TkillEventID, { ID := TkillEventID, ID32Bit := some "sys32tkill", Name := "tkill", Probes := [{ event := "tkill", attach := .sysCall, fn := "tkill" }], EssentialEvent := false, Sets := ["syscalls", "signals"] }),
  (TimeEventID, { ID := TimeEventID, ID32Bit := some "sys32time", Name := "time", Probes := [{ event := "time", attach := .sysCall, fn := "time" }], EssentialEvent := false, Sets := ["syscalls", "time", "time_tod"] }),
  (FutexEventID, { ID := FutexEventID, ID32Bit := some "sys32futex", Name := "futex", Probes := [{ event := "futex", attach := .sysCall, fn := "futex" }], EssentialEvent := false, Sets := ["syscalls", "ipc", "ipc_futex"] }),
  (SchedSetaffinityEventID, { ID := SchedSetaffinityEventID, ID32Bit := some "sys32sched_setaffinity", Name := "sched_setaffinity", Probes := [{ event := "sched_setaffinity", attach := .sysCall, fn := "sched_setaffinity" }], EssentialEvent := false, Sets := ["syscalls", "proc", "proc_sched"] }),
  (SchedGetaffinityEventID, { ID := SchedGetaffinityEventID, ID32Bit := some "sys32sched_getaffinity", Name := "sched_getaffinity", Probes := [{ event := "sched_getaffinity", attach := .sysCall, fn := "sched_getaffinity" }], EssentialEvent := false, Sets := ["syscalls", "proc", "proc_sched"] }),
  (SetThreadAreaEventID, { ID := SetThreadAreaEventID, ID32Bit := some "sys32set_thread_area", Name := "set_thread_area", Probes := [{ event := "set_thread_area", attach := .sysCall, fn := "set_thread_area" }], EssentialEvent := false, Sets := ["syscalls", "proc"] }),
  (IoSetupEventID, { ID := IoSetupEventID, ID32Bit := some "sys32io_setup", Name := "io_setup", Probes := [{ event := "io_setup", attach := .sysCall, fn := "io_setup" }], EssentialEvent := false, Sets := ["syscalls", "fs", "fs_async_io"] }),
  (IoDestroyEventID, { ID := IoDestroyEventID, ID32Bit := some "sys32io_destroy", Name := "io_destroy", Probes := [{ event := "io_destroy", attach := .sysCall, fn := "io_destroy" }], EssentialEvent := false, Sets := ["syscalls", "fs", "fs_async_io"] }),
  (IoGeteventsEventID, { ID := IoGeteventsEventID, ID32Bit := some "sys32io_getevents", Name := "io_getevents", Probes := [{ event := "io_getevents", attach := .sysCall, fn := "io_getevents" }], EssentialEvent := false, Sets := ["syscalls", "fs", "fs_async_io"] }),
  (IoSubmitEventID, { ID := IoSubmitEventID, ID32Bit := some "sys32io_submit", Name := "io_submit", Probes := [{ event := "io_submit", attach := .sysCall, fn := "io_submit" }], EssentialEvent := false, Sets := ["syscalls", "fs", "fs_async_io"] }),
  (IoCancelEventID, { ID := IoCancelEventID, ID32Bit := some "sys32io_cancel", Name := "io_cancel", Probes := [{ event := "io_cancel", attach := .sysCall, fn := "io_cancel" }], EssentialEvent := false, Sets := ["syscalls", "fs", "fs_async_io"] }),
  (GetThreadAreaEventID, { ID := GetThreadAreaEventID, ID32Bit := some "sys32get_thread_area", Name := "get_thread_area", Probes := [{ event := "get_thread_area", attach := .sysCall, fn := "get_thread_area" }], EssentialEvent := false, Sets := ["syscalls", "proc"] }),
  (LookupDcookieEventID, { ID := LookupDcookieEventID, ID32Bit := some "sys32lookup_dcookie", Name := "lookup_dcookie", Probes := [{ event := "lookup_dcookie", attach := .sysCall, fn := "lookup_dcookie" }], EssentialEvent := false, Sets := ["syscalls", "fs", "fs_dir_ops"] }),
  (EpollCreateEventID, { ID := EpollCreateEventID, ID32Bit := some "sys32epoll_create", Name := "epoll_create", Probes := [{ event := "epoll_create", attach := .sysCall, fn := "epoll_create" }], EssentialEvent := false, Sets := ["syscalls", "fs", "fs_mux_io"] }),
  (EpollCtlOldEventID, { ID := EpollCtlOldEventID, ID32Bit := some "sys32undefined", Name := "epoll_ctl_old", Probes := [{ event := "epoll_ctl_old", attach := .sysCall, fn := "epoll_ctl_old" }], EssentialEvent := false, Sets := ["syscalls", "fs", "fs_mux_io"] }),
  (EpollWaitOldEventID, { ID := EpollWaitOldEventID, ID32Bit := some "sys32undefined", Name := "epoll_wait_old", Probes := [{ event := "epoll_wait_old", attach := .sysCall, fn := "epoll_wait_old" }], EssentialEvent := false, Sets := ["syscalls", "fs", "fs_mux_io"] }),
  (RemapFilePagesEventID, { ID := RemapFilePagesEventID, ID32Bit := some "sys32remap_file_pages", Name := "remap_file_pages", Probes := [{ event := "remap_file_pages", attach := .sysCall, fn := "remap_file_pages" }], EssentialEvent := false, Sets := ["syscalls"] }),
  (Getdents64EventID, { ID := Getdents64EventID, ID32Bit := some "sys32getdents64", Name := "getdents64", Probes := [{ event := "getdents64", attach := .sysCall, fn := "getdents64" }], EssentialEvent := false, Sets := ["default", "syscalls", "fs", "fs_dir_ops"] }),
  (SetTidAddressEventID, { ID := SetTidAddressEventID, ID32Bit := some "sys32set_tid_address", Name := "set_tid_address", Probes := [{ event := "set_tid_address", attach := .sysCall, fn := "set_tid_address" }], EssentialEvent := false, Sets := ["syscalls", "proc"] }),
  (RestartSyscallEventID, { ID := RestartSyscallEventID, ID32Bit := some "sys32restart_syscall", Name := "restart_syscall", Probes := [{ event := "restart_syscall", attach := .sysCall, fn := "restart_syscall" }], EssentialEvent := false, Sets := ["syscalls", "signals"] }),
  (SemtimedopEventID, { ID := SemtimedopEventID, ID32Bit := some "sys32semtimedop_time64", Name := "semtimedop", Probes := [{ event := "semtimedop", attach := .sysCall, fn := "semtimedop" }], EssentialEvent := false, Sets := ["syscalls", "ipc", "ipc_sem"] }),
  (Fadvise64EventID, { ID := Fadvise64EventID, ID32Bit := some "sys32fadvise64", Name := "fadvise64", Probes := [{ event := "fadvise64", attach := .sysCall, fn := "fadvise64" }], EssentialEvent := false, Sets := ["syscalls", "fs"] }),
  (TimerCreateEventID, { ID := TimerCreateEventID, ID32Bit := some "sys32timer_create", Name := "timer_create", Probes := [{ event := "timer_create", attach := .sysCall, fn := "timer_create" }], EssentialEvent := false, Sets := ["syscalls", "time", "time_timer"] }),
  (TimerSettimeEventID, { ID := TimerSettimeEventID, ID32Bit := some "sys32timer_settime", Name := "timer_settime", Probes := [{ event := "timer_settime", attach := .sysCall, fn := "timer_settime" }], EssentialEvent := false, Sets := ["syscalls", "time", "time_timer"] }),
  (TimerGettimeEventID, { ID := TimerGettimeEventID, ID32Bit := some "sys32timer_gettime", Name := "timer_gettime", Probes := [{ event := "timer_gettime", attach := .sysCall, fn := "timer_gettime" }], EssentialEvent := false, Sets := ["syscalls", "time", "time_timer"] }),
  (TimerGetoverrunEventID, { ID := TimerGetoverrunEventID, ID32Bit := some "sys32timer_getoverrun", Name := "timer_getoverrun", Probes := [{ event := "timer_getoverrun", attach := .sysCall, fn := "timer_getoverrun" }], EssentialEvent := false, Sets := ["syscalls", "time", "time_timer"] }),
  (TimerDeleteEventID, { ID := TimerDeleteEventID, ID32Bit := some "sys32timer_delete", Name := "timer_delete", Probes := [{ event := "timer_delete", attach := .sysCall, fn := "timer_delete" }], EssentialEvent := false, Sets := ["syscalls", "time", "time_timer"] }),
  (ClockSettimeEventID, { ID := ClockSettimeEventID, ID32Bit := some "sys32clock_settime", Name := "clock_settime", Probes := [{ event := "clock_settime", attach := .sysCall, fn := "clock_settime" }], EssentialEvent := false, Sets := ["syscalls", "time", "time_clock"] }),
  (ClockGettimeEventID, { ID := ClockGettimeEventID, ID32Bit := some "sys32clock_gettime", Name := "clock_gettime", Probes := [{ event := "clock_gettime", attach := .sysCall, fn := "clock_gettime" }], EssentialEvent := false, Sets := ["syscalls", "time", "time_clock"] }),
  (ClockGetresEventID, { ID := ClockGetresEventID, ID32Bit := some "sys32clock_getres", Name := "clock_getres", Probes := [{ event := "clock_getres", attach := .sysCall, fn := "clock_getres" }], EssentialEvent := false, Sets := ["syscalls", "time", "time_clock"] }),
  (ClockNanosleepEventID, { ID := ClockNanosleepEventID, ID32Bit := some "sys32clock_nanosleep", Name := "clock_nanosleep", Probes := [{ event := "clock_nanosleep", attach := .sysCall, fn := "clock_nanosleep" }], EssentialEvent := false, Sets := ["syscalls", "time", "time_clock"] }),
  (ExitGroupEventID, { ID := ExitGroupEventID, ID32Bit := some "sys32exit_group", Name := "exit_group", Probes := [{ event := "exit_group", attach := .sysCall, fn := "exit_group" }], EssentialEvent := false, Sets := ["syscalls", "proc", "proc_life"] }),
  (EpollWaitEventID, { ID := EpollWaitEventID, ID32Bit := some "sys32epoll_wait", Name := "epoll_wait", Probes := [{ event := "epoll_wait", attach := .sysCall, fn := "epoll_wait" }], EssentialEvent := false, Sets := ["syscalls", "fs", "fs_mux_io"] }),
  (EpollCtlEventID, { ID := EpollCtlEventID, ID32Bit := some "sys32epoll_ctl", Name := "epoll_ctl", Probes := [{ event := "epoll_ctl", attach := .sysCall, fn := "epoll_ctl" }], EssentialEvent := false, Sets := ["syscalls", "fs", "fs_mux_io"] }),
  (TgkillEventID, { ID := TgkillEventID, ID32Bit := some "sys32tgkill", Name := "tgkill", Probes := [{ event := "tgkill", attach := .sysCall, fn := "tgkill" }], EssentialEvent := false, Sets := ["syscalls", "signals"] }),
  (UtimesEventID, { ID := UtimesEventID, ID32Bit := some "sys32utimes", Name := "utimes", Probes := [{ event := "utimes", attach := .sysCall, fn := "utimes" }], EssentialEvent := false, Sets := ["syscalls", "fs", "fs_file_attr"] }),
  (VserverEventID, { ID := VserverEventID, ID32Bit := some "sys32vserver", Name := "vserver", Probes := [{ event := "vserver", attach := .sysCall, fn := "vserver" }], EssentialEvent := false, Sets := ["syscalls"] }),
  (MbindEventID, { ID := MbindEventID, ID32Bit := some "sys32mbind", Name := "mbind", Probes := [{ event := "mbind", attach := .sysCall, fn := "mbind" }], EssentialEvent := false, Sets := ["syscalls", "system", "system_numa"] }),
  (SetMempolicyEventID, { ID := SetMempolicyEventID, ID32Bit := some "sys32set_mempolicy", Name := "set_mempolicy", Probes := [{ event := "set_mempolicy", attach := .sysCall, fn := "set_mempolicy" }], EssentialEvent := false, Sets := ["syscalls", "system", "system_numa"] }),
  (GetMempolicyEventID, { ID := GetMempolicyEventID, ID32Bit := some "sys32get_mempolicy", Name := "get_mempolicy", Probes := [{ event := "get_mempolicy", attach := .sysCall, fn := "get_mempolicy" }], EssentialEvent := false, Sets := ["syscalls", "system", "system_numa"] })
]

def eventsChunk6 : List (Int × EventConfig) := [
  (MqOpenEventID, { ID := MqOpenEventID, ID32Bit := some "sys32mq_open", Name := "mq_open", Probes := [{ event := "mq_open", attach := .sysCall, fn := "mq_open" }], EssentialEvent := false, Sets := ["syscalls", "ipc", "ipc_msgq"] }),
  (MqUnlinkEventID, { ID := MqUnlinkEventID, ID32Bit := some "sys32mq_unlink", Name := "mq_unlink", Probes := [{ event := "mq_unlink", attach := .sysCall, fn := "mq_unlink" }], EssentialEvent := false, Sets := ["syscalls", "ipc", "ipc_msgq"] }),
  (MqTimedsendEventID, { ID := MqTimedsendEventID, ID32Bit := some "sys32mq_timedsend", Name := "mq_timedsend", Probes := [{ event := "mq_timedsend", attach := .sysCall, fn := "mq_timedsend" }], EssentialEvent := false, Sets := ["syscalls", "ipc", "ipc_msgq"] }),
  (MqTimedreceiveEventID, { ID := MqTimedreceiveEventID, ID32Bit := some "sys32mq_timedreceive", Name := "mq_timedreceive", Probes := [{ event := "mq_timedreceive", attach := .sysCall, fn := "mq_timedreceive" }], EssentialEvent := false, Sets := ["syscalls", "ipc", "ipc_msgq"] }),
  (MqNotifyEventID, { ID := MqNotifyEventID, ID32Bit := some "sys32mq_notify", Name := "mq_notify", Probes := [{ event := "mq_notify", attach := .sysCall, fn := "mq_notify" }], EssentialEvent := false, Sets := ["syscalls", "ipc", "ipc_msgq"] }),
  (MqGetsetattrEventID, { ID := MqGetsetattrEventID, ID32Bit := some "sys32mq_getsetattr", Name := "mq_getsetattr", Probes := [{ event := "mq_getsetattr", attach := .sysCall, fn := "mq_getsetattr" }], EssentialEvent := false, Sets := ["syscalls", "ipc", "ipc_msgq"] }),
  (KexecLoadEventID, { ID := KexecLoadEventID, ID32Bit := some "sys32kexec_load", Name := "kexec_load", Probes := [{ event := "kexec_load", attach := .sysCall, fn := "kexec_load" }], EssentialEvent := false, Sets := ["syscalls", "system"] }),
  (WaitidEventID, { ID := WaitidEventID, ID32Bit := some "sys32waitid", Name := "waitid", Probes := [{ event := "waitid", attach := .sysCall, fn := "waitid" }], EssentialEvent := false, Sets := ["syscalls", "proc", "proc_life"] }),
  (AddKeyEventID, { ID := AddKeyEventID, ID32Bit := some "sys32add_key", Name := "add_key", Probes := [{ event := "add_key", attach := .sysCall, fn := "add_key" }], EssentialEvent := false, Sets := ["syscalls", "system", "system_keys"] }),
  (RequestKeyEventID, { ID := RequestKeyEventID, ID32Bit := some "sys32request_key", Name := "request_key", Probes := [{ event := "request_key", attach := .sysCall, fn := "request_key" }], EssentialEvent := false, Sets := ["syscalls", "system", "system_keys"] }),
  (KeyctlEventID, { ID := KeyctlEventID, ID32Bit := some "sys32keyctl", Name := "keyctl", Probes := [{ event := "keyctl", attach := .sysCall, fn := "keyctl" }], EssentialEvent := false, Sets := ["syscalls", "system", "system_keys"] }),
  (IoprioSetEventID, { ID := IoprioSetEventID, ID32Bit := some "sys32ioprio_set", Name := "ioprio_set", Probes := [{ event := "ioprio_set", attach := .sysCall, fn := "ioprio_set" }], EssentialEvent := false, Sets := ["syscalls", "proc", "proc_sched"] }),
  (IoprioGetEventID, { ID := IoprioGetEventID, ID32Bit := some "sys32ioprio_get", Name := "ioprio_get", Probes := [{ event := "ioprio_get", attach := .sysCall, fn := "ioprio_get" }], EssentialEvent := false, Sets := ["syscalls", "proc", "proc_sched"] }),
  (InotifyInitEventID, { ID := InotifyInitEventID, ID32Bit := some "sys32inotify_init", Name := "inotify_init", Probes := [{ event := "inotify_init", attach := .sysCall, fn := "inotify_init" }], EssentialEvent := false, Sets := ["syscalls", "fs", "fs_monitor"] }),
  (InotifyAddWatchEventID, { ID := InotifyAddWatchEventID, ID32Bit := some "sys32inotify_add_watch", Name := "inotify_add_watch", Probes := [{ event := "inotify_add_watch", attach := .sysCall, fn := "inotify_add_watch" }], EssentialEvent := false, Sets := ["syscalls", "fs", "fs_monitor"] }),
  (InotifyRmWatchEventID, { ID := InotifyRmWatchEventID, ID32Bit := some "sys32inotify_rm_watch", Name := "inotify_rm_watch", Probes := [{ event := "inotify_rm_watch", attach := .sysCall, fn := "inotify_rm_watch" }], EssentialEvent := false, Sets := ["syscalls", "fs", "fs_monitor"] }),
  (MigratePagesEventID, { ID := MigratePagesEventID, ID32Bit := some "sys32migrate_pages", Name := "migrate_pages", Probes := [{ event := "migrate_pages", attach := .sysCall, fn := "migrate_pages" }], EssentialEvent := false, Sets := ["syscalls", "system", "system_numa"] }),
  (OpenatEventID, { ID := OpenatEventID, ID32Bit := some "sys32openat", Name := "openat", Probes := [{ event := "openat", attach := .sysCall, fn := "openat" }], EssentialEvent := false, Sets := ["default", "syscalls", "fs", "fs_file_ops"] }),
  (MkdiratEventID, { ID := MkdiratEventID, ID32Bit := some "sys32mkdirat", Name := "mkdirat", Probes := [{ event := "mkdirat", attach := .sysCall, fn := "mkdirat" }], EssentialEvent := false, Sets := ["syscalls", "fs", "fs_dir_ops"] }),
  (MknodatEventID, { ID := MknodatEventID, ID32Bit := some "sys32mknodat", Name := "mknodat", Probes := [{ event := "mknodat", attach := .sysCall, fn := "mknodat" }], EssentialEvent := false, Sets := ["default", "syscalls", "fs", "fs_file_ops"] }),
  (FchownatEventID, { ID := FchownatEventID, ID32Bit := some "sys32fchownat", Name := "fchownat", Probes := [{ event := "fchownat", attach := .sysCall, fn := "fchownat" }], EssentialEvent := false, Sets := ["default", "syscalls", "fs", "fs_file_attr"] }),
  (FutimesatEventID, { ID := FutimesatEventID, ID32Bit := some "sys32futimesat", Name := "futimesat", Probes := [{ event := "futimesat", attach := .sysCall, fn := "futimesat" }], EssentialEvent := false, Sets := ["syscalls", "fs", "fs_file_attr"] }),
  (NewfstatatEventID, { ID := NewfstatatEventID, ID32Bit := some "sys32fstatat64", Name := "newfstatat", Probes := [{ event := "newfstatat", attach := .sysCall, fn := "newfstatat" }], EssentialEvent := false, Sets := ["syscalls", "fs", "fs_file_attr"] }),
  (UnlinkatEventID, { ID := UnlinkatEventID, ID32Bit := some "sys32unlinkat", Name := "unlinkat", Probes := [{ event := "unlinkat", attach := .sysCall, fn := "unlinkat" }], EssentialEvent := false, Sets := ["default", "syscalls", "fs", "fs_link_ops"] }),
  (RenameatEventID, { ID := RenameatEventID, ID32Bit := some "sys32renameat", Name := "renameat", Probes := [{ event := "renameat", attach := .sysCall, fn := "renameat" }], EssentialEvent := false, Sets := ["syscalls", "fs", "fs_file_ops"] }),
  (LinkatEventID, { ID := LinkatEventID, ID32Bit := some "sys32linkat", Name := "linkat", Probes := [{ event := "linkat", attach := .sysCall, fn := "linkat" }], EssentialEvent := false, Sets := ["syscalls", "fs", "fs_link_ops"] }),
  (SymlinkatEventID, { ID := SymlinkatEventID, ID32Bit := some "sys32symlinkat", Name := "symlinkat", Probes := [{ event := "symlinkat", attach := .sysCall, fn := "symlinkat" }], EssentialEvent := false, Sets := ["default", "syscalls", "fs", "fs_link_ops"] }),
  (ReadlinkatEventID, { ID := ReadlinkatEventID, ID32Bit := some "sys32readlinkat", Name := "readlinkat", Probes := [{ event := "readlinkat", attach := .sysCall, fn := "readlinkat" }], EssentialEvent := false, Sets := ["syscalls", "fs", "fs_link_ops"] }),
  (FchmodatEventID, { ID := FchmodatEventID, ID32Bit := some "sys32fchmodat", Name := "fchmodat", Probes := [{ event := "fchmodat", attach := .sysCall, fn := "fchmodat" }], EssentialEvent := false, Sets := ["default", "syscalls", "fs", "fs_file_attr"] }),
  (FaccessatEventID, { ID := FaccessatEventID, ID32Bit := some "sys32faccessat", Name := "faccessat", Probes := [{ event := "faccessat", attach := .sysCall, fn := "faccessat" }], EssentialEvent := false, Sets := ["default", "syscalls", "fs", "fs_file_attr"] }),
  (Pselect6EventID, { ID := Pselect6EventID, ID32Bit := some "sys32pselect6", Name := "pselect6", Probes := [{ event := "pselect6", attach := .sysCall, fn := "pselect6" }], EssentialEvent := false, Sets := ["syscalls", "fs", "fs_mux_io"] }),
  (PpollEventID, { ID := PpollEventID, ID32Bit := some "sys32ppoll", Name := "ppoll", Probes := [{ event := "ppoll", attach := .sysCall, fn := "ppoll" }], EssentialEvent := false, Sets := ["syscalls", "fs", "fs_mux_io"] }),
  (UnshareEventID, { ID := UnshareEventID, ID32Bit := some "sys32unshare", Name := "unshare", Probes := [{ event := "unshare", attach := .sysCall, fn := "unshare" }], EssentialEvent := false, Sets := ["syscalls", "proc"] }),
  (SetRobustListEventID, { ID := SetRobustListEventID, ID32Bit := some "sys32set_robust_list", Name := "set_robust_list", Probes := [{ event := "set_robust_list", attach := .sysCall, fn := "set_robust_list" }], EssentialEvent := false, Sets := ["syscalls", "ipc", "ipc_futex"] }),
  (GetRobustListEventID, { ID := GetRobustListEventID, ID32Bit := some "sys32get_robust_list", Name := "get_robust_list", Probes := [{ event := "get_robust_list", attach := .sysCall, fn := "get_robust_list" }], EssentialEvent := false, Sets := ["syscalls", "ipc", "ipc_futex"] }),
  (SpliceEventID, { ID := SpliceEventID, ID32Bit := some "sys32splice", Name := "splice", Probes := [{ event := "splice", attach := .sysCall, fn := "splice" }], EssentialEvent := false, Sets := ["syscalls", "ipc", "ipc_pipe"] }),
  (TeeEventID, { ID := TeeEventID, ID32Bit := some "sys32tee", Name := "tee", Probes := [{ event := "tee", attach := .sysCall, fn := "tee" }], EssentialEvent := false, Sets := ["syscalls", "ipc", "ipc_pipe"] }),
  (SyncFileRangeEventID, { ID := SyncFileRangeEventID, ID32Bit := some "sys32sync_file_range", Name := "sync_file_range", Probes := [{ event := "sync_file_range", attach := .sysCall, fn := "sync_file_range" }], EssentialEvent := false, Sets := ["syscalls", "fs", "fs_sync"] }),
  (VmspliceEventID, { ID := VmspliceEventID, ID32Bit := some "sys32vmsplice", Name := "vmsplice", Probes := [{ event := "vmsplice", attach := .sysCall, fn := "vmsplice" }], EssentialEvent := false, Sets := ["syscalls", "ipc", "ipc_pipe"] }),
  (MovePagesEventID, { ID := MovePagesEventID, ID32Bit := some "sys32move_pages", Name := "move_pages", Probes := [{ event := "move_pages", attach := .sysCall, fn := "move_pages" }], EssentialEvent := false, Sets := ["syscalls", "system", "system_numa"] })
]

def eventsChunk7 : List (Int × EventConfig) := [
  (UtimensatEventID, { ID := UtimensatEventID, ID32Bit := some "sys32utimensat", Name := "utimensat", Probes := [{ event := "utimensat", attach := .sysCall, fn := "utimensat" }], EssentialEvent := false, Sets := ["syscalls", "fs", "fs_file_attr"] }),
  (EpollPwaitEventID, { ID := EpollPwaitEventID, ID32Bit := some "sys32epoll_pwait", Name := "epoll_pwait", Probes := [{ event := "epoll_pwait", attach := .sysCall, fn := "epoll_pwait" }], EssentialEvent := false, Sets := ["syscalls", "fs", "fs_mux_io"] }),
  (SignalfdEventID, { ID := SignalfdEventID, ID32Bit := some "sys32signalfd", Name := "signalfd", Probes := [{ event := "signalfd", attach := .sysCall, fn := "signalfd" }], EssentialEvent := false, Sets := ["syscalls", "signals"] }),
  (TimerfdCreateEventID, { ID := TimerfdCreateEventID, ID32Bit := some "sys32timerfd_create", Name := "timerfd_create", Probes := [{ event := "timerfd_create", attach := .sysCall, fn := "timerfd_create" }], EssentialEvent := false, Sets := ["syscalls", "time", "time_timer"] }),
  (EventfdEventID, { ID := EventfdEventID, ID32Bit := some "sys32eventfd", Name := "eventfd", Probes := [{ event := "eventfd", attach := .sysCall, fn := "eventfd" }], EssentialEvent := false, Sets := ["syscalls", "signals"] }),
  (FallocateEventID, { ID := FallocateEventID, ID32Bit := some "sys32fallocate", Name := "fallocate", Probes := [{ event := "fallocate", attach := .sysCall, fn := "fallocate" }], EssentialEvent := false, Sets := ["syscalls", "fs", "fs_file_ops"] }),
  (TimerfdSettimeEventID, { ID := TimerfdSettimeEventID, ID32Bit := some "sys32timerfd_settime", Name := "timerfd_settime", Probes := [{ event := "timerfd_settime", attach := .sysCall, fn := "timerfd_settime" }], EssentialEvent := false, Sets := ["syscalls", "time", "time_timer"] }),
  (TimerfdGettimeEventID, { ID := TimerfdGettimeEventID, ID32Bit := some "sys32timerfd_gettime", Name := "timerfd_gettime", Probes := [{ event := "timerfd_gettime", attach := .sysCall, fn := "timerfd_gettime" }], EssentialEvent := false, Sets := ["syscalls", "time", "time_timer"] }),
  (Accept4EventID, { ID := Accept4EventID, ID32Bit := some "sys32accept4", Name := "accept4", Probes := [{ event := "accept4", attach := .sysCall, fn := "accept4" }], EssentialEvent := false, Sets := ["default", "syscalls", "net", "net_sock"] }),
  (Signalfd4EventID, { ID := Signalfd4EventID, ID32Bit := some "sys32signalfd4", Name := "signalfd4", Probes := [{ event := "signalfd4", attach := .sysCall, fn := "signalfd4" }], EssentialEvent := false, Sets := ["syscalls", "signals"] }),
  (Eventfd2EventID, { ID := Eventfd2EventID, ID32Bit := some "sys32eventfd2", Name := "eventfd2", Probes := [{ event := "eventfd2", attach := .sysCall, fn := "eventfd2" }], EssentialEvent := false, Sets := ["syscalls", "signals"] }),
  (EpollCreate1EventID, { ID := EpollCreate1EventID, ID32Bit := some "sys32epoll_create1", Name := "epoll_create1", Probes := [{ event := "epoll_create1", attach := .sysCall, fn := "epoll_create1" }], EssentialEvent := false, Sets := ["syscalls", "fs", "fs_mux_io"] }),
  (Dup3EventID, { ID := Dup3EventID, ID32Bit := some "sys32dup3", Name := "dup3", Probes := [{ event := "dup3", attach := .sysCall, fn := "dup3" }], EssentialEvent := false, Sets := ["default", "syscalls", "fs", "fs_fd_ops"] }),
  (Pipe2EventID, { ID := Pipe2EventID, ID32Bit := some "sys32pipe2", Name := "pipe2", Probes := [{ event := "pipe2", attach := .sysCall, fn := "pipe2" }], EssentialEvent := false, Sets := ["syscalls", "ipc", "ipc_pipe"] }),
  (InotifyInit1EventID, { ID := InotifyInit1EventID, ID32Bit := some "sys32inotify_init1", Name := "inotify_init1", Probes := [{ event := "inotify_init1", attach := .sysCall, fn := "inotify_init1" }], EssentialEvent := false, Sets := ["syscalls", "fs", "fs_monitor"] }),
  (PreadvEventID, { ID := PreadvEventID, ID32Bit := some "sys32preadv", Name := "preadv", Probes := [{ event := "preadv", attach := .sysCall, fn := "preadv" }], EssentialEvent := false, Sets := ["syscalls", "fs", "fs_read_write"] }),
  (PwritevEventID, { ID := PwritevEventID, ID32Bit := some "sys32pwritev", Name := "pwritev", Probes := [{ event := "pwritev", attach := .sysCall, fn := "pwritev" }], EssentialEvent := false, Sets := ["syscalls", "fs", "fs_read_write"] }),
  (RtTgsigqueueinfoEventID, { ID := RtTgsigqueueinfoEventID, ID32Bit := some "sys32rt_tgsigqueueinfo", Name := "rt_tgsigqueueinfo", Probes := [{ event := "rt_tgsigqueueinfo", attach := .sysCall, fn := "rt_tgsigqueueinfo" }], EssentialEvent := false, Sets := ["syscalls", "signals"] }),
  (PerfEventOpenEventID, { ID := PerfEventOpenEventID, ID32Bit := some "sys32perf_event_open", Name := "perf_event_open", Probes := [{ event := "perf_event_open", attach := .sysCall, fn := "perf_event_open" }], EssentialEvent := false, Sets := ["syscalls", "system"] }),
  (RecvmmsgEventID, { ID := RecvmmsgEventID, ID32Bit := some "sys32recvmmsg", Name := "recvmmsg", Probes := [{ event := "recvmmsg", attach := .sysCall, fn := "recvmmsg" }], EssentialEvent := false, Sets := ["syscalls", "net", "net_snd_rcv"] }),
  (FanotifyInitEventID, { ID := FanotifyInitEventID, ID32Bit := some "sys32fanotify_init", Name := "fanotify_init", Probes := [{ event := "fanotify_init", attach := .sysCall, fn := "fanotify_init" }], EssentialEvent := false, Sets := ["syscalls", "fs", "fs_monitor"] }),
  (FanotifyMarkEventID, { ID := FanotifyMarkEventID, ID32Bit := some "sys32fanotify_mark", Name := "fanotify_mark", Probes := [{ event := "fanotify_mark", attach := .sysCall, fn := "fanotify_mark" }], EssentialEvent := false, Sets := ["syscalls", "fs", "fs_monitor"] }),
  (Prlimit64EventID, { ID := Prlimit64EventID, ID32Bit := some "sys32prlimit64", Name := "prlimit64", Probes := [{ event := "prlimit64", attach := .sysCall, fn := "prlimit64" }], EssentialEvent := false, Sets := ["syscalls", "proc"] }),
  (NameToHandleAtEventID, { ID := NameToHandleAtEventID, ID32Bit := some "sys32name_to_handle_at", Name := "name_to_handle_at", Probes := [{ event := "name_to_handle_at", attach := .sysCall, fn := "name_to_handle_at" }], EssentialEvent := false, Sets := ["syscalls", "fs", "fs_file_ops"] }),
  (OpenByHandleAtEventID, { ID := OpenByHandleAtEventID, ID32Bit := some "sys32open_by_handle_at", Name := "open_by_handle_at", Probes := [{ event := "open_by_handle_at", attach := .sysCall, fn := "open_by_handle_at" }], EssentialEvent := false, Sets := ["syscalls", "fs", "fs_file_ops"] }),
  (ClockAdjtimeEventID, { ID := ClockAdjtimeEventID, ID32Bit := some "sys32clock_adjtime", Name := "clock_adjtime", Probes := [{ event := "clock_adjtime", attach := .sysCall, fn := "clock_adjtime" }], EssentialEvent := false, Sets := ["syscalls", "time", "time_clock"] }),
  (SyncfsEventID, { ID := SyncfsEventID, ID32Bit := some "sys32syncfs", Name := "syncfs", Probes := [{ event := "syncfs", attach := .sysCall, fn := "syncfs" }], EssentialEvent := false, Sets := ["syscalls", "fs", "fs_sync"] }),
  (SendmmsgEventID, { ID := SendmmsgEventID, ID32Bit := some "sys32sendmmsg", Name := "sendmmsg", Probes := [{ event := "sendmmsg", attach := .sysCall, fn := "sendmmsg" }], EssentialEvent := false, Sets := ["syscalls", "net", "net_snd_rcv"] }),
  (SetnsEventID, { ID := SetnsEventID, ID32Bit := some "sys32setns", Name := "setns", Probes := [{ event := "setns", attach := .sysCall, fn := "setns" }], EssentialEvent := false, Sets := ["syscalls", "proc"] }),
  (GetcpuEventID, { ID := GetcpuEventID, ID32Bit := some "sys32getcpu", Name := "getcpu", Probes := [{ event := "getcpu", attach := .sysCall, fn := "getcpu" }], EssentialEvent := false, Sets := ["syscalls", "system", "system_numa"] }),
  (ProcessVmReadvEventID, { ID := ProcessVmReadvEventID, ID32Bit := some "sys32process_vm_readv", Name := "process_vm_readv", Probes := [{ event := "process_vm_readv", attach := .sysCall, fn := "process_vm_readv" }], EssentialEvent := false, Sets := ["default", "syscalls", "proc"] }),
  (ProcessVmWritevEventID, { ID := ProcessVmWritevEventID, ID32Bit := some "sys32process_vm_writev", Name := "process_vm_writev", Probes := [{ event := "process_vm_writev", attach := .sysCall, fn := "process_vm_writev" }], EssentialEvent := false, Sets := ["default", "syscalls", "proc"] }),
  (KcmpEventID, { ID := KcmpEventID, ID32Bit := some "sys32kcmp", Name := "kcmp", Probes := [{ event := "kcmp", attach := .sysCall, fn := "kcmp" }], EssentialEvent := false, Sets := ["syscalls", "proc"] }),
  (FinitModuleEventID, { ID := FinitModuleEventID, ID32Bit := some "sys32finit_module", Name := "finit_module", Probes := [{ event := "finit_module", attach := .sysCall, fn := "finit_module" }], EssentialEvent := false, Sets := ["default", "syscalls", "system", "system_module"] }),
  (SchedSetattrEventID, { ID := SchedSetattrEventID, ID32Bit := some "sys32sched_setattr", Name := "sched_setattr", Probes := [{ event := "sched_setattr", attach := .sysCall, fn := "sched_setattr" }], EssentialEvent := false, Sets := ["syscalls", "proc", "proc_sched"] }),
  (SchedGetattrEventID, { ID := SchedGetattrEventID, ID32Bit := some "sys32sched_getattr", Name := "sched_getattr", Probes := [{ event := "sched_getattr", attach := .sysCall, fn := "sched_getattr" }], EssentialEvent := false, Sets := ["syscalls", "proc", "proc_sched"] }),
  (Renameat2EventID, { ID := Renameat2EventID, ID32Bit := some "sys32renameat2", Name := "renameat2", Probes := [{ event := "renameat2", attach := .sysCall, fn := "renameat2" }], EssentialEvent := false, Sets := ["syscalls", "fs", "fs_file_ops"] }),
  (SeccompEventID, { ID := SeccompEventID, ID32Bit := some "sys32seccomp", Name := "seccomp", Probes := [{ event := "seccomp", attach := .sysCall, fn := "seccomp" }], EssentialEvent := false, Sets := ["syscalls", "proc"] }),
  (GetrandomEventID, { ID := GetrandomEventID, ID32Bit := some "sys32getrandom", Name := "getrandom", Probes := [{ event := "getrandom", attach := .sysCall, fn := "getrandom" }], EssentialEvent := false, Sets := ["syscalls", "fs"] }),
  (MemfdCreateEventID, { ID := MemfdCreateEventID, ID32Bit := some "sys32memfd_create", Name := "memfd_create", Probes := [{ event := "memfd_create", attach := .sysCall, fn := "memfd_create" }], EssentialEvent := false, Sets := ["default", "syscalls", "fs", "fs_file_ops"] })
]

def eventsChunk8 : List (Int × EventConfig) := [
  (KexecFileLoadEventID, { ID := KexecFileLoadEventID, ID32Bit := some "sys32undefined", Name := "kexec_file_load", Probes := [{ event := "kexec_file_load", attach := .sysCall, fn := "kexec_file_load" }], EssentialEvent := false, Sets := ["syscalls", "system"] }),
  (BpfEventID, { ID := BpfEventID, ID32Bit := some "sys32bpf", Name := "bpf", Probes := [{ event := "bpf", attach := .sysCall, fn := "bpf" }], EssentialEvent := false, Sets := ["default", "syscalls", "system"] }),
  (ExecveatEventID, { ID := ExecveatEventID, ID32Bit := some "sys32execveat", Name := "execveat", Probes := [{ event := "execveat", attach := .sysCall, fn := "execveat" }], EssentialEvent := false, Sets := ["default", "syscalls", "proc", "proc_life"] }),
  (UserfaultfdEventID, { ID := UserfaultfdEventID, ID32Bit := some "sys32userfaultfd", Name := "userfaultfd", Probes := [{ event := "userfaultfd", attach := .sysCall, fn := "userfaultfd" }], EssentialEvent := false, Sets := ["syscalls", "system"] }),
  (MembarrierEventID, { ID := MembarrierEventID, ID32Bit := some "sys32membarrier", Name := "membarrier", Probes := [{ event := "membarrier", attach := .sysCall, fn := "membarrier" }], EssentialEvent := false, Sets := ["syscalls", "proc", "proc_mem"] }),
  (Mlock2EventID, { ID := Mlock2EventID, ID32Bit := some "sys32mlock2", Name := "mlock2", Probes := [{ event := "mlock2", attach := .sysCall, fn := "mlock2" }], EssentialEvent := false, Sets := ["syscalls", "proc", "proc_mem"] }),
  (CopyFileRangeEventID, { ID := CopyFileRangeEventID, ID32Bit := some "sys32copy_file_range", Name := "copy_file_range", Probes := [{ event := "copy_file_range", attach := .sysCall, fn := "copy_file_range" }], EssentialEvent := false, Sets := ["syscalls", "fs", "fs_read_write"] }),
  (Preadv2EventID, { ID := Preadv2EventID, ID32Bit := some "sys32preadv2", Name := "preadv2", Probes := [{ event := "preadv2", attach := .sysCall, fn := "preadv2" }], EssentialEvent := false, Sets := ["syscalls", "fs", "fs_read_write"] }),
  (Pwritev2EventID, { ID := Pwritev2EventID, ID32Bit := some "sys32pwritev2", Name := "pwritev2", Probes := [{ event := "pwritev2", attach := .sysCall, fn := "pwritev2" }], EssentialEvent := false, Sets := ["syscalls", "fs", "fs_read_write"] }),
  (PkeyMprotectEventID, { ID := PkeyMprotectEventID, ID32Bit := some "sys32pkey_mprotect", Name := "pkey_mprotect", Probes := [{ event := "pkey_mprotect", attach := .sysCall, fn := "pkey_mprotect" }], EssentialEvent := false, Sets := ["default", "syscalls", "proc", "proc_mem"] }),
  (PkeyAllocEventID, { ID := PkeyAllocEventID, ID32Bit := some "sys32pkey_alloc", Name := "pkey_alloc", Probes := [{ event := "pkey_alloc", attach := .sysCall, fn := "pkey_alloc" }], EssentialEvent := false, Sets := ["syscalls", "proc", "proc_mem"] }),
  (PkeyFreeEventID, { ID := PkeyFreeEventID, ID32Bit := some "sys32pkey_free", Name := "pkey_free", Probes := [{ event := "pkey_free", attach := .sysCall, fn := "pkey_free" }], EssentialEvent := false, Sets := ["syscalls", "proc", "proc_mem"] }),
  (StatxEventID, { ID := StatxEventID, ID32Bit := some "sys32statx", Name := "statx", Probes := [{ event := "statx", attach := .sysCall, fn := "statx" }], EssentialEvent := false, Sets := ["syscalls", "fs", "fs_file_attr"] }),
  (IoPgeteventsEventID, { ID := IoPgeteventsEventID, ID32Bit := some "sys32io_pgetevents", Name := "io_pgetevents", Probes := [{ event := "io_pgetevents", attach := .sysCall, fn := "io_pgetevents" }], EssentialEvent := false, Sets := ["syscalls", "fs", "fs_async_io"] }),
  (RseqEventID, { ID := RseqEventID, ID32Bit := some "sys32rseq", Name := "rseq", Probes := [{ event := "rseq", attach := .sysCall, fn := "rseq" }], EssentialEvent := false, Sets := ["syscalls"] }),
  (PidfdSendSignalEventID, { ID := PidfdSendSignalEventID, ID32Bit := some "sys32pidfd_send_signal", Name := "pidfd_send_signal", Probes := [{ event := "pidfd_send_signal", attach := .sysCall, fn := "pidfd_send_signal" }], EssentialEvent := false, Sets := ["syscalls", "signals"] }),
  (IoUringSetupEventID, { ID := IoUringSetupEventID, ID32Bit := some "sys32io_uring_setup", Name := "io_uring_setup", Probes := [{ event := "io_uring_setup", attach := .sysCall, fn := "io_uring_setup" }], EssentialEvent := false, Sets := ["syscalls"] }),
  (IoUringEnterEventID, { ID := IoUringEnterEventID, ID32Bit := some "sys32io_uring_enter", Name := "io_uring_enter", Probes := [{ event := "io_uring_enter", attach := .sysCall, fn := "io_uring_enter" }], EssentialEvent := false, Sets := ["syscalls"] }),
  (IoUringRegisterEventID, { ID := IoUringRegisterEventID, ID32Bit := some "sys32io_uring_register", Name := "io_uring_register", Probes := [{ event := "io_uring_register", attach := .sysCall, fn := "io_uring_register" }], EssentialEvent := false, Sets := ["syscalls"] }),
  (OpenTreeEventID, { ID := OpenTreeEventID, ID32Bit := some "sys32open_tree", Name := "open_tree", Probes := [{ event := "open_tree", attach := .sysCall, fn := "open_tree" }], EssentialEvent := false, Sets := ["syscalls"] }),
  (MoveMountEventID, { ID := MoveMountEventID, ID32Bit := some "sys32move_mount", Name := "move_mount", Probes := [{ event := "move_mount", attach := .sysCall, fn := "move_mount" }], EssentialEvent := false, Sets := ["default", "syscalls", "fs"] }),
  (FsopenEventID, { ID := FsopenEventID, ID32Bit := some "sys32fsopen", Name := "fsopen", Probes := [{ event := "fsopen", attach := .sysCall, fn := "fsopen" }], EssentialEvent := false, Sets := ["syscalls", "fs"] }),
  (FsconfigEventID, { ID := FsconfigEventID, ID32Bit := some "sys32fsconfig", Name := "fsconfig", Probes := [{ event := "fsconfig", attach := .sysCall, fn := "fsconfig" }], EssentialEvent := false, Sets := ["syscalls", "fs"] }),
  (FsmountEventID, { ID := FsmountEventID, ID32Bit := some "sys32fsmount", Name := "fsmount", Probes := [{ event := "fsmount", attach := .sysCall, fn := "fsmount" }], EssentialEvent := false, Sets := ["syscalls", "fs"] }),
  (FspickEventID, { ID := FspickEventID, ID32Bit := some "sys32fspick", Name := "fspick", Probes := [{ event := "fspick", attach := .sysCall, fn := "fspick" }], EssentialEvent := false, Sets := ["syscalls", "fs"] }),
  (PidfdOpenEventID, { ID := PidfdOpenEventID, ID32Bit := some "sys32pidfd_open", Name := "pidfd_open", Probes := [{ event := "pidfd_open", attach := .sysCall, fn := "pidfd_open" }], EssentialEvent := false, Sets := ["syscalls"] }),
  (Clone3EventID, { ID := Clone3EventID, ID32Bit := some "sys32clone3", Name := "clone3", Probes := [{ event := "clone3", attach := .sysCall, fn := "clone3" }], EssentialEvent := false, Sets := ["default", "syscalls", "proc", "proc_life"] }),
  (CloseRangeEventID, { ID := CloseRangeEventID, ID32Bit := some "sys32close_range", Name := "close_range", Probes := [{ event := "close_range", attach := .sysCall, fn := "close_range" }], EssentialEvent := false, Sets := ["default", "syscalls", "fs", "fs_file_ops"] }),
  (Openat2EventID, { ID := Openat2EventID, ID32Bit := some "sys32openat2", Name := "openat2", Probes := [{ event := "openat2", attach := .sysCall, fn := "openat2" }], EssentialEvent := false, Sets := ["default", "syscalls", "fs", "fs_file_ops"] }),
  (PidfdGetfdEventID, { ID := PidfdGetfdEventID, ID32Bit := some "sys32pidfd_getfd", Name := "pidfd_getfd", Probes := [{ event := "pidfd_getfd", attach := .sysCall, fn := "pidfd_getfd" }], EssentialEvent := false, Sets := ["syscalls"] }),
  (Faccessat2EventID, { ID := Faccessat2EventID, ID32Bit := some "sys32faccessat2", Name := "faccessat2", Probes := [{ event := "faccessat2", attach := .sysCall, fn := "faccessat2" }], EssentialEvent := false, Sets := ["default", "syscalls", "fs", "fs_file_attr"] }),
  (ProcessMadviseEventID, { ID := ProcessMadviseEventID, ID32Bit := some "sys32process_madvise", Name := "process_madvise", Probes := [{ event := "process_madvise", attach := .sysCall, fn := "process_madvise" }], EssentialEvent := false, Sets := ["syscalls"] }),
  (EpollPwait2EventID, { ID := EpollPwait2EventID, ID32Bit := some "sys32epoll_pwait2", Name := "epoll_pwait2", Probes := [{ event := "epoll_pwait2", attach := .sysCall, fn := "epoll_pwait2" }], EssentialEvent := false, Sets := ["syscalls", "fs", "fs_mux_io"] }),
  (SysEnterEventID, { ID := SysEnterEventID, ID32Bit := some "sys32undefined", Name := "sys_enter", Probes := [{ event := "raw_syscalls:sys_enter", attach := .rawTracepoint, fn := "tracepoint__raw_syscalls__sys_enter" }], EssentialEvent := true, Sets := [] }),
  (SysExitEventID, { ID := SysExitEventID, ID32Bit := some "sys32undefined", Name := "sys_exit", Probes := [{ event := "raw_syscalls:sys_exit", attach := .rawTracepoint, fn := "tracepoint__raw_syscalls__sys_exit" }], EssentialEvent := true, Sets := [] }),
  (SchedProcessForkEventID, { ID := SchedProcessForkEventID, ID32Bit := some "sys32undefined", Name := "sched_process_fork", Probes := [{ event := "sched:sched_process_fork", attach := .rawTracepoint, fn := "tracepoint__sched__sched_process_fork" }], EssentialEvent := true, Sets := [] }),
  (SchedProcessExecEventID, { ID := SchedProcessExecEventID, ID32Bit := some "sys32undefined", Name := "sched_process_exec", Probes := [{ event := "sched:sched_process_exec", attach := .rawTracepoint, fn := "tracepoint__sched__sched_process_exec" }], EssentialEvent := true, Sets := ["default", "proc"] }),
  (SchedProcessExitEventID, { ID := SchedProcessExitEventID, ID32Bit := some "sys32undefined", Name := "sched_process_exit", Probes := [{ event := "sched:sched_process_exit", attach := .rawTracepoint, fn := "tracepoint__sched__sched_process_exit" }], EssentialEvent := true, Sets := ["default", "proc", "proc_life"] }),
  (SchedSwitchEventID, { ID := SchedSwitchEventID, ID32Bit := some "sys32undefined", Name := "sched_switch", Probes := [{ event := "sched:sched_switch", attach := .rawTracepoint, fn := "tracepoint__sched__sched_switch" }], EssentialEvent := false, Sets := [] }),
  (DoExitEventID, { ID := DoExitEventID, ID32Bit := some "sys32undefined", Name := "do_exit", Probes := [{ event := "do_exit", attach := .kprobe, fn := "trace_do_exit" }], EssentialEvent := false, Sets := ["proc", "proc_life"] })
]

def eventsChunk9 : List (Int × EventConfig) := [
  (CapCapableEventID, { ID := CapCapableEventID, ID32Bit := some "sys32undefined", Name := "cap_capable", Probes := [{ event := "cap_capable", attach := .kprobe, fn := "trace_cap_capable" }], EssentialEvent := false, Sets := ["default"] }),
  (VfsWriteEventID, { ID := VfsWriteEventID, ID32Bit := some "sys32undefined", Name := "vfs_write", Probes := [{ event := "vfs_write", attach := .kprobe, fn := "trace_vfs_write" }, { event := "vfs_write", attach := .kretprobe, fn := "trace_ret_vfs_write" }], EssentialEvent := false, Sets := [] }),
  (VfsWritevEventID, { ID := VfsWritevEventID, ID32Bit := some "sys32undefined", Name := "vfs_writev", Probes := [{ event := "vfs_writev", attach := .kprobe, fn := "trace_vfs_writev" }, { event := "vfs_writev", attach := .kretprobe, fn := "trace_ret_vfs_writev" }], EssentialEvent := false, Sets := [] }),
  (MemProtAlertEventID, { ID := MemProtAlertEventID, ID32Bit := some "sys32undefined", Name := "mem_prot_alert", Probes := [{ event := "security_mmap_addr", attach := .kprobe, fn := "trace_mmap_alert" }, { event := "security_file_mprotect", attach := .kprobe, fn := "trace_mprotect_alert" }], EssentialEvent := false, Sets := [] }),
  (CommitCredsEventID, { ID := CommitCredsEventID, ID32Bit := some "sys32undefined", Name := "commit_creds", Probes := [{ event := "commit_creds", attach := .kprobe, fn := "trace_commit_creds" }], EssentialEvent := false, Sets := [] }),
  (SwitchTaskNSEventID, { ID := SwitchTaskNSEventID, ID32Bit := some "sys32undefined", Name := "switch_task_ns", Probes := [{ event := "switch_task_namespaces", attach := .kprobe, fn := "trace_switch_task_namespaces" }], EssentialEvent := false, Sets := [] }),
  (MagicWriteEventID, { ID := MagicWriteEventID, ID32Bit := some "sys32undefined", Name := "magic_write", Probes := [], EssentialEvent := false, Sets := [] }),
  (CgroupAttachTaskEventID, { ID := CgroupAttachTaskEventID, ID32Bit := some "sys32undefined", Name := "cgroup_attach_task", Probes := [{ event := "cgroup:cgroup_attach_task", attach := .rawTracepoint, fn := "tracepoint__cgroup__cgroup_attach_task" }], EssentialEvent := false, Sets := [] }),
  (CgroupMkdirEventID, { ID := CgroupMkdirEventID, ID32Bit := some "sys32undefined", Name := "cgroup_mkdir", Probes := [{ event := "cgroup:cgroup_mkdir", attach := .rawTracepoint, fn := "tracepoint__cgroup__cgroup_mkdir" }], EssentialEvent := true, Sets := [] }),
  (CgroupRmdirEventID, { ID := CgroupRmdirEventID, ID32Bit := some "sys32undefined", Name := "cgroup_rmdir", Probes := [{ event := "cgroup:cgroup_rmdir", attach := .rawTracepoint, fn := "tracepoint__cgroup__cgroup_rmdir" }], EssentialEvent := true, Sets := [] }),
  (SecurityBprmCheckEventID, { ID := SecurityBprmCheckEventID, ID32Bit := some "sys32undefined", Name := "security_bprm_check", Probes := [{ event := "security_bprm_check", attach := .kprobe, fn := "trace_security_bprm_check" }], EssentialEvent := false, Sets := ["default", "lsm_hooks", "proc", "proc_life"] }),
  (SecurityFileOpenEventID, { ID := SecurityFileOpenEventID, ID32Bit := some "sys32undefined", Name := "security_file_open", Probes := [{ event := "security_file_open", attach := .kprobe, fn := "trace_security_file_open" }], EssentialEvent := false, Sets := ["default", "lsm_hooks", "fs", "fs_file_ops"] }),
  (SecurityInodeUnlinkEventID, { ID := SecurityInodeUnlinkEventID, ID32Bit := some "sys32undefined", Name := "security_inode_unlink", Probes := [{ event := "security_inode_unlink", attach := .kprobe, fn := "trace_security_inode_unlink" }], EssentialEvent := false, Sets := ["default", "lsm_hooks", "fs", "fs_file_ops"] }),
  (SecuritySocketCreateEventID, { ID := SecuritySocketCreateEventID, ID32Bit := some "sys32undefined", Name := "security_socket_create", Probes := [{ event := "security_socket_create", attach := .kprobe, fn := "trace_security_socket_create" }], EssentialEvent := false, Sets := ["default", "lsm_hooks", "net", "net_sock"] }),
  (SecuritySocketListenEventID, { ID := SecuritySocketListenEventID, ID32Bit := some "sys32undefined", Name := "security_socket_listen", Probes := [{ event := "security_socket_listen", attach := .kprobe, fn := "trace_security_socket_listen" }], EssentialEvent := false, Sets := ["default", "lsm_hooks", "net", "net_sock"] }),
  (SecuritySocketConnectEventID, { ID := SecuritySocketConnectEventID, ID32Bit := some "sys32undefined", Name := "security_socket_connect", Probes := [{ event := "security_socket_connect", attach := .kprobe, fn := "trace_security_socket_connect" }], EssentialEvent := false, Sets := ["default", "lsm_hooks", "net", "net_sock"] }),
  (SecuritySocketAcceptEventID, { ID := SecuritySocketAcceptEventID, ID32Bit := some "sys32undefined", Name := "security_socket_accept", Probes := [{ event := "security_socket_accept", attach := .kprobe, fn := "trace_security_socket_accept" }], EssentialEvent := false, Sets := ["default", "lsm_hooks", "net", "net_sock"] }),
  (SecuritySocketBindEventID, { ID := SecuritySocketBindEventID, ID32Bit := some "sys32undefined", Name := "security_socket_bind", Probes := [{ event := "security_socket_bind", attach := .kprobe, fn := "trace_security_socket_bind" }], EssentialEvent := false, Sets := ["default", "lsm_hooks", "net", "net_sock"] }),
  (SecuritySbMountEventID, { ID := SecuritySbMountEventID, ID32Bit := some "sys32undefined", Name := "security_sb_mount", Probes := [{ event := "security_sb_mount", attach := .kprobe, fn := "trace_security_sb_mount" }], EssentialEvent := false, Sets := ["default", "lsm_hooks", "fs"] }),
  (SecurityBPFEventID, { ID := SecurityBPFEventID, ID32Bit := some "sys32undefined", Name := "security_bpf", Probes := [{ event := "security_bpf", attach := .kprobe, fn := "trace_security_bpf" }], EssentialEvent := false, Sets := ["lsm_hooks"] }),
  (SecurityBPFMapEventID, { ID := SecurityBPFMapEventID, ID32Bit := some "sys32undefined", Name := "security_bpf_map", Probes := [{ event := "security_bpf_map", attach := .kprobe, fn := "trace_security_bpf_map" }], EssentialEvent := false, Sets := ["lsm_hooks"] }),
  (SecurityKernelReadFileEventID, { ID := SecurityKernelReadFileEventID, ID32Bit := some "sys32undefined", Name := "security_kernel_read_file", Probes := [{ event := "security_kernel_read_file", attach := .kprobe, fn := "trace_security_kernel_read_file" }], EssentialEvent := false, Sets := ["lsm_hooks"] }),
  (SecurityPostReadFileEventID, { ID := SecurityPostReadFileEventID, ID32Bit := some "sys32undefined", Name := "security_kernel_post_read_file", Probes := [{ event := "security_kernel_post_read_file", attach := .kprobe, fn := "trace_security_kernel_post_read_file" }], EssentialEvent := false, Sets := ["lsm_hooks"] }),
  (SecurityInodeMknodEventID, { ID := SecurityInodeMknodEventID, ID32Bit := some "sys32undefined", Name := "security_inode_mknod", Probes := [{ event := "security_inode_mknod", attach := .kprobe, fn := "trace_security_inode_mknod" }], EssentialEvent := false, Sets := ["lsm_hooks"] }),
  (InitNamespacesEventID, { ID := InitNamespacesEventID, ID32Bit := some "sys32undefined", Name := "init_namespaces", Probes := [], EssentialEvent := false, Sets := [] }),
  (SocketDupEventID, { ID := SocketDupEventID, ID32Bit := some "sys32undefined", Name := "socket_dup", Probes := [], EssentialEvent := false, Sets := [] })
]

/-- EventsIDToEvent, the registry of supported events indexed by id, as the
association list of the Go map literal in source order (concatenation of the
slices above). `ID32Bit` records the name of the 32-bit compatibility
constant the literal supplies (the numeric `sys32*` values are declared
outside this slice of the repository; no claim uses them). -/
def EventsIDToEvent : List (Int × EventConfig) :=
  eventsChunk0 ++ eventsChunk1 ++ eventsChunk2 ++ eventsChunk3 ++ eventsChunk4 ++ eventsChunk5 ++ eventsChunk6 ++ eventsChunk7 ++ eventsChunk8 ++ eventsChunk9

def paramsChunk0 : List (Int × List ArgMeta) := [
  (ReadEventID, [{ ArgType := "int", Name := "fd" }, { ArgType := "void*", Name := "buf" }, { ArgType := "size_t", Name := "count" }]),
  (WriteEventID, [{ ArgType := "int", Name := "fd" }, { ArgType := "void*", Name := "buf" }, { ArgType := "size_t", Name := "count" }]),
  (OpenEventID, [{ ArgType := "const char*", Name := "pathname" }, { ArgType := "int", Name := "flags" }, { ArgType := "mode_t", Name := "mode" }]),
  (CloseEventID, [{ ArgType := "int", Name := "fd" }]),
  (StatEventID, [{ ArgType := "const char*", Name := "pathname" }, { ArgType := "struct stat*", Name := "statbuf" }]),
  (FstatEventID, [{ ArgType := "int", Name := "fd" }, { ArgType := "struct stat*", Name := "statbuf" }]),
  (LstatEventID, [{ ArgType := "const char*", Name := "pathname" }, { ArgType := "struct stat*", Name := "statbuf" }]),
  (PollEventID, [{ ArgType := "struct pollfd*", Name := "fds" }, { ArgType := "unsigned int", Name := "nfds" }, { ArgType := "int", Name := "timeout" }]),
  (LseekEventID, [{ ArgType := "int", Name := "fd" }, { ArgType := "off_t", Name := "offset" }, { ArgType := "unsigned int", Name := "whence" }]),
  (MmapEventID, [{ ArgType := "void*", Name := "addr" }, { ArgType := "size_t", Name := "length" }, { ArgType := "int", Name := "prot" }, { ArgType := "int", Name := "flags" }, { ArgType := "int", Name := "fd" }, { ArgType := "off_t", Name := "off" }]),
  (MprotectEventID, [{ ArgType := "void*", Name := "addr" }, { ArgType := "size_t", Name := "len" }, { ArgType := "int", Name := "prot" }]),
  (MunmapEventID, [{ ArgType := "void*", Name := "addr" }, { ArgType := "size_t", Name := "length" }]),
  (BrkEventID, [{ ArgType := "void*", Name := "addr" }]),
  (RtSigactionEventID, [{ ArgType := "int", Name := "signum" }, { ArgType := "const struct sigaction*", Name := "act" }, { ArgType := "struct sigaction*", Name := "oldact" }, { ArgType := "size_t", Name := "sigsetsize" }]),
  (RtSigprocmaskEventID, [{ ArgType := "int", Name := "how" }, { ArgType := "sigset_t*", Name := "set" }, { ArgType := "sigset_t*", Name := "oldset" }, { ArgType := "size_t", Name := "sigsetsize" }]),
  (RtSigreturnEventID, []),
  (IoctlEventID, [{ ArgType := "int", Name := "fd" }, { ArgType := "unsigned long", Name := "request" }, { ArgType := "unsigned long", Name := "arg" }]),
  (Pread64EventID, [{ ArgType := "int", Name := "fd" }, { ArgType := "void*", Name := "buf" }, { ArgType := "size_t", Name := "count" }, { ArgType := "off_t", Name := "offset" }]),
  (Pwrite64EventID, [{ ArgType := "int", Name := "fd" }, { ArgType := "const void*", Name := "buf" }, { ArgType := "size_t", Name := "count" }, { ArgType := "off_t", Name := "offset" }]),
  (ReadvEventID, [{ ArgType := "int", Name := "fd" }, { ArgType := "const struct iovec*", Name := "iov" }, { ArgType := "int", Name := "iovcnt" }]),
  (WritevEventID, [{ ArgType := "int", Name := "fd" }, { ArgType := "const struct iovec*", Name := "iov" }, { ArgType := "int", Name := "iovcnt" }]),
  (AccessEventID, [{ ArgType := "const char*", Name := "pathname" }, { ArgType := "int", Name := "mode" }]),
  (PipeEventID, [{ ArgType := "int[2]", Name := "pipefd" }]),
  (SelectEventID, [{ ArgType := "int", Name := "nfds" }, { ArgType := "fd_set*", Name := "readfds" }, { ArgType := "fd_set*", Name := "writefds" }, { ArgType := "fd_set*", Name := "exceptfds" }, { ArgType := "struct timeval*", Name := "timeout" }]),
  (SchedYieldEventID, []),
  (MremapEventID, [{ ArgType := "void*", Name := "old_address" }, { ArgType := "size_t", Name := "old_size" }, { ArgType := "size_t", Name := "new_size" }, { ArgType := "int", Name := "flags" }, { ArgType := "void*", Name := "new_address" }]),
  (MsyncEventID, [{ ArgType := "void*", Name := "addr" }, { ArgType := "size_t", Name := "length" }, { ArgType := "int", Name := "flags" }]),
  (MincoreEventID, [{ ArgType := "void*", Name := "addr" }, { ArgType := "size_t", Name := "length" }, { ArgType := "unsigned char*", Name := "vec" }]),
  (MadviseEventID, [{ ArgType := "void*", Name := "addr" }, { ArgType := "size_t", Name := "length" }, { ArgType := "int", Name := "advice" }]),
  (ShmgetEventID, [{ ArgType := "key_t", Name := "key" }, { ArgType := "size_t", Name := "size" }, { ArgType := "int", Name := "shmflg" }]),
  (ShmatEventID, [{ ArgType := "int", Name := "shmid" }, { ArgType := "const void*", Name := "shmaddr" }, { ArgType := "int", Name := "shmflg" }]),
  (ShmctlEventID, [{ ArgType := "int", Name := "shmid" }, { ArgType := "int", Name := "cmd" }, { ArgType := "struct shmid_ds*", Name := "buf" }]),
  (DupEventID, [{ ArgType := "int", Name := "oldfd" }]),
  (Dup2EventID, [{ ArgType := "int", Name := "oldfd" }, { ArgType := "int", Name := "newfd" }]),
  (PauseEventID, []),
  (NanosleepEventID, [{ ArgType := "const struct timespec*", Name := "req" }, { ArgType := "struct timespec*", Name := "rem" }]),
  (GetitimerEventID, [{ ArgType := "int", Name := "which" }, { ArgType := "struct itimerval*", Name := "curr_value" }]),
  (AlarmEventID, [{ ArgType := "unsigned int", Name := "seconds" }]),
  (SetitimerEventID, [{ ArgType := "int", Name := "which" }, { ArgType := "struct itimerval*", Name := "new_value" }, { ArgType := "struct itimerval*", Name := "old_value" }]),
  (GetpidEventID, [])
]

def paramsChunk1 : List (Int × List ArgMeta) := [
  (SendfileEventID, [{ ArgType := "int", Name := "out_fd" }, { ArgType := "int", Name := "in_fd" }, { ArgType := "off_t*", Name := "offset" }, { ArgType := "size_t", Name := "count" }]),
  (SocketEventID, [{ ArgType := "int", Name := "domain" }, { ArgType := "int", Name := "type" }, { ArgType := "int", Name := "protocol" }]),
  (ConnectEventID, [{ ArgType := "int", Name := "sockfd" }, { ArgType := "struct sockaddr*", Name := "addr" }, { ArgType := "int", Name := "addrlen" }]),
  (AcceptEventID, [{ ArgType := "int", Name := "sockfd" }, { ArgType := "struct sockaddr*", Name := "addr" }, { ArgType := "int*", Name := "addrlen" }]),
  (SendtoEventID, [{ ArgType := "int", Name := "sockfd" }, { ArgType := "void*", Name := "buf" }, { ArgType := "size_t", Name := "len" }, { ArgType := "int", Name := "flags" }, { ArgType := "struct sockaddr*", Name := "dest_addr" }, { ArgType := "int", Name := "addrlen" }]),
  (RecvfromEventID, [{ ArgType := "int", Name := "sockfd" }, { ArgType := "void*", Name := "buf" }, { ArgType := "size_t", Name := "len" }, { ArgType := "int", Name := "flags" }, { ArgType := "struct sockaddr*", Name := "src_addr" }, { ArgType := "int*", Name := "addrlen" }]),
  (SendmsgEventID, [{ ArgType := "int", Name := "sockfd" }, { ArgType := "struct msghdr*", Name := "msg" }, { ArgType := "int", Name := "flags" }]),
  (RecvmsgEventID, [{ ArgType := "int", Name := "sockfd" }, { ArgType := "struct msghdr*", Name := "msg" }, { ArgType := "int", Name := "flags" }]),
  (ShutdownEventID, [{ ArgType := "int", Name := "sockfd" }, { ArgType := "int", Name := "how" }]),
  (BindEventID, [{ ArgType := "int", Name := "sockfd" }, { ArgType := "struct sockaddr*", Name := "addr" }, { ArgType := "int", Name := "addrlen" }]),
  (ListenEventID, [{ ArgType := "int", Name := "sockfd" }, { ArgType := "int", Name := "backlog" }]),
  (GetsocknameEventID, [{ ArgType := "int", Name := "sockfd" }, { ArgType := "struct sockaddr*", Name := "addr" }, { ArgType := "int*", Name := "addrlen" }]),
  (GetpeernameEventID, [{ ArgType := "int", Name := "sockfd" }, { ArgType := "struct sockaddr*", Name := "addr" }, { ArgType := "int*", Name := "addrlen" }]),
  (SocketpairEventID, [{ ArgType := "int", Name := "domain" }, { ArgType := "int", Name := "type" }, { ArgType := "int", Name := "protocol" }, { ArgType := "int[2]", Name := "sv" }]),
  (SetsockoptEventID, [{ ArgType := "int", Name := "sockfd" }, { ArgType := "int", Name := "level" }, { ArgType := "int", Name := "optname" }, { ArgType := "const void*", Name := "optval" }, { ArgType := "int", Name := "optlen" }]),
  (GetsockoptEventID, [{ ArgType := "int", Name := "sockfd" }, { ArgType := "int", Name := "level" }, { ArgType := "int", Name := "optname" }, { ArgType := "void*", Name := "optval" }, { ArgType := "int*", Name := "optlen" }]),
  (CloneEventID, [{ ArgType := "unsigned long", Name := "flags" }, { ArgType := "void*", Name := "stack" }, { ArgType := "int*", Name := "parent_tid" }, { ArgType := "int*", Name := "child_tid" }, { ArgType := "unsigned long", Name := "tls" }]),
  (ForkEventID, []),
  (VforkEventID, []),
  (ExecveEventID, [{ ArgType := "const char*", Name := "pathname" }, { ArgType := "const char*const*", Name := "argv" }, { ArgType := "const char*const*", Name := "envp" }]),
  (ExitEventID, [{ ArgType := "int", Name := "status" }]),
  (Wait4EventID, [{ ArgType := "pid_t", Name := "pid" }, { ArgType := "int*", Name := "wstatus" }, { ArgType := "int", Name := "options" }, { ArgType := "struct rusage*", Name := "rusage" }]),
  (KillEventID, [{ ArgType := "pid_t", Name := "pid" }, { ArgType := "int", Name := "sig" }]),
  (UnameEventID, [{ ArgType := "struct utsname*", Name := "buf" }]),
  (SemgetEventID, [{ ArgType := "key_t", Name := "key" }, { ArgType := "int", Name := "nsems" }, { ArgType := "int", Name := "semflg" }]),
  (SemopEventID, [{ ArgType := "int", Name := "semid" }, { ArgType := "struct sembuf*", Name := "sops" }, { ArgType := "size_t", Name := "nsops" }]),
  (SemctlEventID, [{ ArgType := "int", Name := "semid" }, { ArgType := "int", Name := "semnum" }, { ArgType := "int", Name := "cmd" }, { ArgType := "unsigned long", Name := "arg" }]),
  (ShmdtEventID, [{ ArgType := "const void*", Name := "shmaddr" }]),
  (MsggetEventID, [{ ArgType := "key_t", Name := "key" }, { ArgType := "int", Name := "msgflg" }]),
  (MsgsndEventID, [{ ArgType := "int", Name := "msqid" }, { ArgType := "struct msgbuf*", Name := "msgp" }, { ArgType := "size_t", Name := "msgsz" }, { ArgType := "int", Name := "msgflg" }]),
  (MsgrcvEventID, [{ ArgType := "int", Name := "msqid" }, { ArgType := "struct msgbuf*", Name := "msgp" }, { ArgType := "size_t", Name := "msgsz" }, { ArgType := "long", Name := "msgtyp" }, { ArgType := "int", Name := "msgflg" }]),
  (MsgctlEventID, [{ ArgType := "int", Name := "msqid" }, { ArgType := "int", Name := "cmd" }, { ArgType := "struct msqid_ds*", Name := "buf" }]),
  (FcntlEventID, [{ ArgType := "int", Name := "fd" }, { ArgType := "int", Name := "cmd" }, { ArgType := "unsigned long", Name := "arg" }]),
  (FlockEventID, [{ ArgType := "int", Name := "fd" }, { ArgType := "int", Name := "operation" }]),
  (FsyncEventID, [{ ArgType := "int", Name := "fd" }]),
  (FdatasyncEventID, [{ ArgType := "int", Name := "fd" }]),
  (TruncateEventID, [{ ArgType := "const char*", Name := "path" }, { ArgType := "off_t", Name := "length" }]),
  (FtruncateEventID, [{ ArgType := "int", Name := "fd" }, { ArgType := "off_t", Name := "length" }]),
  (GetdentsEventID, [{ ArgType := "int", Name := "fd" }, { ArgType := "struct linux_dirent*", Name := "dirp" }, { ArgType := "unsigned int", Name := "count" }]),
  (GetcwdEventID, [{ ArgType := "char*", Name := "buf" }, { ArgType := "size_t", Name := "size" }])
]

def paramsChunk2 : List (Int × List ArgMeta) := [
  (ChdirEventID, [{ ArgType := "const char*", Name := "path" }]),
  (FchdirEventID, [{ ArgType := "int", Name := "fd" }]),
  (RenameEventID, [{ ArgType := "const char*", Name := "oldpath" }, { ArgType := "const char*", Name := "newpath" }]),
  (MkdirEventID, [{ ArgType := "const char*", Name := "pathname" }, { ArgType := "mode_t", Name := "mode" }]),
  (RmdirEventID, [{ ArgType := "const char*", Name := "pathname" }]),
  (CreatEventID, [{ ArgType := "const char*", Name := "pathname" }, { ArgType := "mode_t", Name := "mode" }]),
  (LinkEventID, [{ ArgType := "const char*", Name := "oldpath" }, { ArgType := "const char*", Name := "newpath" }]),
  (UnlinkEventID, [{ ArgType := "const char*", Name := "pathname" }]),
  (SymlinkEventID, [{ ArgType := "const char*", Name := "target" }, { ArgType := "const char*", Name := "linkpath" }]),
  (ReadlinkEventID, [{ ArgType := "const char*", Name := "pathname" }, { ArgType := "char*", Name := "buf" }, { ArgType := "size_t", Name := "bufsiz" }]),
  (ChmodEventID, [{ ArgType := "const char*", Name := "pathname" }, { ArgType := "mode_t", Name := "mode" }]),
  (FchmodEventID, [{ ArgType := "int", Name := "fd" }, { ArgType := "mode_t", Name := "mode" }]),
  (ChownEventID, [{ ArgType := "const char*", Name := "pathname" }, { ArgType := "uid_t", Name := "owner" }, { ArgType := "gid_t", Name := "group" }]),
  (FchownEventID, [{ ArgType := "int", Name := "fd" }, { ArgType := "uid_t", Name := "owner" }, { ArgType := "gid_t", Name := "group" }]),
  (LchownEventID, [{ ArgType := "const char*", Name := "pathname" }, { ArgType := "uid_t", Name := "owner" }, { ArgType := "gid_t", Name := "group" }]),
  (UmaskEventID, [{ ArgType := "mode_t", Name := "mask" }]),
  (GettimeofdayEventID, [{ ArgType := "struct timeval*", Name := "tv" }, { ArgType := "struct timezone*", Name := "tz" }]),
  (GetrlimitEventID, [{ ArgType := "int", Name := "resource" }, { ArgType := "struct rlimit*", Name := "rlim" }]),
  (GetrusageEventID, [{ ArgType := "int", Name := "who" }, { ArgType := "struct rusage*", Name := "usage" }]),
  (SysinfoEventID, [{ ArgType := "struct sysinfo*", Name := "info" }]),
  (TimesEventID, [{ ArgType := "struct tms*", Name := "buf" }]),
  (PtraceEventID, [{ ArgType := "long", Name := "request" }, { ArgType := "pid_t", Name := "pid" }, { ArgType := "void*", Name := "addr" }, { ArgType := "void*", Name := "data" }]),
  (GetuidEventID, []),
  (SyslogEventID, [{ ArgType := "int", Name := "type" }, { ArgType := "char*", Name := "bufp" }, { ArgType := "int", Name := "len" }]),
  (GetgidEventID, []),
  (SetuidEventID, [{ ArgType := "uid_t", Name := "uid" }]),
  (SetgidEventID, [{ ArgType := "gid_t", Name := "gid" }]),
  (GeteuidEventID, []),
  (GetegidEventID, []),
  (SetpgidEventID, [{ ArgType := "pid_t", Name := "pid" }, { ArgType := "pid_t", Name := "pgid" }]),
  (GetppidEventID, []),
  (GetpgrpEventID, []),
  (SetsidEventID, []),
  (SetreuidEventID, [{ ArgType := "uid_t", Name := "ruid" }, { ArgType := "uid_t", Name := "euid" }]),
  (SetregidEventID, [{ ArgType := "gid_t", Name := "rgid" }, { ArgType := "gid_t", Name := "egid" }]),
  (GetgroupsEventID, [{ ArgType := "int", Name := "size" }, { ArgType := "gid_t*", Name := "list" }]),
  (SetgroupsEventID, [{ ArgType := "int", Name := "size" }, { ArgType := "gid_t*", Name := "list" }]),
  (SetresuidEventID, [{ ArgType := "uid_t", Name := "ruid" }, { ArgType := "uid_t", Name := "euid" }, { ArgType := "uid_t", Name := "suid" }]),
  (GetresuidEventID, [{ ArgType := "uid_t*", Name := "ruid" }, { ArgType := "uid_t*", Name := "euid" }, { ArgType := "uid_t*", Name := "suid" }]),
  (SetresgidEventID, [{ ArgType := "gid_t", Name := "rgid" }, { ArgType := "gid_t", Name := "egid" }, { ArgType := "gid_t", Name := "sgid" }])
]

def paramsChunk3 : List (Int × List ArgMeta) := [
  (GetresgidEventID, [{ ArgType := "gid_t*", Name := "rgid" }, { ArgType := "gid_t*", Name := "egid" }, { ArgType := "gid_t*", Name := "sgid" }]),
  (GetpgidEventID, [{ ArgType := "pid_t", Name := "pid" }]),
  (SetfsuidEventID, [{ ArgType := "uid_t", Name := "fsuid" }]),
  (SetfsgidEventID, [{ ArgType := "gid_t", Name := "fsgid" }]),
  (GetsidEventID, [{ ArgType := "pid_t", Name := "pid" }]),
  (CapgetEventID, [{ ArgType := "cap_user_header_t", Name := "hdrp" }, { ArgType := "cap_user_data_t", Name := "datap" }]),
  (CapsetEventID, [{ ArgType := "cap_user_header_t", Name := "hdrp" }, { ArgType := "const cap_user_data_t", Name := "datap" }]),
  (RtSigpendingEventID, [{ ArgType := "sigset_t*", Name := "set" }, { ArgType := "size_t", Name := "sigsetsize" }]),
  (RtSigtimedwaitEventID, [{ ArgType := "const sigset_t*", Name := "set" }, { ArgType := "siginfo_t*", Name := "info" }, { ArgType := "const struct timespec*", Name := "timeout" }, { ArgType := "size_t", Name := "sigsetsize" }]),
  (RtSigqueueinfoEventID, [{ ArgType := "pid_t", Name := "tgid" }, { ArgType := "int", Name := "sig" }, { ArgType := "siginfo_t*", Name := "info" }]),
  (RtSigsuspendEventID, [{ ArgType := "sigset_t*", Name := "mask" }, { ArgType := "size_t", Name := "sigsetsize" }]),
  (SigaltstackEventID, [{ ArgType := "const stack_t*", Name := "ss" }, { ArgType := "stack_t*", Name := "old_ss" }]),
  (UtimeEventID, [{ ArgType := "const char*", Name := "filename" }, { ArgType := "const struct utimbuf*", Name := "times" }]),
  (MknodEventID, [{ ArgType := "const char*", Name := "pathname" }, { ArgType := "mode_t", Name := "mode" }, { ArgType := "dev_t", Name := "dev" }]),
  (UselibEventID, [{ ArgType := "const char*", Name := "library" }]),
  (PersonalityEventID, [{ ArgType := "unsigned long", Name := "persona" }]),
  (UstatEventID, [{ ArgType := "dev_t", Name := "dev" }, { ArgType := "struct ustat*", Name := "ubuf" }]),
  (StatfsEventID, [{ ArgType := "const char*", Name := "path" }, { ArgType := "struct statfs*", Name := "buf" }]),
  (FstatfsEventID, [{ ArgType := "int", Name := "fd" }, { ArgType := "struct statfs*", Name := "buf" }]),
  (SysfsEventID, [{ ArgType := "int", Name := "option" }]),
  (GetpriorityEventID, [{ ArgType := "int", Name := "which" }, { ArgType := "int", Name := "who" }]),
  (SetpriorityEventID, [{ ArgType := "int", Name := "which" }, { ArgType := "int", Name := "who" }, { ArgType := "int", Name := "prio" }]),
  (SchedSetparamEventID, [{ ArgType := "pid_t", Name := "pid" }, { ArgType := "struct sched_param*", Name := "param" }]),
  (SchedGetparamEventID, [{ ArgType := "pid_t", Name := "pid" }, { ArgType := "struct sched_param*", Name := "param" }]),
  (SchedSetschedulerEventID, [{ ArgType := "pid_t", Name := "pid" }, { ArgType := "int", Name := "policy" }, { ArgType := "struct sched_param*", Name := "param" }]),
  (SchedGetschedulerEventID, [{ ArgType := "pid_t", Name := "pid" }]),
  (SchedGetPriorityMaxEventID, [{ ArgType := "int", Name := "policy" }]),
  (SchedGetPriorityMinEventID, [{ ArgType := "int", Name := "policy" }]),
  (SchedRrGetIntervalEventID, [{ ArgType := "pid_t", Name := "pid" }, { ArgType := "struct timespec*", Name := "tp" }]),
  (MlockEventID, [{ ArgType := "const void*", Name := "addr" }, { ArgType := "size_t", Name := "len" }]),
  (MunlockEventID, [{ ArgType := "const void*", Name := "addr" }, { ArgType := "size_t", Name := "len" }]),
  (MlockallEventID, [{ ArgType := "int", Name := "flags" }]),
  (MunlockallEventID, []),
  (VhangupEventID, []),
  (ModifyLdtEventID, [{ ArgType := "int", Name := "func" }, { ArgType := "void*", Name := "ptr" }, { ArgType := "unsigned long", Name := "bytecount" }]),
  (PivotRootEventID, [{ ArgType := "const char*", Name := "new_root" }, { ArgType := "const char*", Name := "put_old" }]),
  (SysctlEventID, [{ ArgType := "struct __sysctl_args*", Name := "args" }]),
  (PrctlEventID, [{ ArgType := "int", Name := "option" }, { ArgType := "unsigned long", Name := "arg2" }, { ArgType := "unsigned long", Name := "arg3" }, { ArgType := "unsigned long", Name := "arg4" }, { ArgType := "unsigned long", Name := "arg5" }]),
  (ArchPrctlEventID, [{ ArgType := "int", Name := "option" }, { ArgType := "unsigned long", Name := "addr" }]),
  (AdjtimexEventID, [{ ArgType := "struct timex*", Name := "buf" }])
]

def paramsChunk4 : List (Int × List ArgMeta) := [
  (SetrlimitEventID, [{ ArgType := "int", Name := "resource" }, { ArgType := "const struct rlimit*", Name := "rlim" }]),
  (ChrootEventID, [{ ArgType := "const char*", Name := "path" }]),
  (SyncEventID, []),
  (AcctEventID, [{ ArgType := "const char*", Name := "filename" }]),
  (SettimeofdayEventID, [{ ArgType := "const struct timeval*", Name := "tv" }, { ArgType := "const struct timezone*", Name := "tz" }]),
  (MountEventID, [{ ArgType := "const char*", Name := "source" }, { ArgType := "const char*", Name := "target" }, { ArgType := "const char*", Name := "filesystemtype" }, { ArgType := "unsigned long", Name := "mountflags" }, { ArgType := "const void*", Name := "data" }]),
  (UmountEventID, [{ ArgType := "const char*", Name := "target" }, { ArgType := "int", Name := "flags" }]),
  (SwaponEventID, [{ ArgType := "const char*", Name := "path" }, { ArgType := "int", Name := "swapflags" }]),
  (SwapoffEventID, [{ ArgType := "const char*", Name := "path" }]),
  (RebootEventID, [{ ArgType := "int", Name := "magic" }, { ArgType := "int", Name := "magic2" }, { ArgType := "int", Name := "cmd" }, { ArgType := "void*", Name := "arg" }]),
  (SethostnameEventID, [{ ArgType := "const char*", Name := "name" }, { ArgType := "size_t", Name := "len" }]),
  (SetdomainnameEventID, [{ ArgType := "const char*", Name := "name" }, { ArgType := "size_t", Name := "len" }]),
  (IoplEventID, [{ ArgType := "int", Name := "level" }]),
  (IopermEventID, [{ ArgType := "unsigned long", Name := "from" }, { ArgType := "unsigned long", Name := "num" }, { ArgType := "int", Name := "turn_on" }]),
  (InitModuleEventID, [{ ArgType := "void*", Name := "module_image" }, { ArgType := "unsigned long", Name := "len" }, { ArgType := "const char*", Name := "param_values" }]),
  (DeleteModuleEventID, [{ ArgType := "const char*", Name := "name" }, { ArgType := "int", Name := "flags" }]),
  (QuotactlEventID, [{ ArgType := "int", Name := "cmd" }, { ArgType := "const char*", Name := "special" }, { ArgType := "int", Name := "id" }, { ArgType := "void*", Name := "addr" }]),
  (GettidEventID, []),
  (ReadaheadEventID, [{ ArgType := "int", Name := "fd" }, { ArgType := "off_t", Name := "offset" }, { ArgType := "size_t", Name := "count" }]),
  (SetxattrEventID, [{ ArgType := "const char*", Name := "path" }, { ArgType := "const char*", Name := "name" }, { ArgType := "const void*", Name := "value" }, { ArgType := "size_t", Name := "size" }, { ArgType := "int", Name := "flags" }]),
  (LsetxattrEventID, [{ ArgType := "const char*", Name := "path" }, { ArgType := "const char*", Name := "name" }, { ArgType := "const void*", Name := "value" }, { ArgType := "size_t", Name := "size" }, { ArgType := "int", Name := "flags" }]),
  (FsetxattrEventID, [{ ArgType := "int", Name := "fd" }, { ArgType := "const char*", Name := "name" }, { ArgType := "const void*", Name := "value" }, { ArgType := "size_t", Name := "size" }, { ArgType := "int", Name := "flags" }]),
  (GetxattrEventID, [{ ArgType := "const char*", Name := "path" }, { ArgType := "const char*", Name := "name" }, { ArgType := "void*", Name := "value" }, { ArgType := "size_t", Name := "size" }]),
  (LgetxattrEventID, [{ ArgType := "const char*", Name := "path" }, { ArgType := "const char*", Name := "name" }, { ArgType := "void*", Name := "value" }, { ArgType := "size_t", Name := "size" }]),
  (FgetxattrEventID, [{ ArgType := "int", Name := "fd" }, { ArgType := "const char*", Name := "name" }, { ArgType := "void*", Name := "value" }, { ArgType := "size_t", Name := "size" }]),
  (ListxattrEventID, [{ ArgType := "const char*", Name := "path" }, { ArgType := "char*", Name := "list" }, { ArgType := "size_t", Name := "size" }]),
  (LlistxattrEventID, [{ ArgType := "const char*", Name := "path" }, { ArgType := "char*", Name := "list" }, { ArgType := "size_t", Name := "size" }]),
  (FlistxattrEventID, [{ ArgType := "int", Name := "fd" }, { ArgType := "char*", Name := "list" }, { ArgType := "size_t", Name := "size" }]),
  (RemovexattrEventID, [{ ArgType := "const char*", Name := "path" }, { ArgType := "const char*", Name := "name" }]),
  (LremovexattrEventID, [{ ArgType := "const char*", Name := "path" }, { ArgType := "const char*", Name := "name" }]),
  (FremovexattrEventID, [{ ArgType := "int", Name := "fd" }, { ArgType := "const char*", Name := "name" }]),
  (TkillEventID, [{ ArgType := "int", Name := "tid" }, { ArgType := "int", Name := "sig" }]),
  (TimeEventID, [{ ArgType := "time_t*", Name := "tloc" }]),
  (FutexEventID, [{ ArgType := "int*", Name := "uaddr" }, { ArgType := "int", Name := "futex_op" }, { ArgType := "int", Name := "val" }, { ArgType := "const struct timespec*", Name := "timeout" }, { ArgType := "int*", Name := "uaddr2" }, { ArgType := "int", Name := "val3" }]),
  (SchedSetaffinityEventID, [{ ArgType := "pid_t", Name := "pid" }, { ArgType := "size_t", Name := "cpusetsize" }, { ArgType := "unsigned long*", Name := "mask" }]),
  (SchedGetaffinityEventID, [{ ArgType := "pid_t", Name := "pid" }, { ArgType := "size_t", Name := "cpusetsize" }, { ArgType := "unsigned long*", Name := "mask" }]),
  (SetThreadAreaEventID, [{ ArgType := "struct user_desc*", Name := "u_info" }]),
  (IoSetupEventID, [{ ArgType := "unsigned int", Name := "nr_events" }, { ArgType := "io_context_t*", Name := "ctx_idp" }]),
  (IoDestroyEventID, [{ ArgType := "io_context_t", Name := "ctx_id" }]),
  (IoGeteventsEventID, [{ ArgType := "io_context_t", Name := "ctx_id" }, { ArgType := "long", Name := "min_nr" }, { ArgType := "long", Name := "nr" }, { ArgType := "struct io_event*", Name := "events" }, { ArgType := "struct timespec*", Name := "timeout" }])
]

def paramsChunk5 : List (Int × List ArgMeta) := [
  (IoSubmitEventID, [{ ArgType := "io_context_t", Name := "ctx_id" }, { ArgType := "long", Name := "nr" }, { ArgType := "struct iocb**", Name := "iocbpp" }]),
  (IoCancelEventID, [{ ArgType := "io_context_t", Name := "ctx_id" }, { ArgType := "struct iocb*", Name := "iocb" }, { ArgType := "struct io_event*", Name := "result" }]),
  (GetThreadAreaEventID, [{ ArgType := "struct user_desc*", Name := "u_info" }]),
  (LookupDcookieEventID, [{ ArgType := "u64", Name := "cookie" }, { ArgType := "char*", Name := "buffer" }, { ArgType := "size_t", Name := "len" }]),
  (EpollCreateEventID, [{ ArgType := "int", Name := "size" }]),
  (RemapFilePagesEventID, [{ ArgType := "void*", Name := "addr" }, { ArgType := "size_t", Name := "size" }, { ArgType := "int", Name := "prot" }, { ArgType := "size_t", Name := "pgoff" }, { ArgType := "int", Name := "flags" }]),
  (Getdents64EventID, [{ ArgType := "unsigned int", Name := "fd" }, { ArgType := "struct linux_dirent64*", Name := "dirp" }, { ArgType := "unsigned int", Name := "count" }]),
  (SetTidAddressEventID, [{ ArgType := "int*", Name := "tidptr" }]),
  (RestartSyscallEventID, []),
  (SemtimedopEventID, [{ ArgType := "int", Name := "semid" }, { ArgType := "struct sembuf*", Name := "sops" }, { ArgType := "size_t", Name := "nsops" }, { ArgType := "const struct timespec*", Name := "timeout" }]),
  (Fadvise64EventID, [{ ArgType := "int", Name := "fd" }, { ArgType := "off_t", Name := "offset" }, { ArgType := "size_t", Name := "len" }, { ArgType := "int", Name := "advice" }]),
  (TimerCreateEventID, [{ ArgType := "const clockid_t", Name := "clockid" }, { ArgType := "struct sigevent*", Name := "sevp" }, { ArgType := "timer_t*", Name := "timer_id" }]),
  (TimerSettimeEventID, [{ ArgType := "timer_t", Name := "timer_id" }, { ArgType := "int", Name := "flags" }, { ArgType := "const struct itimerspec*", Name := "new_value" }, { ArgType := "struct itimerspec*", Name := "old_value" }]),
  (TimerGettimeEventID, [{ ArgType := "timer_t", Name := "timer_id" }, { ArgType := "struct itimerspec*", Name := "curr_value" }]),
  (TimerGetoverrunEventID, [{ ArgType := "timer_t", Name := "timer_id" }]),
  (TimerDeleteEventID, [{ ArgType := "timer_t", Name := "timer_id" }]),
  (ClockSettimeEventID, [{ ArgType := "const clockid_t", Name := "clockid" }, { ArgType := "const struct timespec*", Name := "tp" }]),
  (ClockGettimeEventID, [{ ArgType := "const clockid_t", Name := "clockid" }, { ArgType := "struct timespec*", Name := "tp" }]),
  (ClockGetresEventID, [{ ArgType := "const clockid_t", Name := "clockid" }, { ArgType := "struct timespec*", Name := "res" }]),
  (ClockNanosleepEventID, [{ ArgType := "const clockid_t", Name := "clockid" }, { ArgType := "int", Name := "flags" }, { ArgType := "const struct timespec*", Name := "request" }, { ArgType := "struct timespec*", Name := "remain" }]),
  (ExitGroupEventID, [{ ArgType := "int", Name := "status" }]),
  (EpollWaitEventID, [{ ArgType := "int", Name := "epfd" }, { ArgType := "struct epoll_event*", Name := "events" }, { ArgType := "int", Name := "maxevents" }, { ArgType := "int", Name := "timeout" }]),
  (EpollCtlEventID, [{ ArgType := "int", Name := "epfd" }, { ArgType := "int", Name := "op" }, { ArgType := "int", Name := "fd" }, { ArgType := "struct epoll_event*", Name := "event" }]),
  (TgkillEventID, [{ ArgType := "int", Name := "tgid" }, { ArgType := "int", Name := "tid" }, { ArgType := "int", Name := "sig" }]),
  (UtimesEventID, [{ ArgType := "char*", Name := "filename" }, { ArgType := "struct timeval*", Name := "times" }]),
  (MbindEventID, [{ ArgType := "void*", Name := "addr" }, { ArgType := "unsigned long", Name := "len" }, { ArgType := "int", Name := "mode" }, { ArgType := "const unsigned long*", Name := "nodemask" }, { ArgType := "unsigned long", Name := "maxnode" }, { ArgType := "unsigned int", Name := "flags" }]),
  (SetMempolicyEventID, [{ ArgType := "int", Name := "mode" }, { ArgType := "const unsigned long*", Name := "nodemask" }, { ArgType := "unsigned long", Name := "maxnode" }]),
  (GetMempolicyEventID, [{ ArgType := "int*", Name := "mode" }, { ArgType := "unsigned long*", Name := "nodemask" }, { ArgType := "unsigned long", Name := "maxnode" }, { ArgType := "void*", Name := "addr" }, { ArgType := "unsigned long", Name := "flags" }]),
  (MqOpenEventID, [{ ArgType := "const char*", Name := "name" }, { ArgType := "int", Name := "oflag" }, { ArgType := "mode_t", Name := "mode" }, { ArgType := "struct mq_attr*", Name := "attr" }]),
  (MqUnlinkEventID, [{ ArgType := "const char*", Name := "name" }]),
  (MqTimedsendEventID, [{ ArgType := "mqd_t", Name := "mqdes" }, { ArgType := "const char*", Name := "msg_ptr" }, { ArgType := "size_t", Name := "msg_len" }, { ArgType := "unsigned int", Name := "msg_prio" }, { ArgType := "const struct timespec*", Name := "abs_timeout" }]),
  (MqTimedreceiveEventID, [{ ArgType := "mqd_t", Name := "mqdes" }, { ArgType := "char*", Name := "msg_ptr" }, { ArgType := "size_t", Name := "msg_len" }, { ArgType := "unsigned int*", Name := "msg_prio" }, { ArgType := "const struct timespec*", Name := "abs_timeout" }]),
  (MqNotifyEventID, [{ ArgType := "mqd_t", Name := "mqdes" }, { ArgType := "const struct sigevent*", Name := "sevp" }]),
  (MqGetsetattrEventID, [{ ArgType := "mqd_t", Name := "mqdes" }, { ArgType := "const struct mq_attr*", Name := "newattr" }, { ArgType := "struct mq_attr*", Name := "oldattr" }]),
  (KexecLoadEventID, [{ ArgType := "unsigned long", Name := "entry" }, { ArgType := "unsigned long", Name := "nr_segments" }, { ArgType := "struct kexec_segment*", Name := "segments" }, { ArgType := "unsigned long", Name := "flags" }]),
  (WaitidEventID, [{ ArgType := "int", Name := "idtype" }, { ArgType := "pid_t", Name := "id" }, { ArgType := "struct siginfo*", Name := "infop" }, { ArgType := "int", Name := "options" }, { ArgType := "struct rusage*", Name := "rusage" }]),
  (AddKeyEventID, [{ ArgType := "const char*", Name := "type" }, { ArgType := "const char*", Name := "description" }, { ArgType := "const void*", Name := "payload" }, { ArgType := "size_t", Name := "plen" }, { ArgType := "key_serial_t", Name := "keyring" }]),
  (RequestKeyEventID, [{ ArgType := "const char*", Name := "type" }, { ArgType := "const char*", Name := "description" }, { ArgType := "const char*", Name := "callout_info" }, { ArgType := "key_serial_t", Name := "dest_keyring" }]),
  (KeyctlEventID, [{ ArgType := "int", Name := "operation" }, { ArgType := "unsigned long", Name := "arg2" }, { ArgType := "unsigned long", Name := "arg3" }, { ArgType := "unsigned long", Name := "arg4" }, { ArgType := "unsigned long", Name := "arg5" }]),
  (IoprioSetEventID, [{ ArgType := "int", Name := "which" }, { ArgType := "int", Name := "who" }, { ArgType := "int", Name := "ioprio" }])
]

def paramsChunk6 : List (Int × List ArgMeta) := [
  (IoprioGetEventID, [{ ArgType := "int", Name := "which" }, { ArgType := "int", Name := "who" }]),
  (InotifyInitEventID, []),
  (InotifyAddWatchEventID, [{ ArgType := "int", Name := "fd" }, { ArgType := "const char*", Name := "pathname" }, { ArgType := "u32", Name := "mask" }]),
  (InotifyRmWatchEventID, [{ ArgType := "int", Name := "fd" }, { ArgType := "int", Name := "wd" }]),
  (MigratePagesEventID, [{ ArgType := "int", Name := "pid" }, { ArgType := "unsigned long", Name := "maxnode" }, { ArgType := "const unsigned long*", Name := "old_nodes" }, { ArgType := "const unsigned long*", Name := "new_nodes" }]),
  (OpenatEventID, [{ ArgType := "int", Name := "dirfd" }, { ArgType := "const char*", Name := "pathname" }, { ArgType := "int", Name := "flags" }, { ArgType := "mode_t", Name := "mode" }]),
  (MkdiratEventID, [{ ArgType := "int", Name := "dirfd" }, { ArgType := "const char*", Name := "pathname" }, { ArgType := "mode_t", Name := "mode" }]),
  (MknodatEventID, [{ ArgType := "int", Name := "dirfd" }, { ArgType := "const char*", Name := "pathname" }, { ArgType := "mode_t", Name := "mode" }, { ArgType := "dev_t", Name := "dev" }]),
  (FchownatEventID, [{ ArgType := "int", Name := "dirfd" }, { ArgType := "const char*", Name := "pathname" }, { ArgType := "uid_t", Name := "owner" }, { ArgType := "gid_t", Name := "group" }, { ArgType := "int", Name := "flags" }]),
  (FutimesatEventID, [{ ArgType := "int", Name := "dirfd" }, { ArgType := "const char*", Name := "pathname" }, { ArgType := "struct timeval*", Name := "times" }]),
  (NewfstatatEventID, [{ ArgType := "int", Name := "dirfd" }, { ArgType := "const char*", Name := "pathname" }, { ArgType := "struct stat*", Name := "statbuf" }, { ArgType := "int", Name := "flags" }]),
  (UnlinkatEventID, [{ ArgType := "int", Name := "dirfd" }, { ArgType := "const char*", Name := "pathname" }, { ArgType := "int", Name := "flags" }]),
  (RenameatEventID, [{ ArgType := "int", Name := "olddirfd" }, { ArgType := "const char*", Name := "oldpath" }, { ArgType := "int", Name := "newdirfd" }, { ArgType := "const char*", Name := "newpath" }]),
  (LinkatEventID, [{ ArgType := "int", Name := "olddirfd" }, { ArgType := "const char*", Name := "oldpath" }, { ArgType := "int", Name := "newdirfd" }, { ArgType := "const char*", Name := "newpath" }, { ArgType := "unsigned int", Name := "flags" }]),
  (SymlinkatEventID, [{ ArgType := "const char*", Name := "target" }, { ArgType := "int", Name := "newdirfd" }, { ArgType := "const char*", Name := "linkpath" }]),
  (ReadlinkatEventID, [{ ArgType := "int", Name := "dirfd" }, { ArgType := "const char*", Name := "pathname" }, { ArgType := "char*", Name := "buf" }, { ArgType := "int", Name := "bufsiz" }]),
  (FchmodatEventID, [{ ArgType := "int", Name := "dirfd" }, { ArgType := "const char*", Name := "pathname" }, { ArgType := "mode_t", Name := "mode" }, { ArgType := "int", Name := "flags" }]),
  (FaccessatEventID, [{ ArgType := "int", Name := "dirfd" }, { ArgType := "const char*", Name := "pathname" }, { ArgType := "int", Name := "mode" }, { ArgType := "int", Name := "flags" }]),
  (Pselect6EventID, [{ ArgType := "int", Name := "nfds" }, { ArgType := "fd_set*", Name := "readfds" }, { ArgType := "fd_set*", Name := "writefds" }, { ArgType := "fd_set*", Name := "exceptfds" }, { ArgType := "struct timespec*", Name := "timeout" }, { ArgType := "void*", Name := "sigmask" }]),
  (PpollEventID, [{ ArgType := "struct pollfd*", Name := "fds" }, { ArgType := "unsigned int", Name := "nfds" }, { ArgType := "struct timespec*", Name := "tmo_p" }, { ArgType := "const sigset_t*", Name := "sigmask" }, { ArgType := "size_t", Name := "sigsetsize" }]),
  (UnshareEventID, [{ ArgType := "int", Name := "flags" }]),
  (SetRobustListEventID, [{ ArgType := "struct robust_list_head*", Name := "head" }, { ArgType := "size_t", Name := "len" }]),
  (GetRobustListEventID, [{ ArgType := "int", Name := "pid" }, { ArgType := "struct robust_list_head**", Name := "head_ptr" }, { ArgType := "size_t*", Name := "len_ptr" }]),
  (SpliceEventID, [{ ArgType := "int", Name := "fd_in" }, { ArgType := "off_t*", Name := "off_in" }, { ArgType := "int", Name := "fd_out" }, { ArgType := "off_t*", Name := "off_out" }, { ArgType := "size_t", Name := "len" }, { ArgType := "unsigned int", Name := "flags" }]),
  (TeeEventID, [{ ArgType := "int", Name := "fd_in" }, { ArgType := "int", Name := "fd_out" }, { ArgType := "size_t", Name := "len" }, { ArgType := "unsigned int", Name := "flags" }]),
  (SyncFileRangeEventID, [{ ArgType := "int", Name := "fd" }, { ArgType := "off_t", Name := "offset" }, { ArgType := "off_t", Name := "nbytes" }, { ArgType := "unsigned int", Name := "flags" }]),
  (VmspliceEventID, [{ ArgType := "int", Name := "fd" }, { ArgType := "const struct iovec*", Name := "iov" }, { ArgType := "unsigned long", Name := "nr_segs" }, { ArgType := "unsigned int", Name := "flags" }]),
  (MovePagesEventID, [{ ArgType := "int", Name := "pid" }, { ArgType := "unsigned long", Name := "count" }, { ArgType := "const void**", Name := "pages" }, { ArgType := "const int*", Name := "nodes" }, { ArgType := "int*", Name := "status" }, { ArgType := "int", Name := "flags" }]),
  (UtimensatEventID, [{ ArgType := "int", Name := "dirfd" }, { ArgType := "const char*", Name := "pathname" }, { ArgType := "struct timespec*", Name := "times" }, { ArgType := "int", Name := "flags" }]),
  (EpollPwaitEventID, [{ ArgType := "int", Name := "epfd" }, { ArgType := "struct epoll_event*", Name := "events" }, { ArgType := "int", Name := "maxevents" }, { ArgType := "int", Name := "timeout" }, { ArgType := "const sigset_t*", Name := "sigmask" }, { ArgType := "size_t", Name := "sigsetsize" }]),
  (SignalfdEventID, [{ ArgType := "int", Name := "fd" }, { ArgType := "sigset_t*", Name := "mask" }, { ArgType := "int", Name := "flags" }]),
  (TimerfdCreateEventID, [{ ArgType := "int", Name := "clockid" }, { ArgType := "int", Name := "flags" }]),
  (EventfdEventID, [{ ArgType := "unsigned int", Name := "initval" }, { ArgType := "int", Name := "flags" }]),
  (FallocateEventID, [{ ArgType := "int", Name := "fd" }, { ArgType := "int", Name := "mode" }, { ArgType := "off_t", Name := "offset" }, { ArgType := "off_t", Name := "len" }]),
  (TimerfdSettimeEventID, [{ ArgType := "int", Name := "fd" }, { ArgType := "int", Name := "flags" }, { ArgType := "const struct itimerspec*", Name := "new_value" }, { ArgType := "struct itimerspec*", Name := "old_value" }]),
  (TimerfdGettimeEventID, [{ ArgType := "int", Name := "fd" }, { ArgType := "struct itimerspec*", Name := "curr_value" }]),
  (Accept4EventID, [{ ArgType := "int", Name := "sockfd" }, { ArgType := "struct sockaddr*", Name := "addr" }, { ArgType := "int*", Name := "addrlen" }, { ArgType := "int", Name := "flags" }]),
  (Signalfd4EventID, [{ ArgType := "int", Name := "fd" }, { ArgType := "const sigset_t*", Name := "mask" }, { ArgType := "size_t", Name := "sizemask" }, { ArgType := "int", Name := "flags" }]),
  (Eventfd2EventID, [{ ArgType := "unsigned int", Name := "initval" }, { ArgType := "int", Name := "flags" }]),
  (EpollCreate1EventID, [{ ArgType := "int", Name := "flags" }])
]

def paramsChunk7 : List (Int × List ArgMeta) := [
  (Dup3EventID, [{ ArgType := "int", Name := "oldfd" }, { ArgType := "int", Name := "newfd" }, { ArgType := "int", Name := "flags" }]),
  (Pipe2EventID, [{ ArgType := "int[2]", Name := "pipefd" }, { ArgType := "int", Name := "flags" }]),
  (InotifyInit1EventID, [{ ArgType := "int", Name := "flags" }]),
  (PreadvEventID, [{ ArgType := "int", Name := "fd" }, { ArgType := "const struct iovec*", Name := "iov" }, { ArgType := "unsigned long", Name := "iovcnt" }, { ArgType := "unsigned long", Name := "pos_l" }, { ArgType := "unsigned long", Name := "pos_h" }]),
  (PwritevEventID, [{ ArgType := "int", Name := "fd" }, { ArgType := "const struct iovec*", Name := "iov" }, { ArgType := "unsigned long", Name := "iovcnt" }, { ArgType := "unsigned long", Name := "pos_l" }, { ArgType := "unsigned long", Name := "pos_h" }]),
  (RtTgsigqueueinfoEventID, [{ ArgType := "pid_t", Name := "tgid" }, { ArgType := "pid_t", Name := "tid" }, { ArgType := "int", Name := "sig" }, { ArgType := "siginfo_t*", Name := "info" }]),
  (PerfEventOpenEventID, [{ ArgType := "struct perf_event_attr*", Name := "attr" }, { ArgType := "pid_t", Name := "pid" }, { ArgType := "int", Name := "cpu" }, { ArgType := "int", Name := "group_fd" }, { ArgType := "unsigned long", Name := "flags" }]),
  (RecvmmsgEventID, [{ ArgType := "int", Name := "sockfd" }, { ArgType := "struct mmsghdr*", Name := "msgvec" }, { ArgType := "unsigned int", Name := "vlen" }, { ArgType := "int", Name := "flags" }, { ArgType := "struct timespec*", Name := "timeout" }]),
  (FanotifyInitEventID, [{ ArgType := "unsigned int", Name := "flags" }, { ArgType := "unsigned int", Name := "event_f_flags" }]),
  (FanotifyMarkEventID, [{ ArgType := "int", Name := "fanotify_fd" }, { ArgType := "unsigned int", Name := "flags" }, { ArgType := "u64", Name := "mask" }, { ArgType := "int", Name := "dirfd" }, { ArgType := "const char*", Name := "pathname" }]),
  (Prlimit64EventID, [{ ArgType := "pid_t", Name := "pid" }, { ArgType := "int", Name := "resource" }, { ArgType := "const struct rlimit64*", Name := "new_limit" }, { ArgType := "struct rlimit64*", Name := "old_limit" }]),
  (NameToHandleAtEventID, [{ ArgType := "int", Name := "dirfd" }, { ArgType := "const char*", Name := "pathname" }, { ArgType := "struct file_handle*", Name := "handle" }, { ArgType := "int*", Name := "mount_id" }, { ArgType := "int", Name := "flags" }]),
  (OpenByHandleAtEventID, [{ ArgType := "int", Name := "mount_fd" }, { ArgType := "struct file_handle*", Name := "handle" }, { ArgType := "int", Name := "flags" }]),
  (ClockAdjtimeEventID, [{ ArgType := "const clockid_t", Name := "clk_id" }, { ArgType := "struct timex*", Name := "buf" }]),
  (SyncfsEventID, [{ ArgType := "int", Name := "fd" }]),
  (SendmmsgEventID, [{ ArgType := "int", Name := "sockfd" }, { ArgType := "struct mmsghdr*", Name := "msgvec" }, { ArgType := "unsigned int", Name := "vlen" }, { ArgType := "int", Name := "flags" }]),
  (SetnsEventID, [{ ArgType := "int", Name := "fd" }, { ArgType := "int", Name := "nstype" }]),
  (GetcpuEventID, [{ ArgType := "unsigned int*", Name := "cpu" }, { ArgType := "unsigned int*", Name := "node" }, { ArgType := "struct getcpu_cache*", Name := "tcache" }]),
  (ProcessVmReadvEventID, [{ ArgType := "pid_t", Name := "pid" }, { ArgType := "const struct iovec*", Name := "local_iov" }, { ArgType := "unsigned long", Name := "liovcnt" }, { ArgType := "const struct iovec*", Name := "remote_iov" }, { ArgType := "unsigned long", Name := "riovcnt" }, { ArgType := "unsigned long", Name := "flags" }]),
  (ProcessVmWritevEventID, [{ ArgType := "pid_t", Name := "pid" }, { ArgType := "const struct iovec*", Name := "local_iov" }, { ArgType := "unsigned long", Name := "liovcnt" }, { ArgType := "const struct iovec*", Name := "remote_iov" }, { ArgType := "unsigned long", Name := "riovcnt" }, { ArgType := "unsigned long", Name := "flags" }]),
  (KcmpEventID, [{ ArgType := "pid_t", Name := "pid1" }, { ArgType := "pid_t", Name := "pid2" }, { ArgType := "int", Name := "type" }, { ArgType := "unsigned long", Name := "idx1" }, { ArgType := "unsigned long", Name := "idx2" }]),
  (FinitModuleEventID, [{ ArgType := "int", Name := "fd" }, { ArgType := "const char*", Name := "param_values" }, { ArgType := "int", Name := "flags" }]),
  (SchedSetattrEventID, [{ ArgType := "pid_t", Name := "pid" }, { ArgType := "struct sched_attr*", Name := "attr" }, { ArgType := "unsigned int", Name := "flags" }]),
  (SchedGetattrEventID, [{ ArgType := "pid_t", Name := "pid" }, { ArgType := "struct sched_attr*", Name := "attr" }, { ArgType := "unsigned int", Name := "size" }, { ArgType := "unsigned int", Name := "flags" }]),
  (Renameat2EventID, [{ ArgType := "int", Name := "olddirfd" }, { ArgType := "const char*", Name := "oldpath" }, { ArgType := "int", Name := "newdirfd" }, { ArgType := "const char*", Name := "newpath" }, { ArgType := "unsigned int", Name := "flags" }]),
  (SeccompEventID, [{ ArgType := "unsigned int", Name := "operation" }, { ArgType := "unsigned int", Name := "flags" }, { ArgType := "const void*", Name := "args" }]),
  (GetrandomEventID, [{ ArgType := "void*", Name := "buf" }, { ArgType := "size_t", Name := "buflen" }, { ArgType := "unsigned int", Name := "flags" }]),
  (MemfdCreateEventID, [{ ArgType := "const char*", Name := "name" }, { ArgType := "unsigned int", Name := "flags" }]),
  (KexecFileLoadEventID, [{ ArgType := "int", Name := "kernel_fd" }, { ArgType := "int", Name := "initrd_fd" }, { ArgType := "unsigned long", Name := "cmdline_len" }, { ArgType := "const char*", Name := "cmdline" }, { ArgType := "unsigned long", Name := "flags" }]),
  (BpfEventID, [{ ArgType := "int", Name := "cmd" }, { ArgType := "union bpf_attr*", Name := "attr" }, { ArgType := "unsigned int", Name := "size" }]),
  (ExecveatEventID, [{ ArgType := "int", Name := "dirfd" }, { ArgType := "const char*", Name := "pathname" }, { ArgType := "const char*const*", Name := "argv" }, { ArgType := "const char*const*", Name := "envp" }, { ArgType := "int", Name := "flags" }]),
  (UserfaultfdEventID, [{ ArgType := "int", Name := "flags" }]),
  (MembarrierEventID, [{ ArgType := "int", Name := "cmd" }, { ArgType := "int", Name := "flags" }]),
  (Mlock2EventID, [{ ArgType := "const void*", Name := "addr" }, { ArgType := "size_t", Name := "len" }, { ArgType := "int", Name := "flags" }]),
  (CopyFileRangeEventID, [{ ArgType := "int", Name := "fd_in" }, { ArgType := "off_t*", Name := "off_in" }, { ArgType := "int", Name := "fd_out" }, { ArgType := "off_t*", Name := "off_out" }, { ArgType := "size_t", Name := "len" }, { ArgType := "unsigned int", Name := "flags" }]),
  (Preadv2EventID, [{ ArgType := "int", Name := "fd" }, { ArgType := "const struct iovec*", Name := "iov" }, { ArgType := "unsigned long", Name := "iovcnt" }, { ArgType := "unsigned long", Name := "pos_l" }, { ArgType := "unsigned long", Name := "pos_h" }, { ArgType := "int", Name := "flags" }]),
  (Pwritev2EventID, [{ ArgType := "int", Name := "fd" }, { ArgType := "const struct iovec*", Name := "iov" }, { ArgType := "unsigned long", Name := "iovcnt" }, { ArgType := "unsigned long", Name := "pos_l" }, { ArgType := "unsigned long", Name := "pos_h" }, { ArgType := "int", Name := "flags" }]),
  (PkeyMprotectEventID, [{ ArgType := "void*", Name := "addr" }, { ArgType := "size_t", Name := "len" }, { ArgType := "int", Name := "prot" }, { ArgType := "int", Name := "pkey" }]),
  (PkeyAllocEventID, [{ ArgType := "unsigned int", Name := "flags" }, { ArgType := "unsigned long", Name := "access_rights" }]),
  (PkeyFreeEventID, [{ ArgType := "int", Name := "pkey" }])
]

def paramsChunk8 : List (Int × List ArgMeta) := [
  (StatxEventID, [{ ArgType := "int", Name := "dirfd" }, { ArgType := "const char*", Name := "pathname" }, { ArgType := "int", Name := "flags" }, { ArgType := "unsigned int", Name := "mask" }, { ArgType := "struct statx*", Name := "statxbuf" }]),
  (IoPgeteventsEventID, [{ ArgType := "aio_context_t", Name := "ctx_id" }, { ArgType := "long", Name := "min_nr" }, { ArgType := "long", Name := "nr" }, { ArgType := "struct io_event*", Name := "events" }, { ArgType := "struct timespec*", Name := "timeout" }, { ArgType := "const struct __aio_sigset*", Name := "usig" }]),
  (RseqEventID, [{ ArgType := "struct rseq*", Name := "rseq" }, { ArgType := "u32", Name := "rseq_len" }, { ArgType := "int", Name := "flags" }, { ArgType := "u32", Name := "sig" }]),
  (PidfdSendSignalEventID, [{ ArgType := "int", Name := "pidfd" }, { ArgType := "int", Name := "sig" }, { ArgType := "siginfo_t*", Name := "info" }, { ArgType := "unsigned int", Name := "flags" }]),
  (IoUringSetupEventID, [{ ArgType := "unsigned int", Name := "entries" }, { ArgType := "struct io_uring_params*", Name := "p" }]),
  (IoUringEnterEventID, [{ ArgType := "unsigned int", Name := "fd" }, { ArgType := "unsigned int", Name := "to_submit" }, { ArgType := "unsigned int", Name := "min_complete" }, { ArgType := "unsigned int", Name := "flags" }, { ArgType := "sigset_t*", Name := "sig" }]),
  (IoUringRegisterEventID, [{ ArgType := "unsigned int", Name := "fd" }, { ArgType := "unsigned int", Name := "opcode" }, { ArgType := "void*", Name := "arg" }, { ArgType := "unsigned int", Name := "nr_args" }]),
  (OpenTreeEventID, [{ ArgType := "int", Name := "dfd" }, { ArgType := "const char*", Name := "filename" }, { ArgType := "unsigned int", Name := "flags" }]),
  (MoveMountEventID, [{ ArgType := "int", Name := "from_dfd" }, { ArgType := "const char*", Name := "from_path" }, { ArgType := "int", Name := "to_dfd" }, { ArgType := "const char*", Name := "to_path" }, { ArgType := "unsigned int", Name := "flags" }]),
  (FsopenEventID, [{ ArgType := "const char*", Name := "fsname" }, { ArgType := "unsigned int", Name := "flags" }]),
  (FsconfigEventID, [{ ArgType := "int*", Name := "fs_fd" }, { ArgType := "unsigned int", Name := "cmd" }, { ArgType := "const char*", Name := "key" }, { ArgType := "const void*", Name := "value" }, { ArgType := "int", Name := "aux" }]),
  (FsmountEventID, [{ ArgType := "int", Name := "fsfd" }, { ArgType := "unsigned int", Name := "flags" }, { ArgType := "unsigned int", Name := "ms_flags" }]),
  (FspickEventID, [{ ArgType := "int", Name := "dirfd" }, { ArgType := "const char*", Name := "pathname" }, { ArgType := "unsigned int", Name := "flags" }]),
  (PidfdOpenEventID, [{ ArgType := "pid_t", Name := "pid" }, { ArgType := "unsigned int", Name := "flags" }]),
  (Clone3EventID, [{ ArgType := "struct clone_args*", Name := "cl_args" }, { ArgType := "size_t", Name := "size" }]),
  (CloseRangeEventID, [{ ArgType := "unsigned int", Name := "first" }, { ArgType := "unsigned int", Name := "last" }]),
  (Openat2EventID, [{ ArgType := "int", Name := "dirfd" }, { ArgType := "const char*", Name := "pathname" }, { ArgType := "struct open_how*", Name := "how" }, { ArgType := "size_t", Name := "size" }]),
  (PidfdGetfdEventID, [{ ArgType := "int", Name := "pidfd" }, { ArgType := "int", Name := "targetfd" }, { ArgType := "unsigned int", Name := "flags" }]),
  (Faccessat2EventID, [{ ArgType := "int", Name := "fd" }, { ArgType := "const char*", Name := "path" }, { ArgType := "int", Name := "mode" }, { ArgType := "int", Name := "flag" }]),
  (ProcessMadviseEventID, [{ ArgType := "int", Name := "pidfd" }, { ArgType := "void*", Name := "addr" }, { ArgType := "size_t", Name := "length" }, { ArgType := "int", Name := "advice" }, { ArgType := "unsigned long", Name := "flags" }]),
  (EpollPwait2EventID, [{ ArgType := "int", Name := "fd" }, { ArgType := "struct epoll_event*", Name := "events" }, { ArgType := "int", Name := "maxevents" }, { ArgType := "const struct timespec*", Name := "timeout" }, { ArgType := "const sigset_t*", Name := "sigset" }]),
  (SysEnterEventID, [{ ArgType := "int", Name := "syscall" }]),
  (SysExitEventID, [{ ArgType := "int", Name := "syscall" }]),
  (SchedProcessForkEventID, [{ ArgType := "int", Name := "parent_tid" }, { ArgType := "int", Name := "parent_ns_tid" }, { ArgType := "int", Name := "child_tid" }, { ArgType := "int", Name := "child_ns_tid" }]),
  (SchedProcessExecEventID, [{ ArgType := "const char*", Name := "cmdpath" }, { ArgType := "const char*", Name := "pathname" }, { ArgType := "const char**", Name := "argv" }, { ArgType := "const char**", Name := "env" }, { ArgType := "dev_t", Name := "dev" }, { ArgType := "unsigned long", Name := "inode" }, { ArgType := "int", Name := "invoked_from_kernel" }, { ArgType := "unsigned long", Name := "ctime" }]),
  (SchedProcessExitEventID, [{ ArgType := "long", Name := "exit_code" }]),
  (SchedSwitchEventID, [{ ArgType := "int", Name := "cpu" }, { ArgType := "int", Name := "prev_tid" }, { ArgType := "const char*", Name := "prev_comm" }, { ArgType := "int", Name := "next_tid" }, { ArgType := "const char*", Name := "next_comm" }]),
  (DoExitEventID, []),
  (CapCapableEventID, [{ ArgType := "int", Name := "cap" }, { ArgType := "int", Name := "syscall" }]),
  (VfsWriteEventID, [{ ArgType := "const char*", Name := "pathname" }, { ArgType := "dev_t", Name := "dev" }, { ArgType := "unsigned long", Name := "inode" }, { ArgType := "size_t", Name := "count" }, { ArgType := "off_t", Name := "pos" }]),
  (VfsWritevEventID, [{ ArgType := "const char*", Name := "pathname" }, { ArgType := "dev_t", Name := "dev" }, { ArgType := "unsigned long", Name := "inode" }, { ArgType := "unsigned long", Name := "vlen" }, { ArgType := "off_t", Name := "pos" }]),
  (MemProtAlertEventID, [{ ArgType := "u32", Name := "alert" }]),
  (CommitCredsEventID, [{ ArgType := "slim_cred_t", Name := "old_cred" }, { ArgType := "slim_cred_t", Name := "new_cred" }, { ArgType := "int", Name := "syscall" }]),
  (SwitchTaskNSEventID, [{ ArgType := "pid_t", Name := "pid" }, { ArgType := "u32", Name := "new_mnt" }, { ArgType := "u32", Name := "new_pid" }, { ArgType := "u32", Name := "new_uts" }, { ArgType := "u32", Name := "new_ipc" }, { ArgType := "u32", Name := "new_net" }, { ArgType := "u32", Name := "new_cgroup" }]),
  (MagicWriteEventID, [{ ArgType := "const char*", Name := "pathname" }, { ArgType := "bytes", Name := "bytes" }, { ArgType := "dev_t", Name := "dev" }, { ArgType := "unsigned long", Name := "inode" }]),
  (CgroupAttachTaskEventID, [{ ArgType := "const char*", Name := "cgroup_path" }, { ArgType := "const char*", Name := "comm" }, { ArgType := "pid_t", Name := "pid" }]),
  (CgroupMkdirEventID, [{ ArgType := "u64", Name := "cgroup_id" }, { ArgType := "const char*", Name := "cgroup_path" }]),
  (CgroupRmdirEventID, [{ ArgType := "u64", Name := "cgroup_id" }, { ArgType := "const char*", Name := "cgroup_path" }]),
  (SecurityBprmCheckEventID, [{ ArgType := "const char*", Name := "pathname" }, { ArgType := "dev_t", Name := "dev" }, { ArgType := "unsigned long", Name := "inode" }]),
  (SecurityFileOpenEventID, [{ ArgType := "const char*", Name := "pathname" }, { ArgType := "int", Name := "flags" }, { ArgType := "dev_t", Name := "dev" }, { ArgType := "unsigned long", Name := "inode" }, { ArgType := "int", Name := "syscall" }])
]

def paramsChunk9 : List (Int × List ArgMeta) := [
  (SecurityInodeUnlinkEventID, [{ ArgType := "const char*", Name := "pathname" }]),
  (SecuritySocketCreateEventID, [{ ArgType := "int", Name := "family" }, { ArgType := "int", Name := "type" }, { ArgType := "int", Name := "protocol" }, { ArgType := "int", Name := "kern" }]),
  (SecuritySocketListenEventID, [{ ArgType := "int", Name := "sockfd" }, { ArgType := "struct sockaddr*", Name := "local_addr" }, { ArgType := "int", Name := "backlog" }]),
  (SecuritySocketConnectEventID, [{ ArgType := "int", Name := "sockfd" }, { ArgType := "struct sockaddr*", Name := "remote_addr" }]),
  (SecuritySocketAcceptEventID, [{ ArgType := "int", Name := "sockfd" }, { ArgType := "struct sockaddr*", Name := "local_addr" }]),
  (SecuritySocketBindEventID, [{ ArgType := "int", Name := "sockfd" }, { ArgType := "struct sockaddr*", Name := "local_addr" }]),
  (SecuritySbMountEventID, [{ ArgType := "const char*", Name := "dev_name" }, { ArgType := "const char*", Name := "path" }, { ArgType := "const char*", Name := "type" }, { ArgType := "unsigned long", Name := "flags" }]),
  (SecurityBPFEventID, [{ ArgType := "int", Name := "cmd" }]),
  (SecurityBPFMapEventID, [{ ArgType := "unsigned int", Name := "map_id" }, { ArgType := "const char*", Name := "map_name" }]),
  (SecurityKernelReadFileEventID, [{ ArgType := "const char*", Name := "pathname" }, { ArgType := "dev_t", Name := "dev" }, { ArgType := "unsigned long", Name := "inode" }, { ArgType := "int", Name := "type" }]),
  (SecurityPostReadFileEventID, [{ ArgType := "const char*", Name := "pathname" }, { ArgType := "long", Name := "size" }, { ArgType := "int", Name := "type" }]),
  (SecurityInodeMknodEventID, [{ ArgType := "const char*", Name := "file_name" }, { ArgType := "umode_t", Name := "mode" }, { ArgType := "dev_t", Name := "dev" }]),
  (InitNamespacesEventID, [{ ArgType := "u32", Name := "cgroup" }, { ArgType := "u32", Name := "ipc" }, { ArgType := "u32", Name := "mnt" }, { ArgType := "u32", Name := "net" }, { ArgType := "u32", Name := "pid" }, { ArgType := "u32", Name := "pid_for_children" }, { ArgType := "u32", Name := "time" }, { ArgType := "u32", Name := "time_for_children" }, { ArgType := "u32", Name := "user" }, { ArgType := "u32", Name := "uts" }]),
  (SocketDupEventID, [{ ArgType := "int", Name := "oldfd" }, { ArgType := "int", Name := "newfd" }, { ArgType := "struct sockaddr*", Name := "remote_addr" }])
]

/-- EventsIDToParams, the per-event ordered argument schema, as the
association list of the Go map literal in source order (concatenation of the
slices above). -/
def EventsIDToParams : List (Int × List ArgMeta) :=
  paramsChunk0 ++ paramsChunk1 ++ paramsChunk2 ++ paramsChunk3 ++ paramsChunk4 ++ paramsChunk5 ++ paramsChunk6 ++ paramsChunk7 ++ paramsChunk8 ++ paramsChunk9

/-- Precomputed `keyCode` image of the registry keys, used by the distinctness
certificate. -/
def eventKeyCodes : List Nat := [6763482792833219605, 18164197612156418090, 11118168357770064959, 4072139103383711828, 15472853922706910313, 8426824668320557182, 1380795413934204051, 12781510233257402536, 5735480978871049405, 17136195798194247890, 10090166543807894759, 3044137289421541628, 14444852108744740113, 7398822854358386982, 352793599972033851, 11753508419295232336, 4707479164908879205, 16108193984232077690, 9062164729845724559, 2016135475459371428, 13416850294782569913, 6370821040396216782, 17771535859719415267, 10725506605333062136, 3679477350946709005, 15080192170269907490, 8034162915883554359, 988133661497201228, 12388848480820399713, 5342819226434046582, 16743534045757245067, 9697504791370891936, 2651475536984538805, 14052190356307737290, 7006161101921384159, 18406875921244582644, 11360846666858229513, 4314817412471876382, 15715532231795074867, 8669502977408721736, 1623473723022368605, 13024188542345567090, 5978159287959213959, 17378874107282412444, 10332844852896059313, 3286815598509706182, 14687530417832904667, 7641501163446551536, 595471909060198405, 11996186728383396890, 4950157473997043759, 16350872293320242244, 9304843038933889113, 2258813784547535982, 13659528603870734467, 6613499349484381336, 18014214168807579821, 10968184914421226690, 3922155660034873559, 15322870479358072044, 8276841224971718913, 1230811970585365782, 12631526789908564267, 5585497535522211136, 16986212354845409621, 9940183100459056490, 2894153846072703359, 14294868665395901844, 7248839411009548713, 202810156623195582, 11603524975946394067, 4557495721560040936, 15958210540883239421, 8912181286496886290, 1866152032110533159, 13266866851433731644, 6220837597047378513, 17621552416370576998, 10575523161984223867, 3529493907597870736, 14930208726921069221, 7884179472534716090, 838150218148362959, 12238865037471561444, 5192835783085208313, 16593550602408406798, 9547521348022053667, 2501492093635700536, 13902206912958899021, 6856177658572545890, 18256892477895744375, 11210863223509391244, 4164833969123038113, 15565548788446236598, 8519519534059883467, 1473490279673530336, 12874205098996728821, 5828175844610375690, 17228890663933574175, 10182861409547221044, 3136832155160867913, 14537546974484066398, 7491517720097713267, 445488465711360136, 11846203285034558621, 4800174030648205490, 16200888849971403975, 9154859595585050844, 2108830341198697713, 13509545160521896198, 6463515906135543067, 17864230725458741552, 10818201471072388421, 3772172216686035290, 15172887036009233775, 8126857781622880644, 1080828527236527513, 12481543346559725998, 5435514092173372867, 16836228911496571352, 9790199657110218221, 2744170402723865090, 14144885222047063575, 7098855967660710444, 52826713274357313, 11453541532597555798, 4407512278211202667, 15808227097534401152, 8762197843148048021, 1716168588761694890, 13116883408084893375, 6070854153698540244, 17471568973021738729, 10425539718635385598, 3379510464249032467, 14780225283572230952, 7734196029185877821, 688166774799524690, 12088881594122723175, 5042852339736370044, 16443567159059568529, 9397537904673215398, 2351508650286862267, 13752223469610060752, 6706194215223707621, 18106909034546906106, 11060879780160552975, 4014850525774199844, 15415565345097398329, 8369536090711045198, 1323506836324692067, 12724221655647890552, 5678192401261537421, 17078907220584735906, 10032877966198382775, 2986848711812029644, 14387563531135228129, 7341534276748874998, 295505022362521867, 11696219841685720352, 4650190587299367221, 16050905406622565706, 9004876152236212575, 1958846897849859444, 13359561717173057929, 6313532462786704798, 17714247282109903283, 10668218027723550152, 3622188773337197021, 15022903592660395506, 7976874338274042375, 930845083887689244, 12331559903210887729, 5285530648824534598, 16686245468147733083, 9640216213761379952, 2594186959375026821, 13994901778698225306, 6948872524311872175, 18349587343635070660, 11303558089248717529, 4257528834862364398, 15658243654185562883, 8612214399799209752, 1566185145412856621, 12966899964736055106, 5920870710349701975, 17321585529672900460, 10275556275286547329, 3229527020900194198, 14630241840223392683, 7584212585837039552, 538183331450686421, 11938898150773884906, 4892868896387531775, 16293583715710730260, 9247554461324377129, 2201525206938023998, 13602240026261222483, 6556210771874869352, 17956925591198067837, 10910896336811714706, 3864867082425361575, 15265581901748560060, 8219552647362206929, 1173523392975853798, 12574238212299052283, 5528208957912699152, 16928923777235897637, 9882894522849544506, 2836865268463191375, 14237580087786389860, 7191550833400036729, 145521579013683598, 11546236398336882083, 4500207143950528952, 15900921963273727437, 8854892708887374306, 1808863454501021175, 13209578273824219660, 6163549019437866529, 17564263838761065014, 10518234584374711883, 3472205329988358752, 14872920149311557237, 7826890894925204106, 780861640538850975, 12181576459862049460, 5135547205475696329, 16536262024798894814, 9490232770412541683, 2444203516026188552, 13844918335349387037, 6798889080963033906, 18199603900286232391, 11153574645899879260, 4107545391513526129, 15508260210836724614, 8462230956450371483, 1416201702064018352, 12816916521387216837, 5770887267000863706, 17171602086324062191, 10125572831937709060, 3079543577551355929, 14480258396874554414, 7434229142488201283, 388199888101848152, 11788914707425046637, 4742885453038693506, 16143600272361891991, 9097571017975538860, 2051541763589185729, 13452256582912384214, 6406227328526031083, 17806942147849229568, 10760912893462876437, 3714883639076523306, 15115598458399721791, 8069569204013368660, 1023539949627015529, 12424254768950214014, 5378225514563860883, 16778940333887059368, 9732911079500706237, 2686881825114353106, 14087596644437551591, 7041567390051198460, 18442282209374396945, 11396252954988043814, 4350223700601690683, 15750938519924889168, 8704909265538536037, 1658880011152182906, 13059594830475381391, 6013565576089028260, 17414280395412226745, 10368251141025873614, 3322221886639520483, 14722936705962718968, 7676907451576365837, 630878197190012706, 12031593016513211191, 4985563762126858060, 16386278581450056545, 9340249327063703414, 2294220072677350283, 13694934892000548768, 6648905637614195637, 18049620456937394122, 11003591202551040991, 3957561948164687860, 15358276767487886345, 8312247513101533214, 1266218258715180083, 12666933078038378568, 5620903823652025437, 17021618642975223922, 9975589388588870791, 2929560134202517660, 14330274953525716145, 7284245699139363014, 238216444753009883, 11638931264076208368, 4592902009689855237, 15993616829013053722, 8947587574626700591, 1901558320240347460, 13302273139563545945, 6256243885177192814, 17656958704500391299, 10610929450114038168, 3564900195727685037, 14965615015050883522, 7919585760664530391, 873556506278177260, 12274271325601375745, 5228242071215022614, 16628956890538221099, 9582927636151867968, 2536898381765514837, 13937613201088713322, 6891583946702360191, 18292298766025558676, 11246269511639205545, 4200240257252852414, 15600955076576050899, 8554925822189697768, 1508896567803344637, 12909611387126543122, 5863582132740189991, 17264296952063388476, 10218267697677035345, 3172238443290682214, 14572953262613880699, 7526924008227527568, 480894753841174437, 11881609573164372922, 4835580318778019791, 16236295138101218276, 9190265883714865145, 2144236629328512014, 13544951448651710499, 6498922194265357368, 17899637013588555853, 10853607759202202722, 3807578504815849591, 15208293324139048076, 8162264069752694945, 1116234815366341814, 12516949634689540299, 5470920380303187168, 16871635199626385653, 7390464563528805917, 344435309142452786, 11745150128465651271, 4699120874079298140, 16099835693402496625, 9053806439016143494, 2007777184629790363, 13408492003952988848, 6362462749566635717, 17763177568889834202, 10717148314503481071, 3671119060117127940, 15071833879440326425, 8025804625053973294, 979775370667620163, 12380490189990818648, 5334460935604465517, 16735175754927664002, 9689146500541310871, 2643117246154957740, 14043832065478156225, 6997802811091803094, 18398517630415001579, 11352488376028648448, 4306459121642295317, 15707173940965493802, 8661144686579140671, 1615115432192787540, 13015830251515986025, 17370515816452831379, 5969800997129632894, 8017446334224392229, 10324486562066478248]

/-- Precomputed `strCode` image of the registry display names, used by the
distinctness certificate. -/
def eventNameCodes : List Nat := [5541207787354052101, 13347000996286213884, 17892686645580689641, 11439822092476938691, 12609333595624301559, 4566490915109354779, 4181749887994461889, 10095046222319616568, 13260340431491146759, 18339137768669630126, 5473432714278765319, 13036033867444662635, 34125650091522394, 11738396504170276395, 8119189073182488833, 6453539238435018483, 18207815341755167006, 7105674762720214225, 11016096493860125960, 9887004214296798569, 3052398700642735230, 9106986248720015403, 13751954826569735897, 13652116963433683981, 10229166163972144398, 2554024954168077789, 8328282928576704243, 6070158890387696044, 10565902966176044540, 10752791672954121803, 615499226211618596, 8416098566190724918, 14583825580973911334, 2061864020231936252, 5315332399326980173, 1271331640542684146, 6619220714697037899, 612452970093256634, 6461588803817011167, 18037997457878711296, 9047629464624439681, 1221281132897053964, 6110042048223887801, 9106131928185084681, 9860642485988528650, 15869519992189750429, 2820542246695034776, 7890014911176454666, 17905325787715469835, 16051757728983864046, 15891737647324053542, 15105457509845720188, 9923228673319483060, 3713548666066998080, 16056994096877964584, 15616749503394627484, 11413930792660935138, 15932905870253299841, 14591507553839660677, 11938886726876781633, 16689862346184620389, 13706109861443639676, 17263848607084245401, 10361506547829230387, 17141500631087222052, 11541568266480341503, 14546382709326715321, 620273305700364633, 4493571826121135758, 11997956389985249161, 11244682073199692397, 1867764335800058795, 14472963721965495408, 11534127291478588662, 2698765905923055158, 1611266806474629222, 7247895837951698327, 14785917533144696819, 11966532153277427831, 7682593538898789871, 8933647932072626629, 3723086739639362489, 2258343417258958163, 13324644367338209272, 8637799857373720799, 13098633337035357162, 13784282253595985929, 7366475742772238002, 12129473850428973076, 12199222373217618665, 4507116372640298002, 9443895217742396934, 3186070743874465478, 8153284070839389690, 13478236130907931648, 795506865878514856, 12474869042507827955, 3445527639077239402, 14192125893896898126, 5851618789793457382, 2968870975810596021, 3260478633064482636, 14919084291211151611, 10460221220693197020, 5333245053297144301, 2258850215593815215, 9516737464187000065, 2179554129558993276, 10994596136327683150, 13015518141606579943, 17188411908957614178, 5228809527286823908, 16838161094129688621, 10104450768598189696, 503165591334101858, 1841158304996761015, 13889078895305896171, 16609297967560015103, 17562402665141156683, 7007995198109875889, 6327647826625832733, 5224039845844590715, 6544101609420503278, 16176085151338187036, 16213400792300473025, 9574713557295925781, 15545866536986418473, 10072659477435562336, 10973552715910461389, 6599740880000382744, 5329003192031104415, 7097559488574866619, 3886842285328750665, 9639046206178857070, 10783094885655374915, 12558009035689859619, 13864087847031204002, 14197704947892254768, 14809192710577922812, 11021947485048329785, 17690511829042068415, 7042111801004422763, 5613295274666632096, 10249979217042402020, 294888946590582152, 16449152028631715724, 3198427060814989953, 3206046676396978383, 7723137214044233694, 13740684203604874863, 12166917042030629012, 9998264998722331930, 6885340679040201903, 9671403126245677336, 1024389939305032112, 3405045959858442576, 7363462113818108599, 15611130130110434156, 7506954431680527909, 4796776474393198965, 7552826213410775998, 15089127408819039290, 15742680051432548666, 528282918550767338, 15246134507799549399, 960817663071739002, 14668308361047211037, 8073978898142574375, 3380278171926247147, 9616425428636798040, 13040809165266484430, 2987425770903891924, 18206633572659528429, 10632834413920350023, 16889466705312062674, 10697348918047331596, 15107862250518966267, 17507056604943750682, 12762379180653344796, 9235627893706478968, 153231675856369723, 9131729460254010818, 1176811468860272911, 16650575388966581687, 12990658571764737330, 18155900369217558107, 15709772789674092508, 12526880979139728878, 14017103068458205566, 9605785878793200012, 1792343049157025858, 7613651522990940938, 8485612909291598464, 379975941633230454, 2137793719399591988, 15982573394869996014, 13100886783337548992, 12300737498359915768, 10498343102191014154, 8303700669065866812, 16136493510621961539, 2185518981507421060, 10827844671704386677, 12756047134311615891, 7988959087171826695, 17110281065924412384, 10906952222192152359, 17739636850848682916, 8121991798248841011, 10900428785468578034, 2126034664677381848, 1385312469767820388, 15591003225724632334, 967842279892947058, 11733612420635881677, 579764836296313361, 8437730010973782306, 1252388196350104229, 12256859317164768558, 17697973194123433078, 6310706783335174544, 8516255768683349775, 6071587300522588847, 486475045194722876, 14855082234735318728, 2763460197177757844, 11691753749295683348, 12015563768766429559, 12159523626809428515, 9766839445810083700, 7911181211883046451, 16753843221185472321, 3727633149444862011, 15644436120475394935, 13828608516937130940, 11895315400929536654, 10092101977969869262, 16540455549356554255, 9557142729796076847, 12394402943388671907, 4040277065536470268, 836089172854583059, 15490700458351579389, 15449943433089458440, 13811608083730603285, 4413488983845607051, 18075398370567318676, 710872631299505949, 3352170967294244824, 3745359681701376270, 7233999483057194437, 5562971748698227340, 11534124728388720032, 535084735928947388, 734853507395360637, 9843863145309000519, 15706740949002546145, 9951699852214742148, 492400656336052989, 2095621682481535563, 441675862166707631, 4453106851796787415, 3484766258492973074, 8185436980544538087, 14600980543849954790, 6166283059662877348, 7787135359568973761, 639796831301473924, 9535052395055516419, 2462416659861466770, 12918208766015213131, 18271851588525286998, 1402247790388026833, 12268495332516951630, 4872091475325372090, 17745097091365413621, 6261354890356025621, 8763179671333219255, 832286202933218684, 10866041033660577587, 1715806110102056087, 1954128214280838023, 9145034692164665947, 6434132575707387005, 17025125410825543885, 3925536607140032510, 10974288387804938362, 13520849164194537126, 925716127591942311, 13860254489277883037, 3858522534703173965, 8234041574068199897, 2061865119743564463, 3652604452073458001, 7316884363645371799, 17859088873905130015, 1534532623272529452, 10626042995608864245, 5316860864448510218, 1004798597893256849, 3294688743996538304, 16138629574380086435, 12766257307743642776, 10198791461365384771, 13582734805380077810, 4392415100126815250, 13904268668969461573, 7623772646972438451, 17230865840836721324, 7683419272131387107, 12228077042853855863, 5679712831119090052, 2438834263087203494, 5321586104071634432, 7025001875599493116, 5814005458815746512, 16194315025679077180, 3446156665593153985, 543231279435843320, 1950349213382475505, 10443732818760830179, 32125638440185035, 8784457713141161980, 5502017427945971252, 15910293096354643973, 13177008737989132295, 10643964580385833565, 7166897769190148727, 10954882283483217146, 4588856592414040337, 12040976073038196656, 14626371160050745713, 17177757766361656317, 6273226508167921279, 17750032069240086412, 14734154145468040836, 5028786995459190641, 12867648233803273442, 4228730132238285773, 8571705944100148190, 7663390690714555782, 12986183047607050942, 26114130755244808, 8473050721849904575, 3930732720536795423, 10246521608254138569, 11145851969141798435, 7140108987564048089, 4465514537259301186, 8603632119044776261, 2099891265318844896, 16128904508992055970, 15842805871048660111, 16479613703447302175, 2962358929639410459, 5950367996258528179, 2183455479633265682, 2187408223935927327, 12440767403525616721, 11601405672857674769, 2814424068886725620, 14807535139433868146, 4655234045317371852, 7429956839979247139, 4845522617674027874, 9443605892274815667, 6326725160538904560, 3509645798366955005, 5758651393361179917, 8947599652084738554, 7266499643469129764, 13548609523259810723, 8784843989936256183, 2734780811688946882, 14825742404679402721, 15130917654132702324, 7053356378934061142, 4588814905940353669, 1802346604337380647, 8185296757513910936, 14404209999743954065, 10463174587933733465, 8706825492336666308, 13302787555444690389, 2399512178756505608, 15729149909866655522]


/-- Go zero value of `EventConfig` (what indexing a Go map with an absent key
yields). -/
def zeroEventConfig : EventConfig :=
  { ID := 0, ID32Bit := none, Name := "", Probes := [], EssentialEvent := false, Sets := [] }

/-- Lookup of an id in the registry without defaulting (`v, ok := m[id]`). -/
def eventsIDToEventLookup (i : Int) : Option EventConfig :=
  (EventsIDToEvent.find? (fun p => p.1 == i)).map (fun p => p.2)

/-- Go map indexing `EventsIDToEvent[id]`: the zero `EventConfig` when the key
is absent. -/
def eventsIDToEventGet (i : Int) : EventConfig :=
  (eventsIDToEventLookup i).getD zeroEventConfig

/-- Lookup of an id in the argument-schema table without defaulting. -/
def eventsIDToParamsLookup (i : Int) : Option (List ArgMeta) :=
  (EventsIDToParams.find? (fun p => p.1 == i)).map (fun p => p.2)

/-- Go map indexing `EventsIDToParams[id]`: the nil slice (embedded as `[]`)
when the key is absent. -/
def eventsIDToParamsGet (i : Int) : List ArgMeta :=
  (eventsIDToParamsLookup i).getD []

/-- Name lookup over the registry: the id of the first record carrying the
display name (the registry's name-to-id direction; unambiguous only because
display names are never duplicated). -/
def eventsNameToID (n : String) : Option Int :=
  (EventsIDToEvent.find? (fun p => p.2.Name == n)).map (fun p => p.1)

/-- Spec partition of the identifier space: the syscall band is the low range
below the kernel-internal band at 1000. -/
abbrev inSyscallBand (i : Int) : Prop := 0 ≤ i ∧ i < 1000

/-- The twelve registry ids (all obsolete or unimplemented syscalls) for which
the `EventsIDToParams` literal has no entry at all. -/
def paramslessEventIDs : List Int :=
  [CreateModuleEventID, GetKernelSymsEventID, QueryModuleEventID, NfsservctlEventID,
   GetpmsgEventID, PutpmsgEventID, AfsEventID, TuxcallEventID, SecurityEventID,
   EpollCtlOldEventID, EpollWaitOldEventID, VserverEventID]

/-- Scalar config slots (Go `bpfConfig` constants, `iota + 1`). -/
def configDetectOrigSyscall : Nat := 1

def configExecEnv : Nat := 2

def configCaptureFiles : Nat := 3

def configExtractDynCode : Nat := 4

def configTraceePid : Nat := 5

def configStackAddresses : Nat := 6

def configUIDFilter : Nat := 7

def configMntNsFilter : Nat := 8

def configPidNsFilter : Nat := 9

def configUTSNsFilter : Nat := 10

def configCommFilter : Nat := 11

def configPidFilter : Nat := 12

def configContFilter : Nat := 13

def configFollowFilter : Nat := 14

def configNewPidFilter : Nat := 15

def configNewContFilter : Nat := 16

def configDebugNet : Nat := 17

def configProcTreeFilter : Nat := 18

def configCaptureModules : Nat := 19

def configCgroupV1 : Nat := 20

/-- The Scalar Config Slot enumeration in declaration order. -/
def bpfConfigValues : List Nat :=
  [configDetectOrigSyscall, configExecEnv, configCaptureFiles, configExtractDynCode,
   configTraceePid, configStackAddresses, configUIDFilter, configMntNsFilter,
   configPidNsFilter, configUTSNsFilter, configCommFilter, configPidFilter,
   configContFilter, configFollowFilter, configNewPidFilter, configNewContFilter,
   configDebugNet, configProcTreeFilter, configCaptureModules, configCgroupV1]

/-- Tail-call dispatch slots (Go tail function indexes, `iota`). -/
def tailVfsWrite : Nat := 0

def tailVfsWritev : Nat := 1

def tailSendBin : Nat := 2

def tailSendBinTP : Nat := 3

/-- The Tail-Dispatch Slot enumeration in declaration order. -/
def tailCallValues : List Nat := [tailVfsWrite, tailVfsWritev, tailSendBin, tailSendBinTP]

/-- Fixed inspection path of the init process namespaces. -/
def InitProcNsDir : String := "/proc/1/ns"

/-- One entry of the namespace-inspection directory: the entry name and the
result of `os.Readlink` on it (`none` models a failed readlink; the source
drops the error and keeps the empty string result). -/
structure NsDirEntry where
  name : String
  linkTarget : Option String
deriving DecidableEq

/-- Characters matched by the bracket expression of the regular expression
`:[[[:digit:]]*]`: inside the brackets, the first `[` is a literal class
member and `[:digit:]` is the POSIX digit class, so the class admits `[` and
the decimal digits. -/
def nsClassChar (c : Char) : Bool := c == '[' || c.isDigit

/-- Match of the regular expression `:[[[:digit:]]*]` anchored at the head of
the character list: a literal `:`, a greedy run of class characters, then a
literal `]`. Because `]` is not a class character, backtracking never shortens
the greedy run, so the run is exactly the maximal one. Returns the matched
characters. -/
def nsMatchAt (s : List Char) : Option (List Char) :=
  match s with
  | [] => none
  | c :: rest =>
    if c == ':' then
      match rest.dropWhile nsClassChar with
      | ']' :: _ => some (':' :: (rest.takeWhile nsClassChar ++ [']']))
      | _ => none
    else none

/-- Go `regexp.FindString` for the pattern `:[[[:digit:]]*]`: the leftmost match,
or the empty string (embedded as `[]`) when there is none. -/
def regexpFindString : List Char → List Char
  | [] => []
  | c :: rest =>
    match nsMatchAt (c :: rest) with
    | some m => m
    | none => regexpFindString rest

/-- Membership in the cutset of `strings.Trim(s, "[]:")`. -/
def trimCutset (c : Char) : Bool := c == '[' || c == ']' || c == ':'

/-- Go `strings.Trim(s, "[]:")` on the character-list level: drop cutset
characters from both ends. -/
def goTrim (s : List Char) : List Char :=
  ((s.dropWhile trimCutset).reverse.dropWhile trimCutset).reverse

/-- Decimal value of a digit string. -/
def digitsVal (s : List Char) : Nat := s.foldl (fun n c => n * 10 + (c.toNat - 48)) 0

/-- Value component of Go `strconv.ParseUint(s, 10, 32)`, whose error the
source drops: 0 for the empty string or any non-digit character (ErrSyntax
returns value 0), the exact value for an in-range digit string, and the
clamped maximum `2^32 - 1` for an overflowing digit string (ErrRange returns
the cutoff value, which the caller keeps). -/
def parseUint32Val (s : List Char) : Nat :=
  if s.isEmpty then 0
  else if s.all (fun c => c.isDigit) then min (digitsVal s) 4294967295
  else 0

/-- Insertion into a Go `map[string]uint32`, embedded as an association list:
overwrite the existing binding or append. -/
def goMapInsert : List (String × Nat) → String → Nat → List (String × Nat)
  | [], k, v => [(k, v)]
  | (k2, v2) :: rest, k, v =>
    if k2 == k then (k, v) :: rest else (k2, v2) :: goMapInsert rest k v

/-- Go map indexing `m[k]` for `map[string]uint32`: 0 when the key is absent. -/
def goMapGet (m : List (String × Nat)) (k : String) : Nat :=
  ((m.find? (fun p => p.1 == k)).map (fun p => p.2)).getD 0

/-- Per-entry pipeline of `fetchInitNamespaces`: readlink result (empty string
when the dropped error fired), `FindString` of the namespace regular
expression, `Trim` of `"[]:"`, then the 32-bit unsigned parse. -/
def processLink (linkTarget : Option String) : Nat :=
  parseUint32Val (goTrim (regexpFindString (linkTarget.getD "").data))

/-- Go `fetchInitNamespaces`: read the namespace directory and record, per entry
name, the number extracted from its link target. A `none` directory models
`ioutil.ReadDir` failing wholesale: the source drops the error and ranges
over the nil slice. -/
def fetchInitNamespaces (dir : Option (List NsDirEntry)) : List (String × Nat) :=
  (dir.getD []).foldl (fun m e => goMapInsert m e.name (processLink e.linkTarget)) []

/-- Go zero value of `Argument` (element of the freshly `make`d slice). -/
def zeroArgument : Argument := { argMeta := { ArgType := "", Name := "" }, Value := 0 }

/-- Go `getInitNamespaceArguments`: allocate one zero argument per schema slot of
the user-space event, then walk the slice by index, stamping each slot with
its schema entry and the inventory value found under that entry's name. -/
def getInitNamespaceArguments (dir : Option (List NsDirEntry)) : List Argument :=
  let initNamespaces := fetchInitNamespaces dir
  let params := eventsIDToParamsGet InitNamespacesEventID
  (List.range params.length).foldl
    (fun args i =>
      let arg := args.getD i zeroArgument
      let arg := { arg with argMeta := params.getD i { ArgType := "", Name := "" } }
      let arg := { arg with Value := goMapGet initNamespaces arg.Name }
      args.set i arg)
    (List.replicate params.length zeroArgument)

/-- Go `CreateInitNamespacesEvent`: synthesize the init-namespaces event. The
wall-clock reading `int(time.Now().UnixNano())` is passed in as `now`; the
error component of the Go return is always nil, embedded as `none`. -/
def CreateInitNamespacesEvent (dir : Option (List NsDirEntry)) (now : Int) :
    Event × Option String :=
  let initNamespacesArgs := getInitNamespaceArguments dir
  ({ Timestamp := now,
     ProcessName := "tracee-ebpf",
     EventID := InitNamespacesEventID,
     EventName := (eventsIDToEventGet InitNamespacesEventID).Name,
     ArgsNum := initNamespacesArgs.length,
     Args := initNamespacesArgs }, none)

/-- Unbalanced binary search tree over `Nat`, used only as a distinctness
certificate for the big registry lists. -/
inductive CTree where
  | leaf
  | node (l : CTree) (v : Nat) (r : CTree)

/-- Insert a value, or return `none` when it is already present. -/
def CTree.insert? : CTree → Nat → Option CTree
  | .leaf, x => some (.node .leaf x .leaf)
  | .node l v r, x =>
    if x < v then (CTree.insert? l x).map (fun t => .node t v r)
    else if v < x then (CTree.insert? r x).map (fun t => .node l v t)
    else none

/-- Membership along the same search path `insert?` takes: a value is found
exactly when inserting it again would fail. -/
def CTree.found (t : CTree) (x : Nat) : Bool := (t.insert? x).isNone

/-- Fold `insert?` over a list, failing on the first repeated value. -/
def distinctAux : CTree → List Nat → Bool
  | _, [] => true
  | t, x :: xs =>
    match CTree.insert? t x with
    | none => false
    | some t2 => distinctAux t2 xs

/-- Distinctness check for a list of naturals in n log n comparisons. -/
def distinctNat (l : List Nat) : Bool := distinctAux .leaf l

/-- FNV-style mixing fold over the characters of a string; injective on the
registry's display names (certified by `eventNameCodes` being distinct), used
only to give the distinctness certificate a well-scrambled key order. -/
def strCode (s : String) : Nat :=
  s.data.foldl (fun n c => ((n ^^^ c.toNat) * 1099511628211) % 18446744073709551616)
    14695981039346656037

/-- Fibonacci-style mixing of a registry key, used only to give the
distinctness certificate a well-scrambled key order. -/
def keyCode (i : Int) : Nat :=
  ((i + 2147483648).toNat + 1) * 11400714819323198485 % 18446744073709551616

/-- The head entry of the registry (the `read` syscall), used as a concrete
instantiation point. -/
def readEventEntry : Int × EventConfig :=
  (ReadEventID, { ID := ReadEventID, ID32Bit := some "sys32read", Name := "read", Probes := [{ event := "read", attach := .sysCall, fn := "read" }], EssentialEvent := false, Sets := ["syscalls", "fs", "fs_read_write"] })

/-- The `sys_enter` registry entry, an essential event, used as a concrete
instantiation point. -/
def sysEnterEntry : Int × EventConfig :=
  (SysEnterEventID, { ID := SysEnterEventID, ID32Bit := some "sys32undefined", Name := "sys_enter", Probes := [{ event := "raw_syscalls:sys_enter", attach := .rawTracepoint, fn := "tracepoint__raw_syscalls__sys_enter" }], EssentialEvent := true, Sets := [] })

/-- A two-entry namespace directory with pid 12 and net 4026531840. -/
def pidNetDir : Option (List NsDirEntry) :=
  some [{ name := "pid", linkTarget := some "pid:[12]" }, { name := "net", linkTarget := some "net:[4026531840]" }]

/-- A well-formed mnt entry for the defect-isolation scenario. -/
def mntEntry : NsDirEntry := { name := "mnt", linkTarget := some "mnt:[4026531841]" }

/-- A pid entry whose link target does not match the namespace pattern. -/
def pidBrokenEntry : NsDirEntry := { name := "pid", linkTarget := some "pid-broken" }

/-- A well-formed net entry for the defect-isolation scenario. -/
def netEntry : NsDirEntry := { name := "net", linkTarget := some "net:[4026531840]" }

/-- Navigation equation of `CTree.found`. -/
theorem CTree.found_node (l r : CTree) (v y : Nat) :
    (CTree.node l v r).found y =
      (if y < v then l.found y else if v < y then r.found y else true) := by
  by_cases h1 : y < v
  · cases hi : l.insert? y <;> simp [CTree.found, CTree.insert?, h1, hi]
  · by_cases h2 : v < y
    · cases hi : r.insert? y <;> simp [CTree.found, CTree.insert?, h1, h2, hi]
    · simp [CTree.found, CTree.insert?, h1, h2]

/-- Successful insertion adds exactly the inserted value to `found`. -/
theorem CTree.found_insert? (x : Nat) :
    ∀ t t2 : CTree, t.insert? x = some t2 →
      ∀ y : Nat, (t2.found y = true ↔ y = x ∨ t.found y = true) := by
  intro t
  induction t with
  | leaf =>
    intro t2 h y
    simp only [CTree.insert?, Option.some.injEq] at h
    subst h
    rw [CTree.found_node]
    by_cases h1 : y < x
    · simp only [if_pos h1]
      constructor
      · intro hf; simp [CTree.found, CTree.insert?] at hf
      · rintro (rfl | hf)
        · omega
        · simp [CTree.found, CTree.insert?] at hf
    · by_cases h2 : x < y
      · simp only [if_neg h1, if_pos h2]
        constructor
        · intro hf; simp [CTree.found, CTree.insert?] at hf
        · rintro (rfl | hf)
          · omega
          · simp [CTree.found, CTree.insert?] at hf
      · simp only [if_neg h1, if_neg h2]
        have : y = x := by omega
        subst this
        simp [CTree.found, CTree.insert?]
  | node l v r ihl ihr =>
    intro t2 h y
    simp only [CTree.insert?] at h
    by_cases h1 : x < v
    · rw [if_pos h1] at h
      obtain ⟨l2, hl2, rfl⟩ := Option.map_eq_some'.mp h
      rw [CTree.found_node, CTree.found_node]
      by_cases h2 : y < v
      · rw [if_pos h2, if_pos h2]
        exact ihl l2 hl2 y
      · by_cases h3 : v < y
        · simp only [if_neg h2, if_pos h3]
          constructor
          · exact Or.inr
          · rintro (rfl | hf)
            · omega
            · exact hf
        · simp only [if_neg h2, if_neg h3]
          constructor
          · intro _; right; trivial
          · intro _; trivial
    · by_cases h4 : v < x
      · rw [if_neg h1, if_pos h4] at h
        obtain ⟨r2, hr2, rfl⟩ := Option.map_eq_some'.mp h
        rw [CTree.found_node, CTree.found_node]
        by_cases h2 : y < v
        · simp only [if_pos h2]
          constructor
          · exact Or.inr
          · rintro (rfl | hf)
            · omega
            · exact hf
        · by_cases h3 : v < y
          · simp only [if_neg h2, if_pos h3]
            exact ihr r2 hr2 y
          · simp only [if_neg h2, if_neg h3]
            constructor
            · intro _; right; trivial
            · intro _; trivial
      · rw [if_neg h1, if_neg h4] at h
        cases h

/-- Soundness of the fold: success means the list is duplicate-free and
disjoint from the accumulated tree. -/
theorem distinctAux_spec :
    ∀ (l : List Nat) (t : CTree), distinctAux t l = true →
      l.Nodup ∧ ∀ x ∈ l, t.found x = false := by
  intro l
  induction l with
  | nil =>
    intro t _
    exact ⟨List.nodup_nil, by intro x hx; cases hx⟩
  | cons x xs ih =>
    intro t h
    cases hi : t.insert? x with
    | none =>
      simp only [distinctAux, hi] at h
      exact Bool.noConfusion h
    | some t2 =>
      simp only [distinctAux, hi] at h
      obtain ⟨hnd, hfr⟩ := ih t2 h
      have hx0 : t.found x = false := by simp [CTree.found, hi]
      refine ⟨List.nodup_cons.mpr ⟨?_, hnd⟩, ?_⟩
      · intro hmem
        have h2 : t2.found x = true := ((CTree.found_insert? x t t2 hi) x).mpr (Or.inl rfl)
        rw [hfr x hmem] at h2
        cases h2
      · intro y hy
        rcases List.mem_cons.mp hy with rfl | hy2
        · exact hx0
        · cases hfy : t.found y with
          | false => rfl
          | true =>
            have h5 : t2.found y = true := ((CTree.found_insert? x t t2 hi) y).mpr (Or.inr hfy)
            rw [hfr y hy2] at h5
            cases h5

/-- Distinctness certificate soundness. -/
theorem distinctNat_nodup (l : List Nat) (h : distinctNat l = true) : l.Nodup :=
  (distinctAux_spec l .leaf h).1

/-- In a list whose image under `f` is duplicate-free, searching for an
element's `f`-value finds exactly that element. -/
theorem find?_map_nodup {α β : Type} [DecidableEq β] (f : α → β) :
    ∀ l : List α, (l.map f).Nodup → ∀ a ∈ l, l.find? (fun x => f x == f a) = some a := by
  intro l
  induction l with
  | nil => intro _ a ha; cases ha
  | cons b rest ih =>
    intro hnd a ha
    rw [List.map_cons, List.nodup_cons] at hnd
    obtain ⟨hbn, hnd2⟩ := hnd
    rcases List.mem_cons.mp ha with rfl | ha2
    · exact List.find?_cons_of_pos _ (beq_self_eq_true _)
    · have hne : ¬ ((fun x => f x == f a) b = true) := by
        simp only [beq_iff_eq]
        intro he
        exact hbn (by rw [he]; exact List.mem_map_of_mem f ha2)
      rw [@List.find?_cons_of_neg _ (fun x => f x == f a) b rest hne]
      exact ih hnd2 a ha2

set_option maxHeartbeats 2000000 in
/-- The mixed registry keys evaluate to the precomputed list. -/
theorem eventKeyCodes_spec :
    EventsIDToEvent.map (fun p => keyCode p.1) = eventKeyCodes := by decide

set_option maxHeartbeats 2000000 in
/-- The precomputed mixed registry keys are pairwise distinct. -/
theorem eventKeyCodes_distinct : distinctNat eventKeyCodes = true := by decide

set_option maxHeartbeats 2000000 in
/-- The mixed display names evaluate to the precomputed list. -/
theorem eventNameCodes_spec :
    EventsIDToEvent.map (fun p => strCode p.2.Name) = eventNameCodes := by decide

set_option maxHeartbeats 2000000 in
/-- The precomputed mixed display names are pairwise distinct. -/
theorem eventNameCodes_distinct : distinctNat eventNameCodes = true := by decide

/-- Registry keys are pairwise distinct. -/
theorem eventKeys_nodup : (EventsIDToEvent.map (fun p => p.1)).Nodup := by
  have h := distinctNat_nodup _ eventKeyCodes_distinct
  rw [← eventKeyCodes_spec] at h
  have h2 : EventsIDToEvent.map (fun p => keyCode p.1) =
      (EventsIDToEvent.map (fun p => p.1)).map keyCode := by
    rw [List.map_map]
    rfl
  rw [h2] at h
  exact List.Nodup.of_map _ h

/-- Registry display names are pairwise distinct. -/
theorem eventNames_nodup : (EventsIDToEvent.map (fun p => p.2.Name)).Nodup := by
  have h := distinctNat_nodup _ eventNameCodes_distinct
  rw [← eventNameCodes_spec] at h
  have h2 : EventsIDToEvent.map (fun p => strCode p.2.Name) =
      (EventsIDToEvent.map (fun p => p.2.Name)).map strCode := by
    rw [List.map_map]
    rfl
  rw [h2] at h
  exact List.Nodup.of_map _ h

set_option maxHeartbeats 2000000 in
/-- Every registry record repeats its map key in its `ID` field. -/
theorem eventsID_eq_key : EventsIDToEvent.all (fun p => p.2.ID == p.1) = true := by decide

set_option maxHeartbeats 2000000 in
/-- Every registry literal entry supplies the `ID32Bit` field. -/
theorem events_id32_present :
    EventsIDToEvent.all (fun p => p.2.ID32Bit.isSome) = true := by decide

set_option maxHeartbeats 2000000 in
/-- Every essential registry record has a non-empty probe list. -/
theorem events_essential_probes :
    EventsIDToEvent.all (fun p => !p.2.EssentialEvent || !p.2.Probes.isEmpty) = true := by
  decide

set_option maxHeartbeats 2000000 in
/-- Dropping exactly the twelve schema-less ids from the registry keys yields
the argument-schema table keys, in order. -/
theorem params_filter_eq :
    (EventsIDToEvent.map (fun p => p.1)).filter (fun i => !(paramslessEventIDs.contains i)) =
      EventsIDToParams.map (fun p => p.1) := by decide

/-- A key occurring among an association list's keys is found by `find?`. -/
theorem find?_key_isSome {γ : Type} :
    ∀ (l : List (Int × γ)) (i : Int), i ∈ l.map (fun p => p.1) →
      (l.find? (fun p => p.1 == i)).isSome = true := by
  intro l i h
  rw [List.find?_isSome]
  obtain ⟨q, hq, hq1⟩ := List.mem_map.mp h
  exact ⟨q, hq, by rw [hq1]; exact beq_self_eq_true i⟩

/-- Schema-order facade of `getInitNamespaceArguments`: the produced slice is
exactly one argument per schema slot, in schema order, each value looked up in
the inventory by the slot name (0 when the name is absent). -/
theorem getInitNamespaceArguments_eq (dir : Option (List NsDirEntry)) :
    getInitNamespaceArguments dir =
      (eventsIDToParamsGet InitNamespacesEventID).map
        (fun m => { argMeta := m, Value := goMapGet (fetchInitNamespaces dir) m.Name }) := rfl

/-- Reading back the key just inserted yields the inserted value. -/
theorem goMapGet_insert_same : ∀ (m : List (String × Nat)) (k : String) (v : Nat),
    goMapGet (goMapInsert m k v) k = v := by
  intro m k v
  induction m with
  | nil =>
    show goMapGet [(k, v)] k = v
    unfold goMapGet
    rw [@List.find?_cons_of_pos _ (fun q => q.1 == k) (k, v) [] (beq_self_eq_true k)]
    rfl
  | cons p rest ih =>
    rcases p with ⟨k2, v2⟩
    by_cases h : (k2 == k) = true
    · simp only [goMapInsert, if_pos h]
      unfold goMapGet
      rw [@List.find?_cons_of_pos _ (fun q => q.1 == k) (k, v) rest (beq_self_eq_true k)]
      rfl
    · simp only [goMapInsert, if_neg h]
      unfold goMapGet
      rw [@List.find?_cons_of_neg _ (fun q => q.1 == k) (k2, v2) (goMapInsert rest k v) h]
      exact ih

/-- Inserting one key leaves every other key's lookup unchanged. -/
theorem goMapGet_insert_other : ∀ (m : List (String × Nat)) (k k2 : String) (v : Nat),
    k ≠ k2 → goMapGet (goMapInsert m k v) k2 = goMapGet m k2 := by
  intro m k k2 v hne
  have hb : ¬((k == k2) = true) := by
    simp only [beq_iff_eq]
    exact hne
  induction m with
  | nil =>
    show goMapGet [(k, v)] k2 = goMapGet [] k2
    unfold goMapGet
    rw [@List.find?_cons_of_neg _ (fun q => q.1 == k2) (k, v) [] hb]
  | cons p rest ih =>
    rcases p with ⟨k3, v3⟩
    by_cases h : (k3 == k) = true
    · simp only [goMapInsert, if_pos h]
      have hk3 : k3 = k := beq_iff_eq.mp h
      subst hk3
      unfold goMapGet
      rw [@List.find?_cons_of_neg _ (fun q => q.1 == k2) (k3, v) rest hb,
          @List.find?_cons_of_neg _ (fun q => q.1 == k2) (k3, v3) rest hb]
    · simp only [goMapInsert, if_neg h]
      by_cases h2 : (k3 == k2) = true
      · unfold goMapGet
        rw [@List.find?_cons_of_pos _ (fun q => q.1 == k2) (k3, v3) (goMapInsert rest k v) h2,
            @List.find?_cons_of_pos _ (fun q => q.1 == k2) (k3, v3) rest h2]
      · unfold goMapGet
        rw [@List.find?_cons_of_neg _ (fun q => q.1 == k2) (k3, v3) (goMapInsert rest k v) h2,
            @List.find?_cons_of_neg _ (fun q => q.1 == k2) (k3, v3) rest h2]
        exact ih

/-- Folding entries none of which carries the key leaves the key's lookup
unchanged. -/
theorem fetch_skip : ∀ (l : List NsDirEntry) (m : List (String × Nat)) (k : String),
    (∀ e ∈ l, e.name ≠ k) →
    goMapGet (l.foldl (fun m2 e => goMapInsert m2 e.name (processLink e.linkTarget)) m) k =
      goMapGet m k := by
  intro l
  induction l with
  | nil => intro m k _; rfl
  | cons e rest ih =>
    intro m k hk
    rw [List.foldl_cons]
    rw [ih _ k (fun e2 he2 => hk e2 (List.mem_cons_of_mem e he2))]
    exact goMapGet_insert_other m e.name k (processLink e.linkTarget)
      (hk e (List.mem_cons_self e rest))

/-- Folding the same entries over two maps that agree at a key keeps them
agreeing at that key. -/
theorem fetch_congr : ∀ (l : List NsDirEntry) (m m2 : List (String × Nat)) (k : String),
    goMapGet m k = goMapGet m2 k →
    goMapGet (l.foldl (fun acc e => goMapInsert acc e.name (processLink e.linkTarget)) m) k =
      goMapGet (l.foldl (fun acc e => goMapInsert acc e.name (processLink e.linkTarget)) m2) k := by
  intro l
  induction l with
  | nil => intro m m2 k h; exact h
  | cons e rest ih =>
    intro m m2 k h
    rw [List.foldl_cons, List.foldl_cons]
    apply ih
    by_cases he : e.name = k
    · rw [← he, goMapGet_insert_same, goMapGet_insert_same]
    · rw [goMapGet_insert_other m e.name k _ he, goMapGet_insert_other m2 e.name k _ he]
      exact h

/-- Every per-entry environment defect of the claim taxonomy (broken symlink,
pattern mismatch, empty or non-numeric trimmed suffix) makes the per-entry
pipeline record 0. -/
theorem processLink_defect (lt : Option String)
    (h : lt = none ∨
         regexpFindString ((lt.getD "").data) = [] ∨
         goTrim (regexpFindString ((lt.getD "").data)) = [] ∨
         ¬((goTrim (regexpFindString ((lt.getD "").data))).all
             (fun c => c.isDigit) = true)) :
    processLink lt = 0 := by
  rcases h with rfl | h | h | h
  · rfl
  · unfold processLink
    rw [h]
    rfl
  · unfold processLink
    rw [h]
    rfl
  · unfold processLink parseUint32Val
    by_cases he : (goTrim (regexpFindString ((lt.getD "").data))).isEmpty = true
    · rw [if_pos he]
    · rw [if_neg he, if_neg h]

/-- A digit is in the regular expression's bracket class. -/
theorem digit_class (c : Char) (h : c.isDigit = true) : nsClassChar c = true := by
  unfold nsClassChar
  rw [h, Bool.or_true]

/-- Distinct values compare `==`-false under a lawful `BEq`. -/
theorem beq_false_of_ne {α : Type} [BEq α] [LawfulBEq α] {a b : α} (h : a ≠ b) :
    (a == b) = false := by
  cases hb : a == b with
  | false => rfl
  | true => exact absurd (beq_iff_eq.mp hb) h

/-- A digit is not in the `"[]:"` trim cutset. -/
theorem digit_not_cutset (c : Char) (h : c.isDigit = true) : trimCutset c = false := by
  have h1 : c ≠ '[' := fun he => Bool.noConfusion (he ▸ h)
  have h2 : c ≠ ']' := fun he => Bool.noConfusion (he ▸ h)
  have h3 : c ≠ ':' := fun he => Bool.noConfusion (he ▸ h)
  unfold trimCutset
  rw [beq_false_of_ne h1, beq_false_of_ne h2, beq_false_of_ne h3]
  rfl

/-- Scanning past characters that are not `:` never matches. -/
theorem regexpFindString_skip :
    ∀ (l : List Char), (∀ c ∈ l, c ≠ ':') → ∀ s : List Char,
      regexpFindString (l ++ s) = regexpFindString s := by
  intro l
  induction l with
  | nil => intro _ s; rfl
  | cons c rest ih =>
    intro h s
    have hc : ¬((c == ':') = true) := by
      simp only [beq_iff_eq]
      exact h c (List.mem_cons_self c rest)
    have hm : nsMatchAt (c :: (rest ++ s)) = none := by
      simp [nsMatchAt, hc]
    have hstep : regexpFindString (c :: (rest ++ s)) = regexpFindString (rest ++ s) := by
      rw [regexpFindString, hm]
    rw [List.cons_append, hstep]
    exact ih (fun c2 hc2 => h c2 (List.mem_cons_of_mem c hc2)) s

/-- Take-while runs through a prefix on which the predicate holds. -/
theorem takeWhile_append_all (p : Char → Bool) :
    ∀ (l : List Char), (∀ c ∈ l, p c = true) → ∀ s : List Char,
      (l ++ s).takeWhile p = l ++ s.takeWhile p := by
  intro l
  induction l with
  | nil => intro _ s; rfl
  | cons c rest ih =>
    intro h s
    rw [List.cons_append, List.takeWhile_cons, if_pos (h c (List.mem_cons_self c rest))]
    rw [ih (fun c2 hc2 => h c2 (List.mem_cons_of_mem c hc2)) s]
    rfl

/-- Drop-while drops a prefix on which the predicate holds. -/
theorem dropWhile_append_all (p : Char → Bool) :
    ∀ (l : List Char), (∀ c ∈ l, p c = true) → ∀ s : List Char,
      (l ++ s).dropWhile p = s.dropWhile p := by
  intro l
  induction l with
  | nil => intro _ s; rfl
  | cons c rest ih =>
    intro h s
    rw [List.cons_append, List.dropWhile_cons, if_pos (h c (List.mem_cons_self c rest))]
    exact ih (fun c2 hc2 => h c2 (List.mem_cons_of_mem c hc2)) s

/-- On a target of shape `kind:[digits]` whose kind has no colon, `FindString`
returns `:[digits]`. -/
theorem regexpFindString_match (kind : List Char) (hkind : ∀ c ∈ kind, c ≠ ':')
    (ds : List Char) (hd : ∀ c ∈ ds, nsClassChar c = true) :
    regexpFindString (kind ++ ':' :: '[' :: (ds ++ [']'])) = ':' :: '[' :: (ds ++ [']']) := by
  rw [regexpFindString_skip kind hkind]
  have hdrop : ('[' :: (ds ++ [']'])).dropWhile nsClassChar = [']'] := by
    rw [List.dropWhile_cons, if_pos (by rfl)]
    rw [dropWhile_append_all nsClassChar ds hd [']']]
    rfl
  have htake : ('[' :: (ds ++ [']'])).takeWhile nsClassChar = '[' :: ds := by
    rw [List.takeWhile_cons, if_pos (by rfl)]
    rw [takeWhile_append_all nsClassChar ds hd [']']]
    rw [show List.takeWhile nsClassChar [']'] = [] from rfl, List.append_nil]
  have hm : nsMatchAt (':' :: '[' :: (ds ++ [']'])) =
      some (':' :: '[' :: (ds ++ [']'])) := by
    show (if (':' == ':') = true then
        match ('[' :: (ds ++ [']'])).dropWhile nsClassChar with
        | ']' :: _ => some (':' :: (('[' :: (ds ++ [']'])).takeWhile nsClassChar ++ [']']))
        | _ => none
      else none) = some (':' :: '[' :: (ds ++ [']']))
    rw [if_pos (by rfl), hdrop, htake]
    rfl
  simp only [regexpFindString, hm]

/-- Trimming `"[]:"` off the matched `:[digits]` leaves exactly the digits. -/
theorem goTrim_digits (ds : List Char) (hne : ds ≠ [])
    (hd : ∀ c ∈ ds, c.isDigit = true) :
    goTrim (':' :: '[' :: (ds ++ [']'])) = ds := by
  unfold goTrim
  have h1 : (':' :: '[' :: (ds ++ [']'])).dropWhile trimCutset = ds ++ [']'] := by
    rw [List.dropWhile_cons, if_pos (by rfl), List.dropWhile_cons, if_pos (by rfl)]
    cases ds with
    | nil => exact absurd rfl hne
    | cons c rest =>
      rw [List.cons_append, List.dropWhile_cons,
        if_neg (by rw [digit_not_cutset c (hd c (List.mem_cons_self c rest))]; exact
          Bool.noConfusion)]
  rw [h1, List.reverse_append]
  have h2 : ([']'] : List Char).reverse = [']'] := rfl
  rw [h2]
  show ((']' :: ds.reverse).dropWhile trimCutset).reverse = ds
  rw [List.dropWhile_cons, if_pos (by rfl)]
  have h3 : ds.reverse.dropWhile trimCutset = ds.reverse := by
    cases hr : ds.reverse with
    | nil => rfl
    | cons c rest =>
      rw [List.dropWhile_cons, if_neg ?hc]
      case hc =>
        have hcm : c ∈ ds := by
          rw [← List.mem_reverse, hr]
          exact List.mem_cons_self c rest
        rw [digit_not_cutset c (hd c hcm)]
        exact Bool.noConfusion
  rw [h3, List.reverse_reverse]

/-- Claim C1: for every state of the namespace-inspection directory, the event
produced by `CreateInitNamespacesEvent` has exactly one argument per entry of
the `EventsIDToParams` schema for `InitNamespacesEventID`, in schema order
(not directory iteration order), each value pulled from the kind-to-number
inventory by the argument's name with 0 for an absent name; in particular, for
a directory whose pid entry resolves to `pid:[12]` and whose net entry
resolves to `net:[4026531840]`, the produced event's pid argument is 12 and
its net argument is 4026531840. -/
theorem claim_C1 (dir : Option (List NsDirEntry)) (now : Int) :
    (CreateInitNamespacesEvent dir now).1.Args =
      (eventsIDToParamsGet InitNamespacesEventID).map
        (fun m => { argMeta := m, Value := goMapGet (fetchInitNamespaces dir) m.Name }) ∧
    (CreateInitNamespacesEvent dir now).1.ArgsNum =
      (eventsIDToParamsGet InitNamespacesEventID).length ∧
    (((CreateInitNamespacesEvent pidNetDir now).1.Args.find? (fun a => a.Name == "pid")).map
        (fun a => a.Value)) = some 12 ∧
    (((CreateInitNamespacesEvent pidNetDir now).1.Args.find? (fun a => a.Name == "net")).map
        (fun a => a.Value)) = some 4026531840 := by
  refine ⟨getInitNamespaceArguments_eq dir, rfl, ?_, ?_⟩
  · show (((getInitNamespaceArguments pidNetDir).find? (fun a => a.Name == "pid")).map
        (fun a => a.Value)) = some 12
    decide
  · show (((getInitNamespaceArguments pidNetDir).find? (fun a => a.Name == "net")).map
        (fun a => a.Value)) = some 4026531840
    decide

/-- Claim C2, counterexample to the literal statement: the registry contains
the `afs` event, yet the argument-schema table has no entry at all for its id
(the lookup is `none`, not an empty list). -/
theorem claim_C2_counterexample :
    (eventsIDToEventLookup AfsEventID).isSome = true ∧
    eventsIDToParamsLookup AfsEventID = none := by decide

/-- Claim C2, amended: for every key of the event registry except the twelve
schema-less ids (`paramslessEventIDs`: afs, create_module, epoll_ctl_old,
epoll_wait_old, get_kernel_syms, getpmsg, nfsservctl, putpmsg, query_module,
security, tuxcall, vserver), the argument-schema table contains an entry
(possibly an empty list); and every registry record — in particular every
identifier in the syscall band — has the compatibility id field present,
possibly equal to the undefined sentinel `sys32undefined`. -/
theorem claim_C2 :
    ∀ p ∈ EventsIDToEvent,
      (paramslessEventIDs.contains p.1 = false →
        (eventsIDToParamsLookup p.1).isSome = true) ∧
      (inSyscallBand p.1 → p.2.ID32Bit.isSome = true) := by
  intro p hp
  constructor
  · intro hc
    have h1 : p.1 ∈ EventsIDToEvent.map (fun q => q.1) :=
      List.mem_map_of_mem (fun q => q.1) hp
    have h2 : p.1 ∈ (EventsIDToEvent.map (fun q => q.1)).filter
        (fun i => !(paramslessEventIDs.contains i)) :=
      List.mem_filter.mpr ⟨h1, by rw [hc]; rfl⟩
    rw [params_filter_eq] at h2
    have h3 := find?_key_isSome EventsIDToParams p.1 h2
    unfold eventsIDToParamsLookup
    cases hfind : EventsIDToParams.find? (fun q => q.1 == p.1) with
    | none =>
      rw [hfind] at h3
      exact Bool.noConfusion h3
    | some q => rfl
  · intro _
    exact List.all_eq_true.mp events_id32_present p hp

/-- Claim C2, witness at the registry's `read` entry. -/
theorem claim_C2_witness :
    paramslessEventIDs.contains readEventEntry.1 = false ∧
    inSyscallBand readEventEntry.1 ∧
    (eventsIDToParamsLookup readEventEntry.1).isSome = true ∧
    readEventEntry.2.ID32Bit.isSome = true := by
  refine ⟨by decide, by decide, ?_, ?_⟩
  · exact (claim_C2 readEventEntry (by decide)).1 (by decide)
  · exact (claim_C2 readEventEntry (by decide)).2 (by decide)

/-- Claim C3: registry keys are globally unique, display names are unique,
every record's `ID` field equals its map key, and the id-to-name and
name-to-id lookups are mutual inverses on every registered entry. -/
theorem claim_C3 :
    (EventsIDToEvent.map (fun p => p.1)).Nodup ∧
    (EventsIDToEvent.map (fun p => p.2.Name)).Nodup ∧
    ∀ p ∈ EventsIDToEvent,
      p.2.ID = p.1 ∧
      eventsIDToEventLookup p.1 = some p.2 ∧
      eventsNameToID p.2.Name = some p.1 := by
  refine ⟨eventKeys_nodup, eventNames_nodup, ?_⟩
  intro p hp
  refine ⟨?_, ?_, ?_⟩
  · exact beq_iff_eq.mp (List.all_eq_true.mp eventsID_eq_key p hp)
  · have h := find?_map_nodup (fun q : Int × EventConfig => q.1)
      EventsIDToEvent eventKeys_nodup p hp
    unfold eventsIDToEventLookup
    rw [h]
    rfl
  · have h := find?_map_nodup (fun q : Int × EventConfig => q.2.Name)
      EventsIDToEvent eventNames_nodup p hp
    unfold eventsNameToID
    rw [h]
    rfl

/-- Claim C3, witness at the registry's `read` entry. -/
theorem claim_C3_witness :
    readEventEntry.2.ID = readEventEntry.1 ∧
    eventsIDToEventLookup readEventEntry.1 = some readEventEntry.2 ∧
    eventsNameToID readEventEntry.2.Name = some readEventEntry.1 :=
  claim_C3.2.2 readEventEntry (by decide)

/-- Claim C4: every registry record whose `EssentialEvent` flag is set has a
non-empty probe list. -/
theorem claim_C4 :
    ∀ p ∈ EventsIDToEvent, p.2.EssentialEvent = true → p.2.Probes ≠ [] := by
  intro p hp he hnil
  have h := List.all_eq_true.mp events_essential_probes p hp
  rw [he, hnil] at h
  exact Bool.noConfusion h

/-- Claim C4, witness at the essential `sys_enter` entry. -/
theorem claim_C4_witness : sysEnterEntry.2.Probes ≠ [] :=
  claim_C4 sysEnterEntry (by decide) rfl

/-- Claim C5: a per-entry environment defect (broken symlink, link target not
matching the `kind:[number]` pattern, or unparsable numeric suffix) is
isolated to that single namespace kind: the argument carrying that entry's
name has value 0, the full argument list coincides with the one synthesized
from the directory without the defective entry, and synthesis still returns
an event with a nil error. -/
theorem claim_C5 (pre post : List NsDirEntry) (e : NsDirEntry) (now : Int)
    (hdef : e.linkTarget = none ∨
            regexpFindString ((e.linkTarget.getD "").data) = [] ∨
            goTrim (regexpFindString ((e.linkTarget.getD "").data)) = [] ∨
            ¬((goTrim (regexpFindString ((e.linkTarget.getD "").data))).all
                (fun c => c.isDigit) = true))
    (hiso : ∀ e2 ∈ pre ++ post, e2.name ≠ e.name) :
    (CreateInitNamespacesEvent (some (pre ++ e :: post)) now).2 = none ∧
    (∀ a ∈ (CreateInitNamespacesEvent (some (pre ++ e :: post)) now).1.Args,
        a.Name = e.name → a.Value = 0) ∧
    (CreateInitNamespacesEvent (some (pre ++ e :: post)) now).1.Args =
      (CreateInitNamespacesEvent (some (pre ++ post)) now).1.Args := by
  have hz : processLink e.linkTarget = 0 := processLink_defect e.linkTarget hdef
  have hzero : goMapGet (fetchInitNamespaces (some (pre ++ e :: post))) e.name = 0 := by
    show goMapGet ((pre ++ e :: post).foldl
      (fun acc e2 => goMapInsert acc e2.name (processLink e2.linkTarget)) []) e.name = 0
    rw [List.foldl_append, List.foldl_cons]
    rw [fetch_skip post _ e.name (fun e2 he2 => hiso e2 (List.mem_append_right pre he2))]
    rw [goMapGet_insert_same, hz]
  have hfull : ∀ k, goMapGet (fetchInitNamespaces (some (pre ++ e :: post))) k =
      goMapGet (fetchInitNamespaces (some (pre ++ post))) k := by
    intro k
    show goMapGet ((pre ++ e :: post).foldl
        (fun acc e2 => goMapInsert acc e2.name (processLink e2.linkTarget)) []) k =
      goMapGet ((pre ++ post).foldl
        (fun acc e2 => goMapInsert acc e2.name (processLink e2.linkTarget)) []) k
    rw [List.foldl_append, List.foldl_append, List.foldl_cons]
    apply fetch_congr
    by_cases he : e.name = k
    · rw [← he, goMapGet_insert_same, hz]
      rw [fetch_skip pre [] e.name (fun e2 he2 => hiso e2 (List.mem_append_left post he2))]
      rfl
    · exact goMapGet_insert_other _ e.name k _ he
  have hargs : (CreateInitNamespacesEvent (some (pre ++ e :: post)) now).1.Args =
      (CreateInitNamespacesEvent (some (pre ++ post)) now).1.Args := by
    show getInitNamespaceArguments (some (pre ++ e :: post)) =
      getInitNamespaceArguments (some (pre ++ post))
    rw [getInitNamespaceArguments_eq, getInitNamespaceArguments_eq]
    exact List.map_congr_left (fun m _ => by rw [hfull m.Name])
  refine ⟨rfl, ?_, hargs⟩
  intro a ha hname
  have ha2 : a ∈ (eventsIDToParamsGet InitNamespacesEventID).map
      (fun m => { argMeta := m, Value := goMapGet (fetchInitNamespaces (some (pre ++ e :: post))) m.Name }) := by
    rw [← getInitNamespaceArguments_eq]
    exact ha
  obtain ⟨m, hm, rfl⟩ := List.mem_map.mp ha2
  show goMapGet (fetchInitNamespaces (some (pre ++ e :: post))) m.Name = 0
  have hname2 : m.Name = e.name := hname
  rw [hname2]
  exact hzero

/-- Claim C5, witness: a three-entry directory whose pid entry's link target
does not match the pattern; the pid argument is 0, the other arguments match
the directory without the pid entry, and the error is nil. -/
theorem claim_C5_witness :
    (CreateInitNamespacesEvent (some ([mntEntry] ++ pidBrokenEntry :: [netEntry])) 0).2 = none ∧
    (∀ a ∈ (CreateInitNamespacesEvent
        (some ([mntEntry] ++ pidBrokenEntry :: [netEntry])) 0).1.Args,
        a.Name = pidBrokenEntry.name → a.Value = 0) ∧
    (CreateInitNamespacesEvent (some ([mntEntry] ++ pidBrokenEntry :: [netEntry])) 0).1.Args =
      (CreateInitNamespacesEvent (some ([mntEntry] ++ [netEntry])) 0).1.Args :=
  claim_C5 [mntEntry] [netEntry] pidBrokenEntry 0 (Or.inr (Or.inl (by decide))) (by decide)

/-- Claim C6: when reading the namespace directory fails wholesale, the
synthesizer still returns an event with a nil error whose every argument has
value zero. -/
theorem claim_C6 (now : Int) :
    (CreateInitNamespacesEvent none now).2 = none ∧
    (CreateInitNamespacesEvent none now).1.Args =
      (eventsIDToParamsGet InitNamespacesEventID).map
        (fun m => { argMeta := m, Value := 0 }) ∧
    ((CreateInitNamespacesEvent none now).1.Args.all (fun a => a.Value == 0)) = true :=
  ⟨rfl, rfl, rfl⟩

/-- Claim C7, counterexample to the literal statement: two calls over the same
unchanged directory but at distinct clock readings return events that are not
equal, because the `Timestamp` field records the wall clock. -/
theorem claim_C7_counterexample :
    ¬ ((CreateInitNamespacesEvent (some []) 0).1 =
        (CreateInitNamespacesEvent (some []) 1).1) := by decide

/-- Claim C7, amended: two calls over the same directory agree on every field
except `Timestamp` (which holds each call's own clock reading) and on the
error component; in particular they are equal whenever the clock readings
coincide. -/
theorem claim_C7 (dir : Option (List NsDirEntry)) (t1 t2 : Int) :
    (CreateInitNamespacesEvent dir t1).1 =
      { (CreateInitNamespacesEvent dir t2).1 with Timestamp := t1 } ∧
    (CreateInitNamespacesEvent dir t1).2 = (CreateInitNamespacesEvent dir t2).2 :=
  ⟨rfl, rfl⟩

/-- Claim C8: the Scalar Config Slot enumeration is the dense contiguous
range 1..20 in declaration order: its least value is 1, 0 is never a slot,
and no two named slots share a value. -/
theorem claim_C8 :
    bpfConfigValues = List.range' 1 20 ∧
    bpfConfigValues.min? = some 1 ∧
    bpfConfigValues.contains 0 = false ∧
    bpfConfigValues.Nodup := by decide

/-- Claim C9: the Tail-Dispatch Slot enumeration is the dense contiguous
range 0..3 in declaration order: the first declared slot is 0 and no two
named slots share a value. -/
theorem claim_C9 :
    tailCallValues = List.range' 0 4 ∧
    tailCallValues.head? = some 0 ∧
    tailCallValues.Nodup := by decide

/-- Claim C10: when a link target matches the `kind:[number]` pattern but the
decimal number exceeds 2^32 - 1, `fetchInitNamespaces` records the saturated
value 4294967295 for that namespace kind — not 0 — because the range error of
the 32-bit unsigned parse is dropped while its clamped result is kept. -/
theorem claim_C10 (name kind target : String) (ds : List Char)
    (hkind : ∀ c ∈ kind.data, c ≠ ':')
    (htarget : target.data = kind.data ++ ':' :: '[' :: (ds ++ [']']))
    (hne : ds ≠ [])
    (hdig : ∀ c ∈ ds, c.isDigit = true)
    (hover : 4294967295 < digitsVal ds) :
    fetchInitNamespaces (some [{ name := name, linkTarget := some target }]) =
      [(name, 4294967295)] := by
  have h1 : processLink (some target) = 4294967295 := by
    show parseUint32Val (goTrim (regexpFindString target.data)) = 4294967295
    rw [htarget]
    rw [regexpFindString_match kind.data hkind ds (fun c hc => digit_class c (hdig c hc))]
    rw [goTrim_digits ds hne hdig]
    unfold parseUint32Val
    rw [if_neg (by cases ds with
          | nil => exact absurd rfl hne
          | cons c r => simp),
        if_pos (List.all_eq_true.mpr hdig)]
    exact Nat.min_eq_right (Nat.le_of_lt hover)
  show goMapInsert [] name (processLink (some target)) = [(name, 4294967295)]
  rw [h1]
  rfl

/-- Claim C10, witness at the overflowing target `pid:[4294967296]`. -/
theorem claim_C10_witness :
    fetchInitNamespaces (some [{ name := "pid", linkTarget := some "pid:[4294967296]" }]) =
      [("pid", 4294967295)] :=
  claim_C10 "pid" "pid" "pid:[4294967296]" "4294967296".data
    (by decide) (by decide) (by decide) (by decide) (by decide)

end Tracee
